import Mathlib

/-!
# GrGpu: geometry-source stack, buffer pools, stencil attachment, quad index cache

A shallow embedding of `src/gpu/GrGpu.cpp`.

Conventions of the embedding.

* The embedding follows the `SK_DEBUG` build: a failing `SkASSERT` aborts the
  call (`Abort.assertFailed`), `SkFAIL` aborts (`Abort.fail`), calling a method
  through a `NULL` pool pointer aborts (`Abort.nullDeref`), and the
  `#ifdef SK_DEBUG` poisoning of freed slots is performed.
* Objects (buffers, textures, render targets, stencil buffers) are identified by
  their address, a `Nat`.  Reference counts live in `GrGpu.refCnt`.
* An `SkTArray` used as a stack is a `List` whose head is `back()`.
* Everything outside `GrGpu.cpp` (capabilities, backend virtuals, the buffer
  pools, the stencil cache of the context, constants of other headers) is the
  environment `Env`.  Each backend-affecting call is appended to `GrGpu.log`,
  and the answers of the environment may depend on the whole log so far, so any
  deterministic backend is covered.
* `int` values are `Int`, `size_t` values are `Nat`; a `size_t` product is taken
  modulo `2^64` and a `uint16_t` store modulo `2^16`.
-/

namespace GrGpu

/-- Ways in which a call can abort. -/
inductive Abort where
  | assertFailed
  | fail
  | nullDeref
  deriving DecidableEq, Repr

/-- The source kinds of `GrDrawTarget::GeometrySrcType` that `GrGpu.cpp` switches on. -/
inductive GeometrySrcType where
  | kNone_GeometrySrcType
  | kReserved_GeometrySrcType
  | kBuffer_GeometrySrcType
  deriving DecidableEq, Repr

open GeometrySrcType

/-- One level of `fGeoSrcStateStack` (`GrDrawTarget::GeometrySrcState`). -/
structure GeometrySrcState where
  fVertexSrc : GeometrySrcType
  fIndexSrc : GeometrySrcType
  fVertexBuffer : Nat
  fIndexBuffer : Nat
  fVertexCount : Int
  fIndexCount : Int
  fVertexSize : Nat
  deriving DecidableEq, Repr

/-- One level of `fGeomPoolStateStack` (`GrGpu::GeometryPoolState`). -/
structure GeometryPoolState where
  fPoolVertexBuffer : Nat
  fPoolStartVertex : Int
  fPoolIndexBuffer : Nat
  fPoolStartIndex : Int
  deriving DecidableEq, Repr

/-- A trace marker (`GrGpuTraceMarker`): its name and its id. -/
structure GrGpuTraceMarker where
  fMarker : Nat
  fID : Int
  deriving DecidableEq, Repr

/-- The fields of `GrSurfaceDesc` read by `createTexture`. -/
structure GrSurfaceDesc where
  fFlags : Nat
  fWidth : Int
  fHeight : Int
  fConfig : Nat
  fSampleCnt : Int
  deriving DecidableEq, Repr

/-- A render target as seen by the facade: address and the three queried sizes. -/
structure GrRenderTarget where
  ptr : Nat
  width : Int
  height : Int
  numSamples : Int
  deriving DecidableEq, Repr

/-- A texture handed back by the backend: address and `asRenderTarget()`. -/
structure GrTexture where
  ptr : Nat
  asRenderTarget : Option GrRenderTarget
  deriving DecidableEq, Repr

/-- What `makeSpace` of a pool hands back: the returned pointer (`none` is `NULL`)
and the two out-parameters it writes. -/
structure MakeSpaceResult where
  ptr : Option Nat
  buffer : Nat
  start : Int
  deriving DecidableEq, Repr

/-- The draw types `GrGpu::DrawType` passed to `flushGraphicsState`. -/
inductive DrawType where
  | kDrawPoints_DrawType
  | kDrawLines_DrawType
  | kDrawTriangles_DrawType
  | kStencilPath_DrawType
  | kDrawPath_DrawType
  | kDrawPaths_DrawType
  deriving DecidableEq, Repr

/-- What `onDraw` reads of a `GrDrawTarget::DrawInfo`: the primitive type and the
destination copy (`none` is `NULL`); `rest` stands for the other fields, which
are passed through. -/
structure DrawInfo where
  primitiveType : Nat
  dstCopy : Option Nat
  rest : Nat
  deriving DecidableEq, Repr

/-- Calls that leave `GrGpu.cpp`, in the order they are issued. -/
inductive Event where
  | handleDirtyContext
  | onCreateTexture (desc : GrSurfaceDesc) (rowBytes : Nat)
  | onCreateCompressedTexture (desc : GrSurfaceDesc)
  | backendAttachStencilBuffer (sb : Nat) (rt : GrRenderTarget)
  | createStencilBufferForRenderTarget (rt : GrRenderTarget) (width height : Int)
  | clearStencil (rt : GrRenderTarget)
  | onCreateIndexBuffer (size : Nat) (dynamic : Bool)
  | bufferMap (buffer : Nat)
  | bufferWriteMapped (buffer : Nat) (data : List Nat)
  | bufferUnmap (buffer : Nat)
  | bufferUpdateData (buffer : Nat) (data : List Nat) (size : Nat)
  | vertexPoolCreate (frequentResetHint : Bool) (bufferSize : Nat) (preallocBufferCnt : Int)
  | vertexPoolReleaseGpuRef
  | vertexPoolReset
  | vertexPoolUnmap
  | vertexPoolMakeSpace (vertexSize : Nat) (vertexCount : Int)
  | vertexPoolPutBack (bytes : Nat)
  | indexPoolCreate (frequentResetHint : Bool) (bufferSize : Nat) (preallocBufferCnt : Int)
  | indexPoolReleaseGpuRef
  | indexPoolReset
  | indexPoolUnmap
  | indexPoolMakeSpace (indexCount : Int)
  | indexPoolPutBack (bytes : Nat)
  | onWrapBackendTexture (desc : Nat)
  | onWrapBackendRenderTarget (desc : Nat)
  | onCreateVertexBuffer (size : Nat) (dynamic : Bool)
  | onGpuClear (rt : GrRenderTarget) (rect : Option Nat) (color : Nat) (canIgnoreRect : Bool)
  | onClearStencilClip (rt : GrRenderTarget) (rect : Nat) (insideClip : Bool)
  | onReadPixels (target : GrRenderTarget) (left top width height : Int) (config : Nat)
      (rowBytes : Nat)
  | onWriteTexturePixels (texture : GrTexture) (left top width height : Int) (config : Nat)
      (rowBytes : Nat)
  | onResolveRenderTarget (target : GrRenderTarget)
  | flushGraphicsState (drawType : DrawType) (scissorState : Nat) (dstCopy : Option Nat)
  | onGpuDraw (info : DrawInfo)
  | stencilPath (path : Nat) (stencilSettings : Nat)
  | drawPath (path : Nat) (stencilSettings : Nat)
  | willDrawPaths (pathRange : Nat) (indices : Nat) (count : Int)
  | drawPaths (pathRange : Nat) (indices : Nat) (count : Int) (transforms : Nat)
      (transformsType : Nat) (stencilSettings : Nat)
  | didAddGpuTraceMarker
  | didRemoveGpuTraceMarker
  deriving DecidableEq, Repr

/-- Everything `GrGpu.cpp` calls but does not define.  The `List Event`
argument is the log at the moment of the call. -/
structure Env where
  kRenderTarget_GrSurfaceFlag : Nat
  kNoStencil_GrSurfaceFlag : Nat
  GrPixelConfigIsCompressed : Nat → Bool
  SkIsPow2 : Int → Bool
  isConfigTexturable : Nat → Bool
  isConfigRenderable : Nat → Bool → Bool
  npotTextureTileSupport : Bool
  gpuTracingSupport : Bool
  onCreateTexture : List Event → GrSurfaceDesc → Nat → Option GrTexture
  onCreateCompressedTexture : List Event → GrSurfaceDesc → Option GrTexture
  findStencilBuffer : List Event → Int → Int → Int → Option Nat
  backendAttachStencilBuffer : List Event → Nat → GrRenderTarget → Bool
  createStencilBufferForRenderTarget : List Event → GrRenderTarget → Int → Int → Bool
  onCreateIndexBuffer : List Event → Nat → Bool → Option Nat
  bufferMap : List Event → Nat → Bool
  bufferUpdateData : List Event → Nat → List Nat → Nat → Bool
  wasDestroyed : List Event → Nat → Bool
  isDynamicDefault : Bool
  vertexMakeSpace : List Event → Nat → Int → MakeSpaceResult
  indexMakeSpace : List Event → Int → MakeSpaceResult
  PrimTypeToDrawType : Nat → DrawType
  onWrapBackendTexture : List Event → Nat → Option GrTexture
  onWrapBackendRenderTarget : List Event → Nat → Option GrRenderTarget
  onCreateVertexBuffer : List Event → Nat → Bool → Option Nat
  onReadPixels : List Event → GrRenderTarget → Int → Int → Int → Int → Nat → Nat → Bool
  onWriteTexturePixels : List Event → GrTexture → Int → Int → Int → Int → Nat → Nat → Bool
  flushGraphicsState : List Event → DrawType → Nat → Option Nat → Bool

end GrGpu

/-- The state of a `GrGpu` object together with the heap cells it touches. -/
structure GrGpu where
  fVertexPool : Bool
  fIndexPool : Bool
  fVertexPoolUseCnt : Int
  fIndexPoolUseCnt : Int
  fQuadIndexBuffer : Option Nat
  fGeomPoolStateStack : List GrGpu.GeometryPoolState
  fGeoSrcStateStack : List GrGpu.GeometrySrcState
  fActiveTraceMarkers : List GrGpu.GrGpuTraceMarker
  fStoredTraceMarkers : List GrGpu.GrGpuTraceMarker
  fGpuTraceMarkerCount : Int
  vertexStride : Nat
  drawStateRenderTarget : Option GrGpu.GrRenderTarget
  refCnt : Nat → Int
  rtStencilBuffer : Nat → Option Nat
  log : List GrGpu.Event

namespace GrGpu

open GeometrySrcType

def VERTEX_POOL_VB_SIZE : Nat := 2 ^ 18

def VERTEX_POOL_VB_COUNT : Int := 4

def INDEX_POOL_IB_SIZE : Nat := 2 ^ 16

def INDEX_POOL_IB_COUNT : Int := 4

def DEBUG_INVAL_BUFFER : Nat := 0xdeadcafe

def DEBUG_INVAL_START_IDX : Int := -1

/-- The pointer `(T*)~0` on a 64-bit target. -/
def allOnesPtr : Nat := 2 ^ 64 - 1

/-- The product `count * size` of an `int` and a `size_t`, as a `size_t`. -/
def sizeMul (count : Int) (size : Nat) : Nat :=
  ((count * (size : Int)) % (2 ^ 64 : Int)).toNat

/-- Modelled from the spec: the stacks are `SkTArray`s, declared outside `src/`;
this is `back()`, which asserts that the array is not empty. -/
def back {α : Type} : List α → Except Abort α
  | [] => .error .assertFailed
  | x :: _ => .ok x

/-- Modelled from the spec: the accessor `fromBack(i)` of `SkTArray`, which
asserts that the index is in range. -/
def fromBack {α : Type} (xs : List α) (i : Nat) : Except Abort α :=
  match xs.get? i with
  | none => .error .assertFailed
  | some x => .ok x

/-- Modelled from the spec: the method `pop_back()` of `SkTArray`, which asserts
that the array is not empty. -/
def pop_back {α : Type} : List α → Except Abort (List α)
  | [] => .error .assertFailed
  | _ :: xs => .ok xs

/-- Overwrites the element `back()` refers to. -/
def setBack {α : Type} (x : α) : List α → List α
  | [] => []
  | _ :: xs => x :: xs

/-- The pool-state level the constructor and `geometrySourceWillPush` create. -/
def debugPoolState : GeometryPoolState :=
  { fPoolVertexBuffer := DEBUG_INVAL_BUFFER, fPoolStartVertex := DEBUG_INVAL_START_IDX,
    fPoolIndexBuffer := DEBUG_INVAL_BUFFER, fPoolStartIndex := DEBUG_INVAL_START_IDX }

/-- The geometry-source level the constructor creates; `fVertexSize` is left
unset by the source and is 0 here. -/
def constructedSrcState : GeometrySrcState :=
  { fVertexSrc := kNone_GeometrySrcType, fIndexSrc := kNone_GeometrySrcType,
    fVertexBuffer := DEBUG_INVAL_BUFFER, fIndexBuffer := DEBUG_INVAL_BUFFER,
    fVertexCount := DEBUG_INVAL_START_IDX, fIndexCount := DEBUG_INVAL_START_IDX,
    fVertexSize := 0 }

/-- The constructor `GrGpu::GrGpu`. -/
def init : GrGpu :=
  { fVertexPool := false, fIndexPool := false, fVertexPoolUseCnt := 0, fIndexPoolUseCnt := 0,
    fQuadIndexBuffer := none,
    fGeomPoolStateStack := [debugPoolState],
    fGeoSrcStateStack := [constructedSrcState],
    fActiveTraceMarkers := [], fStoredTraceMarkers := [], fGpuTraceMarkerCount := 0,
    vertexStride := 0, drawStateRenderTarget := none, refCnt := fun _ => 0, rtStencilBuffer := fun _ => none, log := [] }

/-- Appends one call to the log. -/
def emit (e : Event) (s : GrGpu) : GrGpu :=
  { s with log := s.log ++ [e] }

/-- Modelled from the spec: `ref()` of a reference-counted object, declared
outside `src/`; it adds one reference. -/
def ref (p : Nat) (s : GrGpu) : GrGpu :=
  { s with refCnt := Function.update s.refCnt p (s.refCnt p + 1) }

/-- Modelled from the spec: `unref()` of a reference-counted object, declared
outside `src/`; it releases one reference.  Only the count is tracked: the
destruction of the object when the count reaches 0 is not modelled, so a
statement about an object says what the code does only as long as the count of
that object stays at 1 or more. -/
def unref (p : Nat) (s : GrGpu) : GrGpu :=
  { s with refCnt := Function.update s.refCnt p (s.refCnt p - 1) }

/-- Modelled from the spec: the accessor `getGeomSrc()`, declared outside `src/`;
it is the current top level, the back of `fGeoSrcStateStack`. -/
def getGeomSrc (s : GrGpu) : Except Abort GeometrySrcState :=
  back s.fGeoSrcStateStack

/-- Modelled from the spec: the context hook `handleDirtyContext()`, declared
outside `src/`; the call is logged. -/
def handleDirtyContext (s : GrGpu) : GrGpu :=
  emit .handleDirtyContext s

def finalizeReservedVertices (s : GrGpu) : Except Abort GrGpu :=
  if s.fVertexPool = false then .error .assertFailed
  else .ok (emit .vertexPoolUnmap s)

def finalizeReservedIndices (s : GrGpu) : Except Abort GrGpu :=
  if s.fIndexPool = false then .error .assertFailed
  else .ok (emit .indexPoolUnmap s)

def prepareVertexPool (s : GrGpu) : Except Abort GrGpu :=
  if s.fVertexPool = false then
    if s.fVertexPoolUseCnt ≠ 0 then .error .assertFailed
    else .ok (emit .vertexPoolReleaseGpuRef
      (emit (.vertexPoolCreate true VERTEX_POOL_VB_SIZE VERTEX_POOL_VB_COUNT)
        { s with fVertexPool := true }))
  else if s.fVertexPoolUseCnt = 0 then .ok (emit .vertexPoolReset s)
  else .ok s

def prepareIndexPool (s : GrGpu) : Except Abort GrGpu :=
  if s.fIndexPool = false then
    if s.fIndexPoolUseCnt ≠ 0 then .error .assertFailed
    else .ok (emit .indexPoolReleaseGpuRef
      (emit (.indexPoolCreate true INDEX_POOL_IB_SIZE INDEX_POOL_IB_COUNT)
        { s with fIndexPool := true }))
  else if s.fIndexPoolUseCnt = 0 then .ok (emit .indexPoolReset s)
  else .ok s

/-- The reservation of vertex space.  The result is the returned `bool` and the
value stored through the out-parameter `vertices`, which is taken to be a valid
location (`SkASSERT(vertices)` holds). -/
def onReserveVertexSpace (env : Env) (vertexSize : Nat) (vertexCount : Int) (s : GrGpu) :
    Except Abort ((Bool × Option Nat) × GrGpu) :=
  match back s.fGeomPoolStateStack with
  | .error e => .error e
  | .ok geomPoolState =>
    if ¬ vertexCount > 0 then .error .assertFailed
    else
      match prepareVertexPool s with
      | .error e => .error e
      | .ok s1 =>
        let r := env.vertexMakeSpace s1.log vertexSize vertexCount
        let s2 : GrGpu :=
          { emit (.vertexPoolMakeSpace vertexSize vertexCount) s1 with
            fGeomPoolStateStack :=
              setBack { geomPoolState with fPoolVertexBuffer := r.buffer,
                                           fPoolStartVertex := r.start }
                s1.fGeomPoolStateStack }
        match r.ptr with
        | none => .ok ((false, none), s2)
        | some p => .ok ((true, some p), { s2 with fVertexPoolUseCnt := s2.fVertexPoolUseCnt + 1 })

/-- The reservation of index space, as `onReserveVertexSpace`. -/
def onReserveIndexSpace (env : Env) (indexCount : Int) (s : GrGpu) :
    Except Abort ((Bool × Option Nat) × GrGpu) :=
  match back s.fGeomPoolStateStack with
  | .error e => .error e
  | .ok geomPoolState =>
    if ¬ indexCount > 0 then .error .assertFailed
    else
      match prepareIndexPool s with
      | .error e => .error e
      | .ok s1 =>
        let r := env.indexMakeSpace s1.log indexCount
        let s2 : GrGpu :=
          { emit (.indexPoolMakeSpace indexCount) s1 with
            fGeomPoolStateStack :=
              setBack { geomPoolState with fPoolIndexBuffer := r.buffer,
                                           fPoolStartIndex := r.start }
                s1.fGeomPoolStateStack }
        match r.ptr with
        | none => .ok ((false, none), s2)
        | some p => .ok ((true, some p), { s2 with fIndexPoolUseCnt := s2.fIndexPoolUseCnt + 1 })

/-- Forgets the state an abort carries. -/
def forgetAbortState {α : Type} : Except (Abort × GrGpu) α → Except Abort α
  | .error (e, _) => .error e
  | .ok r => .ok r

/-- The method `prepareVertexPool` once more, an abort now carrying the state of
the object at the failing assertion. -/
def prepareVertexPoolTraced (s : GrGpu) : Except (Abort × GrGpu) GrGpu :=
  if s.fVertexPool = false then
    if s.fVertexPoolUseCnt ≠ 0 then .error (.assertFailed, s)
    else .ok (emit .vertexPoolReleaseGpuRef
      (emit (.vertexPoolCreate true VERTEX_POOL_VB_SIZE VERTEX_POOL_VB_COUNT)
        { s with fVertexPool := true }))
  else if s.fVertexPoolUseCnt = 0 then .ok (emit .vertexPoolReset s)
  else .ok s

/-- The method `prepareIndexPool` once more, an abort now carrying the state of
the object at the failing assertion. -/
def prepareIndexPoolTraced (s : GrGpu) : Except (Abort × GrGpu) GrGpu :=
  if s.fIndexPool = false then
    if s.fIndexPoolUseCnt ≠ 0 then .error (.assertFailed, s)
    else .ok (emit .indexPoolReleaseGpuRef
      (emit (.indexPoolCreate true INDEX_POOL_IB_SIZE INDEX_POOL_IB_COUNT)
        { s with fIndexPool := true }))
  else if s.fIndexPoolUseCnt = 0 then .ok (emit .indexPoolReset s)
  else .ok s

/-- The method `onReserveVertexSpace` once more, an abort now carrying the state
of the object at the failing assertion: what the object has done by the time the
call is rejected can be read off it. -/
def onReserveVertexSpaceTraced (env : Env) (vertexSize : Nat) (vertexCount : Int) (s : GrGpu) :
    Except (Abort × GrGpu) ((Bool × Option Nat) × GrGpu) :=
  match back s.fGeomPoolStateStack with
  | .error e => .error (e, s)
  | .ok geomPoolState =>
    if ¬ vertexCount > 0 then .error (.assertFailed, s)
    else
      match prepareVertexPoolTraced s with
      | .error e => .error e
      | .ok s1 =>
        let r := env.vertexMakeSpace s1.log vertexSize vertexCount
        let s2 : GrGpu :=
          { emit (.vertexPoolMakeSpace vertexSize vertexCount) s1 with
            fGeomPoolStateStack :=
              setBack { geomPoolState with fPoolVertexBuffer := r.buffer,
                                           fPoolStartVertex := r.start }
                s1.fGeomPoolStateStack }
        match r.ptr with
        | none => .ok ((false, none), s2)
        | some p => .ok ((true, some p), { s2 with fVertexPoolUseCnt := s2.fVertexPoolUseCnt + 1 })

/-- The method `onReserveIndexSpace` once more, as `onReserveVertexSpaceTraced`. -/
def onReserveIndexSpaceTraced (env : Env) (indexCount : Int) (s : GrGpu) :
    Except (Abort × GrGpu) ((Bool × Option Nat) × GrGpu) :=
  match back s.fGeomPoolStateStack with
  | .error e => .error (e, s)
  | .ok geomPoolState =>
    if ¬ indexCount > 0 then .error (.assertFailed, s)
    else
      match prepareIndexPoolTraced s with
      | .error e => .error e
      | .ok s1 =>
        let r := env.indexMakeSpace s1.log indexCount
        let s2 : GrGpu :=
          { emit (.indexPoolMakeSpace indexCount) s1 with
            fGeomPoolStateStack :=
              setBack { geomPoolState with fPoolIndexBuffer := r.buffer,
                                           fPoolStartIndex := r.start }
                s1.fGeomPoolStateStack }
        match r.ptr with
        | none => .ok ((false, none), s2)
        | some p => .ok ((true, some p), { s2 with fIndexPoolUseCnt := s2.fIndexPoolUseCnt + 1 })

def releaseReservedVertexSpace (s : GrGpu) : Except Abort GrGpu :=
  match getGeomSrc s with
  | .error e => .error e
  | .ok geoSrc =>
    if geoSrc.fVertexSrc ≠ kReserved_GeometrySrcType then .error .assertFailed
    else if s.fVertexPool = false then .error .nullDeref
    else
      .ok { emit (.vertexPoolPutBack (sizeMul geoSrc.fVertexCount geoSrc.fVertexSize)) s with
            fVertexPoolUseCnt := s.fVertexPoolUseCnt - 1 }

def releaseReservedIndexSpace (s : GrGpu) : Except Abort GrGpu :=
  match getGeomSrc s with
  | .error e => .error e
  | .ok geoSrc =>
    if geoSrc.fIndexSrc ≠ kReserved_GeometrySrcType then .error .assertFailed
    else if s.fIndexPool = false then .error .nullDeref
    else
      .ok { emit (.indexPoolPutBack (sizeMul geoSrc.fIndexCount 2)) s with
            fIndexPoolUseCnt := s.fIndexPoolUseCnt - 1 }

def releasePreviousVertexSource (s : GrGpu) : Except Abort GrGpu :=
  match back s.fGeoSrcStateStack with
  | .error e => .error e
  | .ok geoSrc =>
    match geoSrc.fVertexSrc with
    | kNone_GeometrySrcType => .ok s
    | kReserved_GeometrySrcType => releaseReservedVertexSpace s
    | kBuffer_GeometrySrcType =>
      .ok { unref geoSrc.fVertexBuffer s with
            fGeoSrcStateStack :=
              setBack { geoSrc with fVertexBuffer := DEBUG_INVAL_BUFFER } s.fGeoSrcStateStack }

def releasePreviousIndexSource (s : GrGpu) : Except Abort GrGpu :=
  match back s.fGeoSrcStateStack with
  | .error e => .error e
  | .ok geoSrc =>
    match geoSrc.fIndexSrc with
    | kNone_GeometrySrcType => .ok s
    | kReserved_GeometrySrcType => releaseReservedIndexSpace s
    | kBuffer_GeometrySrcType =>
      .ok { unref geoSrc.fIndexBuffer s with
            fGeoSrcStateStack :=
              setBack { geoSrc with fIndexBuffer := DEBUG_INVAL_BUFFER } s.fGeoSrcStateStack }

def setVertexSourceToBuffer (buffer : Nat) (s : GrGpu) : Except Abort GrGpu :=
  match releasePreviousVertexSource s with
  | .error e => .error e
  | .ok s1 =>
    match back s1.fGeoSrcStateStack with
    | .error e => .error e
    | .ok geoSrc =>
      let top : GeometrySrcState :=
        { geoSrc with fVertexSrc := kBuffer_GeometrySrcType, fVertexBuffer := buffer }
      let s2 : GrGpu := { s1 with fGeoSrcStateStack := setBack top s1.fGeoSrcStateStack }
      let s3 := ref buffer s2
      match back s3.fGeoSrcStateStack with
      | .error e => .error e
      | .ok geoSrc3 =>
        .ok { s3 with fGeoSrcStateStack :=
                setBack { geoSrc3 with fVertexSize := s3.vertexStride } s3.fGeoSrcStateStack }

def setIndexSourceToBuffer (buffer : Nat) (s : GrGpu) : Except Abort GrGpu :=
  match releasePreviousIndexSource s with
  | .error e => .error e
  | .ok s1 =>
    match back s1.fGeoSrcStateStack with
    | .error e => .error e
    | .ok geoSrc =>
      let top : GeometrySrcState :=
        { geoSrc with fIndexSrc := kBuffer_GeometrySrcType, fIndexBuffer := buffer }
      .ok (ref buffer { s1 with fGeoSrcStateStack := setBack top s1.fGeoSrcStateStack })

def resetVertexSource (s : GrGpu) : Except Abort GrGpu :=
  match releasePreviousVertexSource s with
  | .error e => .error e
  | .ok s1 =>
    match back s1.fGeoSrcStateStack with
    | .error e => .error e
    | .ok geoSrc =>
      .ok { s1 with fGeoSrcStateStack :=
              setBack { geoSrc with fVertexSrc := kNone_GeometrySrcType } s1.fGeoSrcStateStack }

def resetIndexSource (s : GrGpu) : Except Abort GrGpu :=
  match releasePreviousIndexSource s with
  | .error e => .error e
  | .ok s1 =>
    match back s1.fGeoSrcStateStack with
    | .error e => .error e
    | .ok geoSrc =>
      .ok { s1 with fGeoSrcStateStack :=
              setBack { geoSrc with fIndexSrc := kNone_GeometrySrcType } s1.fGeoSrcStateStack }

def geometrySourceWillPush (s : GrGpu) : Except Abort GrGpu :=
  match getGeomSrc s with
  | .error e => .error e
  | .ok geoSrc =>
    match (if geoSrc.fVertexSrc = kReserved_GeometrySrcType
           then finalizeReservedVertices s else .ok s) with
    | .error e => .error e
    | .ok s1 =>
      match (if geoSrc.fIndexSrc = kReserved_GeometrySrcType
             then finalizeReservedIndices s1 else .ok s1) with
      | .error e => .error e
      | .ok s2 =>
        .ok { s2 with fGeomPoolStateStack := debugPoolState :: s2.fGeomPoolStateStack }

def geometrySourceWillPop (_restoredState : GeometrySrcState) (s : GrGpu) : Except Abort GrGpu :=
  if ¬ s.fGeomPoolStateStack.length > 1 then .error .assertFailed
  else
    match pop_back s.fGeomPoolStateStack with
    | .error e => .error e
    | .ok st => .ok { s with fGeomPoolStateStack := st }

/-- The level `pushGeometrySource` pushes; `fVertexSize` is left unset by the
source and is 0 here. -/
def pushedSrcState : GeometrySrcState :=
  { fVertexSrc := kNone_GeometrySrcType, fIndexSrc := kNone_GeometrySrcType,
    fVertexBuffer := allOnesPtr, fIndexBuffer := allOnesPtr,
    fVertexCount := -1, fIndexCount := -1, fVertexSize := 0 }

def pushGeometrySource (s : GrGpu) : Except Abort GrGpu :=
  match geometrySourceWillPush s with
  | .error e => .error e
  | .ok s1 => .ok { s1 with fGeoSrcStateStack := pushedSrcState :: s1.fGeoSrcStateStack }

def popGeometrySource (s : GrGpu) : Except Abort GrGpu :=
  if ¬ s.fGeoSrcStateStack.length > 1 then .error .assertFailed
  else
    match fromBack s.fGeoSrcStateStack 1 with
    | .error e => .error e
    | .ok restored =>
      match geometrySourceWillPop restored s with
      | .error e => .error e
      | .ok s1 =>
        match releasePreviousVertexSource s1 with
        | .error e => .error e
        | .ok s2 =>
          match releasePreviousIndexSource s2 with
          | .error e => .error e
          | .ok s3 =>
            match pop_back s3.fGeoSrcStateStack with
            | .error e => .error e
            | .ok st => .ok { s3 with fGeoSrcStateStack := st }

/-- The invariant of the states the operations of this file produce: both stacks
are non-empty and equally deep, a level of kind `Reserved` has its pool, and a
pool that was never created has no outstanding use. -/
def Valid (s : GrGpu) : Prop :=
  s.fGeoSrcStateStack ≠ [] ∧
  s.fGeomPoolStateStack.length = s.fGeoSrcStateStack.length ∧
  (∀ g ∈ s.fGeoSrcStateStack, g.fVertexSrc = kReserved_GeometrySrcType → s.fVertexPool = true) ∧
  (∀ g ∈ s.fGeoSrcStateStack, g.fIndexSrc = kReserved_GeometrySrcType → s.fIndexPool = true) ∧
  (s.fVertexPool = false → s.fVertexPoolUseCnt = 0) ∧
  (s.fIndexPool = false → s.fIndexPoolUseCnt = 0)

instance (s : GrGpu) : Decidable (Valid s) := by
  unfold Valid
  infer_instance

/-- A call of the geometry-source stack interface. -/
inductive GeoOp where
  | push
  | pop
  deriving DecidableEq, Repr

/-- Runs one call of the geometry-source stack interface. -/
def GeoOp.run : GeoOp → GrGpu → Except Abort GrGpu
  | .push, s => pushGeometrySource s
  | .pop, s => popGeometrySource s

/-- Runs a sequence of calls, stopping at the first abort. -/
def runGeoOps : List GeoOp → GrGpu → Except Abort GrGpu
  | [], s => .ok s
  | op :: ops, s =>
    match op.run s with
    | .error e => .error e
    | .ok s1 => runGeoOps ops s1

/-- No call of `pop` in the sequence is made at depth 1, `depth` being the depth at its start. -/
def noPopAtDepthOne : Nat → List GeoOp → Prop
  | _, [] => True
  | depth, .push :: ops => noPopAtDepthOne (depth + 1) ops
  | depth, .pop :: ops => 1 < depth ∧ noPopAtDepthOne (depth - 1) ops

instance (depth : Nat) (ops : List GeoOp) : Decidable (noPopAtDepthOne depth ops) := by
  induction ops generalizing depth with
  | nil => unfold noPopAtDepthOne; infer_instance
  | cons op ops ih =>
    cases op
    · unfold noPopAtDepthOne; exact ih _
    · unfold noPopAtDepthOne; exact instDecidableAnd

/-- A state right after the constructor and `setVertexSourceToBuffer 1`, the
buffer at address 1 having had one reference before: the top level holds it. -/
def holdingBufferOne : GrGpu :=
  { init with
    fGeoSrcStateStack :=
      [{ fVertexSrc := kBuffer_GeometrySrcType, fIndexSrc := kNone_GeometrySrcType,
         fVertexBuffer := 1, fIndexBuffer := DEBUG_INVAL_BUFFER,
         fVertexCount := DEBUG_INVAL_START_IDX, fIndexCount := DEBUG_INVAL_START_IDX,
         fVertexSize := 0 }],
    refCnt := fun p => if p = 1 then 2 else 0 }

/-- A state whose single level holds buffer 1 as vertex source, the caller
holding a reference of its own on buffer 1 and on buffer 2. -/
def callerOwnsBoth : GrGpu :=
  { holdingBufferOne with refCnt := fun p => if p = 1 then 2 else if p = 2 then 1 else 0 }

/-- Modelled from the spec: `GrRenderTarget::setStencilBuffer`, which is defined
outside `src/`; the render target keeps an ownership-free pointer to the stencil
buffer, so only the pointer is written. -/
def setStencilBuffer (rt : GrRenderTarget) (sb : Option Nat) (s : GrGpu) : GrGpu :=
  { s with rtStencilBuffer := Function.update s.rtStencilBuffer rt.ptr sb }

/-- The facade method `attachStencilBufferToRenderTarget(rt)`.  The backend
virtual of the same name taking `(sb, rt)` is `Env.backendAttachStencilBuffer`. -/
def attachStencilBufferToRenderTarget (env : Env) (rt : GrRenderTarget) (s : GrGpu) :
    Except Abort (Bool × GrGpu) :=
  if s.rtStencilBuffer rt.ptr ≠ none then .error .assertFailed
  else
    match env.findStencilBuffer s.log rt.width rt.height rt.numSamples with
    | some sb =>
      let s1 := setStencilBuffer rt (some sb) s
      let attached := env.backendAttachStencilBuffer s1.log sb rt
      let s2 := emit (.backendAttachStencilBuffer sb rt) s1
      if attached = false then .ok (false, setStencilBuffer rt none s2)
      else .ok (true, s2)
    | none =>
      let created := env.createStencilBufferForRenderTarget s.log rt rt.width rt.height
      let s1 := emit (.createStencilBufferForRenderTarget rt rt.width rt.height) s
      if created = true then .ok (true, emit (.clearStencil rt) s1)
      else .ok (false, s1)

/-- The method `createTexture`; `srcData` is passed through untouched and is left out. -/
def createTexture (env : Env) (desc : GrSurfaceDesc) (rowBytes : Nat) (s : GrGpu) :
    Except Abort (Option GrTexture × GrGpu) :=
  if env.isConfigTexturable desc.fConfig = false then .ok (none, s)
  else if desc.fFlags &&& env.kRenderTarget_GrSurfaceFlag ≠ 0 ∧
      env.isConfigRenderable desc.fConfig (decide (desc.fSampleCnt > 0)) = false then
    .ok (none, s)
  else if env.GrPixelConfigIsCompressed desc.fConfig = true then
    if ¬ desc.fFlags &&& env.kRenderTarget_GrSurfaceFlag = 0 then .error .assertFailed
    else if env.npotTextureTileSupport = false ∧
        (env.SkIsPow2 desc.fWidth = false ∨ env.SkIsPow2 desc.fHeight = false) then
      .ok (none, s)
    else
      let s1 := handleDirtyContext s
      let tex := env.onCreateCompressedTexture s1.log desc
      .ok (tex, emit (.onCreateCompressedTexture desc) s1)
  else
    let s1 := handleDirtyContext s
    let tex := env.onCreateTexture s1.log desc rowBytes
    let s2 := emit (.onCreateTexture desc rowBytes) s1
    match tex with
    | none => .ok (none, s2)
    | some t =>
      if env.kRenderTarget_GrSurfaceFlag &&& desc.fFlags ≠ 0 ∧
          ¬ env.kNoStencil_GrSurfaceFlag &&& desc.fFlags ≠ 0 then
        match t.asRenderTarget with
        | none => .error .assertFailed
        | some rt =>
          match attachStencilBufferToRenderTarget env rt s2 with
          | .error e => .error e
          | .ok (false, s3) => .ok (none, unref t.ptr s3)
          | .ok (true, s3) => .ok (some t, s3)
      else .ok (some t, s2)

def createIndexBuffer (env : Env) (size : Nat) (dynamic : Bool) (s : GrGpu) :
    Option Nat × GrGpu :=
  let s1 := handleDirtyContext s
  (env.onCreateIndexBuffer s1.log size dynamic, emit (.onCreateIndexBuffer size dynamic) s1)

/-- The two nested `for` loops of `createInstancedIndexBuffer`, writing into `data`. -/
def fillInstancedIndices (pattern : List Nat) (patternSize reps vertCount : Nat)
    (data : List Nat) : List Nat :=
  (List.range reps).foldl
    (fun data i =>
      let baseIdx := i * patternSize
      let baseVert := (i * vertCount) % 2 ^ 16
      (List.range patternSize).foldl
        (fun data j => data.set (baseIdx + j) ((baseVert + pattern.getD j 0) % 2 ^ 16))
        data)
    data

/-- The method `createInstancedIndexBuffer`.  The storage written (the mapped
buffer, or the temporary array) has `reps * patternSize` entries, 0 before the
loops run; the entries written are logged with the call that hands them to the
buffer. -/
def createInstancedIndexBuffer (env : Env) (pattern : List Nat)
    (patternSize reps vertCount : Nat) (isDynamic : Bool) (s : GrGpu) :
    Except Abort (Option Nat × GrGpu) :=
  let bufferSize := (patternSize * reps * 2) % 2 ^ 64
  match createIndexBuffer env bufferSize isDynamic s with
  | (none, s1) => .ok (none, s1)
  | (some buffer, s1) =>
    let mapped := env.bufferMap s1.log buffer
    let s2 := emit (.bufferMap buffer) s1
    let useTempData := !mapped
    let data := fillInstancedIndices pattern patternSize reps vertCount
      (List.replicate (reps * patternSize) 0)
    if useTempData = true then
      if env.bufferUpdateData s2.log buffer data bufferSize = false then .error .fail
      else .ok (some buffer, emit (.bufferUpdateData buffer data bufferSize) s2)
    else .ok (some buffer, emit (.bufferUnmap buffer) (emit (.bufferWriteMapped buffer data) s2))

def MAX_QUADS : Nat := 2 ^ 12

def gQuadIndexPattern : List Nat := [0, 1, 2, 0, 2, 3]

/-- The helper `SkSafeUnref`: `unref` unless the pointer is `NULL`. -/
def SkSafeUnref (p : Option Nat) (s : GrGpu) : GrGpu :=
  match p with
  | none => s
  | some b => unref b s

def getQuadIndexBuffer (env : Env) (s : GrGpu) : Except Abort (Option Nat × GrGpu) :=
  if s.fQuadIndexBuffer = none ∨
      (match s.fQuadIndexBuffer with
       | none => false
       | some b => env.wasDestroyed s.log b) = true then
    let s1 := SkSafeUnref s.fQuadIndexBuffer s
    match createInstancedIndexBuffer env gQuadIndexPattern 6 MAX_QUADS 4
        env.isDynamicDefault s1 with
    | .error e => .error e
    | .ok (buffer, s2) => .ok (buffer, { s2 with fQuadIndexBuffer := buffer })
  else .ok (s.fQuadIndexBuffer, s)

/-- The index data `getQuadIndexBuffer` computes for the buffer it builds. -/
def quadIndexData : List Nat :=
  fillInstancedIndices gQuadIndexPattern 6 MAX_QUADS 4 (List.replicate (MAX_QUADS * 6) 0)

/-- A backend for the examples: every format is texturable and renderable,
textures are render targets, buffer 7 is created on request and can be mapped,
the stencil cache is empty and stencil creation succeeds, pools always have room. -/
def sampleEnv : Env :=
  { kRenderTarget_GrSurfaceFlag := 1,
    kNoStencil_GrSurfaceFlag := 2,
    GrPixelConfigIsCompressed := fun _ => false,
    SkIsPow2 := fun v => decide (v.toNat &&& (v.toNat - 1) = 0),
    isConfigTexturable := fun _ => true,
    isConfigRenderable := fun _ _ => true,
    npotTextureTileSupport := true,
    gpuTracingSupport := true,
    onCreateTexture := fun _ desc _ =>
      some (GrTexture.mk 100
        (some (GrRenderTarget.mk 101 desc.fWidth desc.fHeight desc.fSampleCnt))),
    onCreateCompressedTexture := fun _ _ => some (GrTexture.mk 100 none),
    findStencilBuffer := fun _ _ _ _ => none,
    backendAttachStencilBuffer := fun _ _ _ => true,
    createStencilBufferForRenderTarget := fun _ _ _ _ => true,
    onCreateIndexBuffer := fun _ _ _ => some 7,
    bufferMap := fun _ _ => true,
    bufferUpdateData := fun _ _ _ _ => true,
    wasDestroyed := fun _ _ => false,
    isDynamicDefault := false,
    vertexMakeSpace := fun _ _ _ => MakeSpaceResult.mk (some 4096) 50 0,
    indexMakeSpace := fun _ _ => MakeSpaceResult.mk (some 8192) 60 0,
    PrimTypeToDrawType := fun _ => DrawType.kDrawTriangles_DrawType,
    onWrapBackendTexture := fun _ _ => some (GrTexture.mk 100 none),
    onWrapBackendRenderTarget := fun _ _ => some (GrRenderTarget.mk 101 16 16 0),
    onCreateVertexBuffer := fun _ _ _ => some 5,
    onReadPixels := fun _ _ _ _ _ _ _ _ => true,
    onWriteTexturePixels := fun _ _ _ _ _ _ _ _ => true,
    flushGraphicsState := fun _ _ _ _ => true }

/-- A state whose quad index buffer cache holds buffer 7, which has one reference. -/
def cachedSeven : GrGpu :=
  { init with fQuadIndexBuffer := some 7, refCnt := fun p => if p = 7 then 1 else 0 }

/-- A backend after context loss: every buffer reports itself destroyed and no
index buffer can be created. -/
def lostContextEnv : Env :=
  { sampleEnv with wasDestroyed := fun _ _ => true, onCreateIndexBuffer := fun _ _ _ => none }

/-- A backend whose buffer 7 reports itself destroyed and which creates buffer 8
on request. -/
def recreatingEnv : Env :=
  { sampleEnv with wasDestroyed := fun _ b => decide (b = 7),
                   onCreateIndexBuffer := fun _ _ _ => some 8 }

/-- A backend on which no format is renderable. -/
def notRenderableEnv : Env :=
  { sampleEnv with isConfigRenderable := fun _ _ => false }

/-- A backend with an empty stencil cache that cannot create stencil buffers. -/
def noStencilEnv : Env :=
  { sampleEnv with createStencilBufferForRenderTarget := fun _ _ _ _ => false }

/-- A backend whose stencil cache holds buffer 9 for every size and whose
backend-level attach fails. -/
def attachFailsEnv : Env :=
  { sampleEnv with findStencilBuffer := fun _ _ _ _ => some 9,
                   backendAttachStencilBuffer := fun _ _ _ => false }

/-- A 16 by 16 render-target description of format 0 that asks for a stencil buffer. -/
def renderTargetDesc : GrSurfaceDesc :=
  { fFlags := 1, fWidth := 16, fHeight := 16, fConfig := 0, fSampleCnt := 0 }

/-- The render target of the texture `sampleEnv` creates for `renderTargetDesc`. -/
def sampleRenderTarget : GrRenderTarget :=
  { ptr := 101, width := 16, height := 16, numSamples := 0 }

/-- A step of a client of the reservation interface.  `callerWritesTop` is the
layer above `GrGpu.cpp` writing the top level of the geometry-source stack: it is
that layer which records a successful reservation there (kind `Reserved`, the
count and the element size); nothing in `GrGpu.cpp` does. -/
inductive PoolOp where
  | reserveVertex (vertexSize : Nat) (vertexCount : Int)
  | releaseVertex
  | reserveIndex (indexCount : Int)
  | releaseIndex
  | callerWritesTop (g : GeometrySrcState)
  deriving DecidableEq, Repr

def PoolOp.isReserveVertex : PoolOp → Bool
  | .reserveVertex _ _ => true
  | _ => false

def PoolOp.isReleaseVertex : PoolOp → Bool
  | .releaseVertex => true
  | _ => false

def PoolOp.isReserveIndex : PoolOp → Bool
  | .reserveIndex _ => true
  | _ => false

def PoolOp.isReleaseIndex : PoolOp → Bool
  | .releaseIndex => true
  | _ => false

/-- Runs a sequence of steps, stopping at the first abort.  The result lists
what each vertex reservation returned, what each index reservation returned,
and the final state. -/
def runPoolOps (env : Env) : List PoolOp → GrGpu → Except Abort (List Bool × List Bool × GrGpu)
  | [], s => .ok ([], [], s)
  | .reserveVertex vertexSize vertexCount :: ops, s =>
    match onReserveVertexSpace env vertexSize vertexCount s with
    | .error e => .error e
    | .ok (r, s1) =>
      match runPoolOps env ops s1 with
      | .error e => .error e
      | .ok (vs, is, s2) => .ok (r.1 :: vs, is, s2)
  | .releaseVertex :: ops, s =>
    match releaseReservedVertexSpace s with
    | .error e => .error e
    | .ok s1 => runPoolOps env ops s1
  | .reserveIndex indexCount :: ops, s =>
    match onReserveIndexSpace env indexCount s with
    | .error e => .error e
    | .ok (r, s1) =>
      match runPoolOps env ops s1 with
      | .error e => .error e
      | .ok (vs, is, s2) => .ok (vs, r.1 :: is, s2)
  | .releaseIndex :: ops, s =>
    match releaseReservedIndexSpace s with
    | .error e => .error e
    | .ok s1 => runPoolOps env ops s1
  | .callerWritesTop g :: ops, s =>
    runPoolOps env ops { s with fGeoSrcStateStack := setBack g s.fGeoSrcStateStack }

/-- The asserted preconditions hold along the sequence: every reservation asks
for a positive count, and every release finds the top level of kind `Reserved`
and the pool in place.  The arguments are the kinds of the top level and
whether each pool exists, at the start of the sequence. -/
def poolOpsOk : GeometrySrcType → GeometrySrcType → Bool → Bool → List PoolOp → Prop
  | _, _, _, _, [] => True
  | kv, ki, _, pi, .reserveVertex _ vertexCount :: ops =>
    vertexCount > 0 ∧ poolOpsOk kv ki true pi ops
  | kv, ki, pv, pi, .releaseVertex :: ops =>
    kv = kReserved_GeometrySrcType ∧ pv = true ∧ poolOpsOk kv ki pv pi ops
  | kv, ki, pv, _, .reserveIndex indexCount :: ops =>
    indexCount > 0 ∧ poolOpsOk kv ki pv true ops
  | kv, ki, pv, pi, .releaseIndex :: ops =>
    ki = kReserved_GeometrySrcType ∧ pi = true ∧ poolOpsOk kv ki pv pi ops
  | _, _, pv, pi, .callerWritesTop g :: ops => poolOpsOk g.fVertexSrc g.fIndexSrc pv pi ops

instance (kv ki : GeometrySrcType) (pv pi : Bool) (ops : List PoolOp) :
    Decidable (poolOpsOk kv ki pv pi ops) := by
  induction ops generalizing kv ki pv pi with
  | nil => unfold poolOpsOk; infer_instance
  | cons op ops ih =>
    cases op <;> unfold poolOpsOk
    · exact instDecidableAnd
    · exact instDecidableAnd
    · exact instDecidableAnd
    · exact instDecidableAnd
    · exact ih _ _ _ _

/-- The top level after 100 vertices of 20 bytes were reserved. -/
def reservedTop : GeometrySrcState :=
  { fVertexSrc := kReserved_GeometrySrcType, fIndexSrc := kNone_GeometrySrcType,
    fVertexBuffer := DEBUG_INVAL_BUFFER, fIndexBuffer := DEBUG_INVAL_BUFFER,
    fVertexCount := 100, fIndexCount := DEBUG_INVAL_START_IDX, fVertexSize := 20 }

/-- A backend whose pools have no room. -/
def fullPoolEnv : Env :=
  { sampleEnv with vertexMakeSpace := fun _ _ _ => MakeSpaceResult.mk none 0 0,
                   indexMakeSpace := fun _ _ => MakeSpaceResult.mk none 0 0 }

/-- The loop `while (popCnt) { popGeometrySource(); --popCnt; }` of
`releaseGeometry`, for a count `popCnt ≥ 0`. -/
def releaseGeometryLoop : Nat → GrGpu → Except Abort GrGpu
  | 0, s => .ok s
  | popCnt + 1, s =>
    match popGeometrySource s with
    | .error e => .error e
    | .ok s1 => releaseGeometryLoop popCnt s1

/-- The method `releaseGeometry`.  `popCnt` is `count() - 1`; on an empty stack it
is `-1`, the loop is entered and its first `popGeometrySource` aborts. -/
def releaseGeometry (s : GrGpu) : Except Abort GrGpu :=
  match s.fGeoSrcStateStack with
  | [] => popGeometrySource s
  | _ :: rest =>
    match releaseGeometryLoop rest.length s with
    | .error e => .error e
    | .ok s1 =>
      match resetVertexSource s1 with
      | .error e => .error e
      | .ok s2 => resetIndexSource s2

/-- The references level `g` holds on the object at address `p`: one if its
vertex source is of kind `Buffer` holding `p`, one if its index source is. -/
def heldBy (g : GeometrySrcState) (p : Nat) : Int :=
  (if g.fVertexSrc = kBuffer_GeometrySrcType ∧ g.fVertexBuffer = p then 1 else 0) +
  (if g.fIndexSrc = kBuffer_GeometrySrcType ∧ g.fIndexBuffer = p then 1 else 0)

/-- The references all levels of a stack hold on the object at address `p`. -/
def heldByStack (stack : List GeometrySrcState) (p : Nat) : Int :=
  (stack.map (fun g => heldBy g p)).sum

/-- The method `wrapBackendTexture`; the descriptor is passed through. -/
def wrapBackendTexture (env : Env) (desc : Nat) (s : GrGpu) :
    Except Abort (Option GrTexture × GrGpu) :=
  let s1 := handleDirtyContext s
  let tex := env.onWrapBackendTexture s1.log desc
  let s2 := emit (.onWrapBackendTexture desc) s1
  match tex with
  | none => .ok (none, s2)
  | some t =>
    match t.asRenderTarget with
    | none => .ok (some t, s2)
    | some tgt =>
      match attachStencilBufferToRenderTarget env tgt s2 with
      | .error e => .error e
      | .ok (false, s3) => .ok (none, unref t.ptr s3)
      | .ok (true, s3) => .ok (some t, s3)

def wrapBackendRenderTarget (env : Env) (desc : Nat) (s : GrGpu) :
    Option GrRenderTarget × GrGpu :=
  let s1 := handleDirtyContext s
  (env.onWrapBackendRenderTarget s1.log desc, emit (.onWrapBackendRenderTarget desc) s1)

def createVertexBuffer (env : Env) (size : Nat) (dynamic : Bool) (s : GrGpu) :
    Option Nat × GrGpu :=
  let s1 := handleDirtyContext s
  (env.onCreateVertexBuffer s1.log size dynamic, emit (.onCreateVertexBuffer size dynamic) s1)

/-- The method `clear`; `rect` may be `NULL`, `renderTarget` must not be. -/
def clear (rect : Option Nat) (color : Nat) (canIgnoreRect : Bool)
    (renderTarget : Option GrRenderTarget) (s : GrGpu) : Except Abort GrGpu :=
  match renderTarget with
  | none => .error .assertFailed
  | some rt => .ok (emit (.onGpuClear rt rect color canIgnoreRect) (handleDirtyContext s))

/-- The method `clearStencilClip`; a `NULL` render target is replaced by that of
the draw state, and the call asserts when that one is `NULL` too. -/
def clearStencilClip (rect : Nat) (insideClip : Bool) (renderTarget : Option GrRenderTarget)
    (s : GrGpu) : Except Abort GrGpu :=
  let renderTarget :=
    match renderTarget with
    | none => s.drawStateRenderTarget
    | some rt => some rt
  match renderTarget with
  | none => .error .assertFailed
  | some rt => .ok (emit (.onClearStencilClip rt rect insideClip) (handleDirtyContext s))

/-- The method `readPixels`; the destination buffer is left out. -/
def readPixels (env : Env) (target : GrRenderTarget) (left top width height : Int)
    (config rowBytes : Nat) (s : GrGpu) : Bool × GrGpu :=
  let s1 := handleDirtyContext s
  (env.onReadPixels s1.log target left top width height config rowBytes,
    emit (.onReadPixels target left top width height config rowBytes) s1)

/-- The method `writeTexturePixels`; the source buffer is left out. -/
def writeTexturePixels (env : Env) (texture : GrTexture) (left top width height : Int)
    (config rowBytes : Nat) (s : GrGpu) : Bool × GrGpu :=
  let s1 := handleDirtyContext s
  (env.onWriteTexturePixels s1.log texture left top width height config rowBytes,
    emit (.onWriteTexturePixels texture left top width height config rowBytes) s1)

def resolveRenderTarget (target : Option GrRenderTarget) (s : GrGpu) : Except Abort GrGpu :=
  match target with
  | none => .error .assertFailed
  | some rt => .ok (emit (.onResolveRenderTarget rt) (handleDirtyContext s))

def onDraw (env : Env) (info : DrawInfo) (scissorState : Nat) (s : GrGpu) : GrGpu :=
  let s1 := handleDirtyContext s
  let drawType := env.PrimTypeToDrawType info.primitiveType
  let flushed := env.flushGraphicsState s1.log drawType scissorState info.dstCopy
  let s2 := emit (.flushGraphicsState drawType scissorState info.dstCopy) s1
  if flushed = false then s2
  else emit (.onGpuDraw info) s2

def onStencilPath (env : Env) (path scissorState stencilSettings : Nat) (s : GrGpu) : GrGpu :=
  let s1 := handleDirtyContext s
  let flushed :=
    env.flushGraphicsState s1.log DrawType.kStencilPath_DrawType scissorState none
  let s2 := emit (.flushGraphicsState DrawType.kStencilPath_DrawType scissorState none) s1
  if flushed = false then s2
  else emit (.stencilPath path stencilSettings) s2

def onDrawPath (env : Env) (path scissorState stencilSettings : Nat) (dstCopy : Option Nat)
    (s : GrGpu) : GrGpu :=
  let s1 := handleDirtyContext s
  let flushed :=
    env.flushGraphicsState s1.log DrawType.kDrawPath_DrawType scissorState dstCopy
  let s2 := emit (.flushGraphicsState DrawType.kDrawPath_DrawType scissorState dstCopy) s1
  if flushed = false then s2
  else emit (.drawPath path stencilSettings) s2

def onDrawPaths (env : Env) (pathRange indices : Nat) (count : Int)
    (transforms transformsType scissorState stencilSettings : Nat) (dstCopy : Option Nat)
    (s : GrGpu) : GrGpu :=
  let s1 := handleDirtyContext s
  let flushed :=
    env.flushGraphicsState s1.log DrawType.kDrawPaths_DrawType scissorState dstCopy
  let s2 := emit (.flushGraphicsState DrawType.kDrawPaths_DrawType scissorState dstCopy) s1
  if flushed = false then s2
  else
    emit (.drawPaths pathRange indices count transforms transformsType stencilSettings)
      (emit (.willDrawPaths pathRange indices count) s2)

/-- A state whose vertex pool exists and has one reservation outstanding. -/
def poolInUse : GrGpu :=
  { init with fVertexPool := true, fVertexPoolUseCnt := 1 }

/-- A state two levels deep: the top level holds buffer 1 as vertex source and
buffer 2 as index source, the base level holds buffer 1 as vertex source. -/
def twoLevelsHolding : GrGpu :=
  { init with
    fGeoSrcStateStack :=
      [{ pushedSrcState with fVertexSrc := kBuffer_GeometrySrcType, fVertexBuffer := 1,
                             fIndexSrc := kBuffer_GeometrySrcType, fIndexBuffer := 2 },
       { constructedSrcState with fVertexSrc := kBuffer_GeometrySrcType, fVertexBuffer := 1 }],
    fGeomPoolStateStack := [debugPoolState, debugPoolState],
    refCnt := fun p => if p = 1 then 2 else if p = 2 then 1 else 0 }

/-- The calls added to the log between `before` and `after` are none, or start
with `handleDirtyContext`. -/
def dirtyContextFirst (before after : List Event) : Prop :=
  ∃ added, after = before ++ added ∧ (added = [] ∨ added.head? = some .handleDirtyContext)

/-- A backend on which every format is compressed and texturable, and none renderable. -/
def compressedEnv : Env :=
  { sampleEnv with GrPixelConfigIsCompressed := fun _ => true,
                   isConfigRenderable := fun _ _ => false }

/-- A backend whose `flushGraphicsState` fails. -/
def flushFailsEnv : Env :=
  { sampleEnv with flushGraphicsState := fun _ _ _ _ => false }

/-- A draw of triangles without destination copy. -/
def sampleDraw : DrawInfo :=
  { primitiveType := 0, dstCopy := none, rest := 0 }

/-- A backend on which every format is compressed, texturable and renderable. -/
def compressedRenderableEnv : Env :=
  { sampleEnv with GrPixelConfigIsCompressed := fun _ => true }

/-- A 16 by 16 description of format 0 with no flag set. -/
def plainDesc : GrSurfaceDesc :=
  { fFlags := 0, fWidth := 16, fHeight := 16, fConfig := 0, fSampleCnt := 0 }

/-- Modelled from the spec: the marker set `GrTraceMarkerSet`, declared outside
`src/`.  Markers are told apart by identity (name and id) and their order is
irrelevant; `add` puts one marker into the set. -/
def GrTraceMarkerSet.add (marker : GrGpuTraceMarker) (set : List GrGpuTraceMarker) :
    List GrGpuTraceMarker :=
  set ++ [marker]

/-- Modelled from the spec: `remove` takes one marker out of the set; removing an
untracked marker is a contract violation. -/
def GrTraceMarkerSet.remove (marker : GrGpuTraceMarker) (set : List GrGpuTraceMarker) :
    Except Abort (List GrGpuTraceMarker) :=
  if marker ∈ set then .ok (set.erase marker) else .error .assertFailed

/-- Modelled from the spec: `addSet` adds every marker of `markerSet` to the set. -/
def GrTraceMarkerSet.addSet (markerSet set : List GrGpuTraceMarker) : List GrGpuTraceMarker :=
  markerSet.foldl (fun acc marker => GrTraceMarkerSet.add marker acc) set

/-- Modelled from the spec: `count` is the number of markers in the set. -/
def GrTraceMarkerSet.count (set : List GrGpuTraceMarker) : Int :=
  set.length

def addGpuTraceMarker (env : Env) (marker : GrGpuTraceMarker) (s : GrGpu) : Except Abort GrGpu :=
  if env.gpuTracingSupport = true then
    if ¬ s.fGpuTraceMarkerCount ≥ 0 then .error .assertFailed
    else
      let s1 : GrGpu :=
        { s with fActiveTraceMarkers := GrTraceMarkerSet.add marker s.fActiveTraceMarkers }
      let s2 := emit .didAddGpuTraceMarker s1
      .ok { s2 with fGpuTraceMarkerCount := s2.fGpuTraceMarkerCount + 1 }
  else .ok s

def removeGpuTraceMarker (env : Env) (marker : GrGpuTraceMarker) (s : GrGpu) :
    Except Abort GrGpu :=
  if env.gpuTracingSupport = true then
    if ¬ s.fGpuTraceMarkerCount ≥ 1 then .error .assertFailed
    else
      match GrTraceMarkerSet.remove marker s.fActiveTraceMarkers with
      | .error e => .error e
      | .ok active =>
        let s2 := emit .didRemoveGpuTraceMarker { s with fActiveTraceMarkers := active }
        .ok { s2 with fGpuTraceMarkerCount := s2.fGpuTraceMarkerCount - 1 }
  else .ok s

/-- The loop of `saveActiveTraceMarkers`: `removeGpuTraceMarker` on each marker
of the list, in order. -/
def removeEachGpuTraceMarker (env : Env) : List GrGpuTraceMarker → GrGpu → Except Abort GrGpu
  | [], s => .ok s
  | marker :: markers, s =>
    match removeGpuTraceMarker env marker s with
    | .error e => .error e
    | .ok s1 => removeEachGpuTraceMarker env markers s1

/-- The first loop of `restoreActiveTraceMarkers`: `addGpuTraceMarker` on each
marker of the list, in order. -/
def addEachGpuTraceMarker (env : Env) : List GrGpuTraceMarker → GrGpu → Except Abort GrGpu
  | [], s => .ok s
  | marker :: markers, s =>
    match addGpuTraceMarker env marker s with
    | .error e => .error e
    | .ok s1 => addEachGpuTraceMarker env markers s1

/-- The second loop of `restoreActiveTraceMarkers`: each marker of the list is
removed from the stored set. -/
def removeEachStored : List GrGpuTraceMarker → List GrGpuTraceMarker →
    Except Abort (List GrGpuTraceMarker)
  | [], stored => .ok stored
  | marker :: markers, stored =>
    match GrTraceMarkerSet.remove marker stored with
    | .error e => .error e
    | .ok stored1 => removeEachStored markers stored1

def saveActiveTraceMarkers (env : Env) (s : GrGpu) : Except Abort GrGpu :=
  if env.gpuTracingSupport = true then
    if ¬ 0 = GrTraceMarkerSet.count s.fStoredTraceMarkers then .error .assertFailed
    else
      let s1 : GrGpu :=
        { s with fStoredTraceMarkers :=
            GrTraceMarkerSet.addSet s.fActiveTraceMarkers s.fStoredTraceMarkers }
      removeEachGpuTraceMarker env s1.fStoredTraceMarkers s1
  else .ok s

def restoreActiveTraceMarkers (env : Env) (s : GrGpu) : Except Abort GrGpu :=
  if env.gpuTracingSupport = true then
    if ¬ 0 = GrTraceMarkerSet.count s.fActiveTraceMarkers then .error .assertFailed
    else
      match addEachGpuTraceMarker env s.fStoredTraceMarkers s with
      | .error e => .error e
      | .ok s1 =>
        match removeEachStored s1.fActiveTraceMarkers s1.fStoredTraceMarkers with
        | .error e => .error e
        | .ok stored => .ok { s1 with fStoredTraceMarkers := stored }
  else .ok s

/-- A call of the trace-marker interface. -/
inductive TraceOp where
  | add (marker : GrGpuTraceMarker)
  | remove (marker : GrGpuTraceMarker)
  deriving DecidableEq, Repr

def TraceOp.isAdd : TraceOp → Bool
  | .add _ => true
  | .remove _ => false

def TraceOp.isRemove : TraceOp → Bool
  | .add _ => false
  | .remove _ => true

/-- The backend notification a call of the trace-marker interface issues. -/
def TraceOp.notification : TraceOp → Event
  | .add _ => .didAddGpuTraceMarker
  | .remove _ => .didRemoveGpuTraceMarker

/-- Runs a sequence of trace-marker calls, stopping at the first abort. -/
def runTraceOps (env : Env) : List TraceOp → GrGpu → Except Abort GrGpu
  | [], s => .ok s
  | .add marker :: ops, s =>
    match addGpuTraceMarker env marker s with
    | .error e => .error e
    | .ok s1 => runTraceOps env ops s1
  | .remove marker :: ops, s =>
    match removeGpuTraceMarker env marker s with
    | .error e => .error e
    | .ok s1 => runTraceOps env ops s1

/-- The asserted preconditions hold along the sequence: the live count is not
negative at an add, it is at least 1 at a remove, and a removed marker is
tracked.  The arguments are the active set and the live count at the start. -/
def traceOpsOk : List GrGpuTraceMarker → Int → List TraceOp → Prop
  | _, _, [] => True
  | active, count, .add marker :: ops =>
    count ≥ 0 ∧ traceOpsOk (GrTraceMarkerSet.add marker active) (count + 1) ops
  | active, count, .remove marker :: ops =>
    count ≥ 1 ∧ marker ∈ active ∧ traceOpsOk (active.erase marker) (count - 1) ops

instance (active : List GrGpuTraceMarker) (count : Int) (ops : List TraceOp) :
    Decidable (traceOpsOk active count ops) := by
  induction ops generalizing active count with
  | nil => unfold traceOpsOk; infer_instance
  | cons op ops ih =>
    cases op <;> unfold traceOpsOk
    · exact instDecidableAnd
    · exact instDecidableAnd

/-- A backend without tracing support. -/
def noTracingEnv : Env :=
  { sampleEnv with gpuTracingSupport := false }

/-- Two trace markers. -/
def markerA : GrGpuTraceMarker := { fMarker := 1, fID := 0 }

def markerB : GrGpuTraceMarker := { fMarker := 2, fID := 0 }

/-- A state with the two markers active and a live count of 2. -/
def twoMarkersActive : GrGpu :=
  { init with fActiveTraceMarkers := [markerA, markerB], fGpuTraceMarkerCount := 2 }

/-- A call of the geometry interface; `callerWritesTop` is the layer above
writing the top level of the geometry-source stack. -/
inductive ApiCall where
  | pushGeometrySource
  | popGeometrySource
  | setVertexSourceToBuffer (buffer : Nat)
  | setIndexSourceToBuffer (buffer : Nat)
  | resetVertexSource
  | resetIndexSource
  | onReserveVertexSpace (vertexSize : Nat) (vertexCount : Int)
  | onReserveIndexSpace (indexCount : Int)
  | releaseGeometry
  | callerWritesTop (g : GeometrySrcState)
  deriving DecidableEq, Repr

/-- Runs one call of the geometry interface. -/
def ApiCall.run (env : Env) : ApiCall → GrGpu → Except Abort GrGpu
  | .pushGeometrySource, s => GrGpu.pushGeometrySource s
  | .popGeometrySource, s => GrGpu.popGeometrySource s
  | .setVertexSourceToBuffer buffer, s => GrGpu.setVertexSourceToBuffer buffer s
  | .setIndexSourceToBuffer buffer, s => GrGpu.setIndexSourceToBuffer buffer s
  | .resetVertexSource, s => GrGpu.resetVertexSource s
  | .resetIndexSource, s => GrGpu.resetIndexSource s
  | .onReserveVertexSpace vertexSize vertexCount, s =>
    match GrGpu.onReserveVertexSpace env vertexSize vertexCount s with
    | .error e => .error e
    | .ok (_, s1) => .ok s1
  | .onReserveIndexSpace indexCount, s =>
    match GrGpu.onReserveIndexSpace env indexCount s with
    | .error e => .error e
    | .ok (_, s1) => .ok s1
  | .releaseGeometry, s => GrGpu.releaseGeometry s
  | .callerWritesTop g, s => .ok { s with fGeoSrcStateStack := setBack g s.fGeoSrcStateStack }

/-- Runs a sequence of calls of the geometry interface, stopping at the first abort. -/
def runApiCalls (env : Env) : List ApiCall → GrGpu → Except Abort GrGpu
  | [], s => .ok s
  | call :: calls, s =>
    match call.run env s with
    | .error e => .error e
    | .ok s1 => runApiCalls env calls s1

/-- The two stacks are equally deep and hold at least the base level. -/
def StacksInSync (s : GrGpu) : Prop :=
  s.fGeomPoolStateStack.length = s.fGeoSrcStateStack.length ∧ 1 ≤ s.fGeoSrcStateStack.length

/-- A state whose vertex pool exists with one reservation outstanding: the single
level has 100 reserved vertices of 20 bytes as vertex source and holds buffer 2 as
index source. -/
def reservedVertices : GrGpu :=
  { init with
    fVertexPool := true, fVertexPoolUseCnt := 1,
    fGeoSrcStateStack :=
      [{ reservedTop with fIndexSrc := kBuffer_GeometrySrcType, fIndexBuffer := 2 }],
    refCnt := fun p => if p = 2 then 1 else 0 }

/-! ## Theorems -/

theorem pushGeometrySource_spec (s : GrGpu) (hv : Valid s) :
    ∃ s1, pushGeometrySource s = .ok s1 ∧ Valid s1 ∧
      s1.fGeoSrcStateStack.length = s.fGeoSrcStateStack.length + 1 := by
  obtain ⟨hne, hlen, hvp, hip, hvc, hic⟩ := hv
  cases hst : s.fGeoSrcStateStack with
  | nil => exact absurd hst hne
  | cons g rest =>
    have hgv : g.fVertexSrc = kReserved_GeometrySrcType → s.fVertexPool = true :=
      hvp g (by simp [hst])
    have hgi : g.fIndexSrc = kReserved_GeometrySrcType → s.fIndexPool = true :=
      hip g (by simp [hst])
    simp only [hst] at hvp hip hlen
    have hvr : ∀ a ∈ rest, a.fVertexSrc = kReserved_GeometrySrcType → s.fVertexPool = true :=
      fun a ha => hvp a (List.mem_cons_of_mem _ ha)
    have hir : ∀ a ∈ rest, a.fIndexSrc = kReserved_GeometrySrcType → s.fIndexPool = true :=
      fun a ha => hip a (List.mem_cons_of_mem _ ha)
    by_cases h1 : g.fVertexSrc = kReserved_GeometrySrcType <;>
    by_cases h2 : g.fIndexSrc = kReserved_GeometrySrcType <;>
    simp [pushGeometrySource, geometrySourceWillPush, getGeomSrc, back, hst, h1, h2,
      finalizeReservedVertices, finalizeReservedIndices, emit, Valid, pushedSrcState,
      hgv, hgi, hlen, hvc, hic] <;>
    tauto

theorem popGeometrySource_spec (s : GrGpu) (hv : Valid s)
    (hd : 1 < s.fGeoSrcStateStack.length) :
    ∃ s1, popGeometrySource s = .ok s1 ∧ Valid s1 ∧
      s1.fGeoSrcStateStack.length + 1 = s.fGeoSrcStateStack.length := by
  obtain ⟨_, hlen, hvp, hip, hvc, hic⟩ := hv
  cases hst : s.fGeoSrcStateStack with
  | nil => simp [hst] at hd
  | cons g tl =>
    cases tl with
    | nil => simp [hst] at hd
    | cons g2 rest =>
      cases hpl : s.fGeomPoolStateStack with
      | nil => simp [hpl, hst] at hlen
      | cons p ptl =>
        have hgv : g.fVertexSrc = kReserved_GeometrySrcType → s.fVertexPool = true :=
          hvp g (by simp [hst])
        have hgi : g.fIndexSrc = kReserved_GeometrySrcType → s.fIndexPool = true :=
          hip g (by simp [hst])
        simp only [hst, hpl] at hvp hip hlen
        have hvr : ∀ a ∈ g2 :: rest,
            a.fVertexSrc = kReserved_GeometrySrcType → s.fVertexPool = true :=
          fun a ha => hvp a (List.mem_cons_of_mem _ ha)
        have hir : ∀ a ∈ g2 :: rest,
            a.fIndexSrc = kReserved_GeometrySrcType → s.fIndexPool = true :=
          fun a ha => hip a (List.mem_cons_of_mem _ ha)
        have hpt : ptl.length = rest.length + 1 := by simpa using hlen
        cases h1 : g.fVertexSrc <;> cases h2 : g.fIndexSrc <;>
        simp [popGeometrySource, geometrySourceWillPop, fromBack, pop_back, back, setBack,
          releasePreviousVertexSource, releasePreviousIndexSource, releaseReservedVertexSpace,
          releaseReservedIndexSpace, getGeomSrc, emit, unref, Valid, hst, hpl, h1, h2, hpt,
          hgv, hgi] <;>
        first
          | exact ⟨List.forall_mem_cons.1 hvr, List.forall_mem_cons.1 hir, hvc, hic⟩
          | exact ⟨List.forall_mem_cons.1 hvr, hvc⟩
          | exact ⟨List.forall_mem_cons.1 hir, hic⟩

theorem runGeoOps_depth (ops : List GeoOp) :
    ∀ s : GrGpu, Valid s → noPopAtDepthOne s.fGeoSrcStateStack.length ops →
      ∃ s1, runGeoOps ops s = .ok s1 ∧ Valid s1 ∧
        (s1.fGeoSrcStateStack.length : Int) =
          s.fGeoSrcStateStack.length + ((ops.count .push : Int) - ops.count .pop) := by
  induction ops with
  | nil =>
    intro s hv _
    exact ⟨s, rfl, hv, by simp⟩
  | cons op ops ih =>
    intro s hv hno
    cases op with
    | push =>
      obtain ⟨s1, h1, hv1, hl1⟩ := pushGeometrySource_spec s hv
      have hno1 : noPopAtDepthOne s1.fGeoSrcStateStack.length ops := by
        rw [hl1]; exact hno
      obtain ⟨s2, h2, hv2, hl2⟩ := ih s1 hv1 hno1
      refine ⟨s2, ?_, hv2, ?_⟩
      · simp [runGeoOps, GeoOp.run, h1, h2]
      · rw [hl2, hl1]
        simp [List.count_cons]
        ring
    | pop =>
      obtain ⟨hd, hrest⟩ := hno
      obtain ⟨s1, h1, hv1, hl1⟩ := popGeometrySource_spec s hv hd
      have hno1 : noPopAtDepthOne s1.fGeoSrcStateStack.length ops := by
        have : s1.fGeoSrcStateStack.length = s.fGeoSrcStateStack.length - 1 := by omega
        rw [this]; exact hrest
      obtain ⟨s2, h2, hv2, hl2⟩ := ih s1 hv1 hno1
      refine ⟨s2, ?_, hv2, ?_⟩
      · simp [runGeoOps, GeoOp.run, h1, h2]
      · rw [hl2]
        simp [List.count_cons]
        omega

/-- C1: from a valid state, a sequence of `pushGeometrySource` / `popGeometrySource`
calls in which no pop is attempted at depth 1 runs to completion and leaves the
geometry-source stack at the initial depth plus the number of pushes minus the
number of pops; and `popGeometrySource` at depth 1 fails its assertion. -/
theorem pushPop_depth_balance (s : GrGpu) (ops : List GeoOp) (hv : Valid s)
    (hno : noPopAtDepthOne s.fGeoSrcStateStack.length ops) :
    (∃ s1, runGeoOps ops s = .ok s1 ∧
      (s1.fGeoSrcStateStack.length : Int) =
        s.fGeoSrcStateStack.length + ((ops.count .push : Int) - ops.count .pop)) ∧
    (∀ t : GrGpu, t.fGeoSrcStateStack.length = 1 →
      popGeometrySource t = .error .assertFailed) := by
  refine ⟨?_, ?_⟩
  · obtain ⟨s1, h1, _, hl⟩ := runGeoOps_depth ops s hv hno
    exact ⟨s1, h1, hl⟩
  · intro t ht
    simp [popGeometrySource, ht]

theorem pushPop_depth_balance_witness :
    Valid init ∧
    noPopAtDepthOne init.fGeoSrcStateStack.length [.push, .push, .pop] ∧
    ((∃ s1, runGeoOps [.push, .push, .pop] init = .ok s1 ∧
      (s1.fGeoSrcStateStack.length : Int) =
        init.fGeoSrcStateStack.length +
          ((([.push, .push, .pop] : List GeoOp).count .push : Int) -
            ([.push, .push, .pop] : List GeoOp).count .pop)) ∧
    (∀ t : GrGpu, t.fGeoSrcStateStack.length = 1 →
      popGeometrySource t = .error .assertFailed)) :=
  ⟨by decide, by decide, pushPop_depth_balance init [.push, .push, .pop] (by decide) (by decide)⟩

/-- C2 as stated fails: when the top level already holds buffer 1, setting the
vertex source to buffer 1 and then to buffer 2 leaves buffer 1 with one
reference fewer than before the first call (1 instead of 2). -/
theorem setVertexSourceToBuffer_twice_counterexample :
    Valid holdingBufferOne ∧ holdingBufferOne.refCnt 1 = 2 ∧
    (match setVertexSourceToBuffer 1 holdingBufferOne with
     | .error _ => none
     | .ok s1 =>
       match setVertexSourceToBuffer 2 s1 with
       | .error _ => none
       | .ok s2 => some (s2.refCnt 1)) = some 1 := by
  refine ⟨by decide, by decide, ?_⟩
  rfl

theorem releasePreviousVertexSource_buffer (s : GrGpu) (g : GeometrySrcState)
    (hg : getGeomSrc s = .ok g) (hk : g.fVertexSrc = kBuffer_GeometrySrcType) :
    ∃ sm, releasePreviousVertexSource s = .ok sm ∧
      sm.refCnt g.fVertexBuffer = s.refCnt g.fVertexBuffer - 1 ∧
      ∀ p, p ≠ g.fVertexBuffer → sm.refCnt p = s.refCnt p := by
  cases hst : s.fGeoSrcStateStack with
  | nil => simp [getGeomSrc, back, hst] at hg
  | cons g0 rest =>
    have hg0 : g0 = g := by simpa [getGeomSrc, back, hst] using hg
    subst hg0
    simp [releasePreviousVertexSource, back, hst, hk, unref, Function.update_apply]
    intro p hp
    simp [hp]

theorem setVertexSourceToBuffer_spec (s : GrGpu) (buffer : Nat) (g : GeometrySrcState)
    (hv : Valid s) (hg : getGeomSrc s = .ok g) :
    ∃ s1 top, setVertexSourceToBuffer buffer s = .ok s1 ∧ Valid s1 ∧
      getGeomSrc s1 = .ok top ∧
      top.fVertexSrc = kBuffer_GeometrySrcType ∧ top.fVertexBuffer = buffer ∧
      ∀ p, s1.refCnt p =
        s.refCnt p
          - (if g.fVertexSrc = kBuffer_GeometrySrcType ∧ g.fVertexBuffer = p then 1 else 0)
          + (if p = buffer then 1 else 0) := by
  obtain ⟨_, hlen, hvp, hip, hvc, hic⟩ := hv
  cases hst : s.fGeoSrcStateStack with
  | nil => simp [getGeomSrc, back, hst] at hg
  | cons g0 rest =>
    have hg0 : g0 = g := by simpa [getGeomSrc, back, hst] using hg
    subst hg0
    have hgv : g0.fVertexSrc = kReserved_GeometrySrcType → s.fVertexPool = true :=
      hvp g0 (by simp [hst])
    have hvr := (List.forall_mem_cons.1 (hst ▸ hvp)).2
    have hir := List.forall_mem_cons.1 (hst ▸ hip)
    have hl : s.fGeomPoolStateStack.length = rest.length + 1 := by simpa [hst] using hlen
    cases h1 : g0.fVertexSrc <;>
    simp [setVertexSourceToBuffer, releasePreviousVertexSource, releaseReservedVertexSpace,
      getGeomSrc, back, setBack, emit, unref, ref, hst, h1, hgv, Valid, hl] <;>
    refine ⟨?_, ?_⟩
    any_goals first
      | exact And.intro hvr (And.intro hir (And.intro hvc hic))
      | exact And.intro hir hic
    all_goals
      intro p
      by_cases hp : p = buffer <;> by_cases hq : g0.fVertexBuffer = p <;>
        simp [Function.update_apply, hp, hq] <;> omega

/-- From a valid state the release of the previous vertex source returns; it
takes one reference from the buffer a level of kind `Buffer` holds and from no
other. -/
theorem releasePreviousVertexSource_refCnt (s : GrGpu) (g : GeometrySrcState)
    (hv : Valid s) (hg : getGeomSrc s = .ok g) :
    ∃ sm, releasePreviousVertexSource s = .ok sm ∧
      ∀ p, sm.refCnt p =
        s.refCnt p
          - (if g.fVertexSrc = kBuffer_GeometrySrcType ∧ g.fVertexBuffer = p then 1 else 0) := by
  obtain ⟨_, _, hvp, _, _, _⟩ := hv
  cases hst : s.fGeoSrcStateStack with
  | nil => simp [getGeomSrc, back, hst] at hg
  | cons g0 rest =>
    have hg0 : g0 = g := by simpa [getGeomSrc, back, hst] using hg
    subst hg0
    have hgv : g0.fVertexSrc = kReserved_GeometrySrcType → s.fVertexPool = true :=
      hvp g0 (by simp [hst])
    cases h1 : g0.fVertexSrc <;>
    simp [releasePreviousVertexSource, releaseReservedVertexSpace, getGeomSrc, back, setBack,
      emit, unref, hst, h1, hgv]
    intro p
    by_cases hq : g0.fVertexBuffer = p <;> simp [Function.update_apply, hq]
    intro hp
    exact absurd hp.symm hq

/-- C2 (amended): from a valid state whose top level is `g`, and for two buffers
`a` and `b` that each have a reference besides the one `g` may hold on it (the
caller owns the buffers it passes), setting the vertex source to `a` and then to
`b` succeeds; the second call first releases the reference on `a` (the count of
`a` drops by one, that of another buffer is untouched) and then acquires the one
on `b`; afterwards the top level has kind `Buffer` holding `b`, and every
reference count is its value before the first call, minus one for the buffer `g`
held (if `g` was of kind `Buffer`), plus one for `b`.  At every step, after each
release and after each call, the counts of `a` and of `b` are at least 1: no
buffer is referenced after its last reference was released.  Nothing is said of
a call that releases the last reference of the buffer it sets. -/
theorem setVertexSourceToBuffer_twice (s : GrGpu) (a b : Nat) (g : GeometrySrcState)
    (hv : Valid s) (hg : getGeomSrc s = .ok g)
    (hoa : 1 ≤ s.refCnt a
      - (if g.fVertexSrc = kBuffer_GeometrySrcType ∧ g.fVertexBuffer = a then 1 else 0))
    (hob : 1 ≤ s.refCnt b
      - (if g.fVertexSrc = kBuffer_GeometrySrcType ∧ g.fVertexBuffer = b then 1 else 0)) :
    ∃ sm0 s1 sm s2 top,
      releasePreviousVertexSource s = .ok sm0 ∧
      setVertexSourceToBuffer a s = .ok s1 ∧
      releasePreviousVertexSource s1 = .ok sm ∧
      setVertexSourceToBuffer b s1 = .ok s2 ∧
      sm.refCnt a = s1.refCnt a - 1 ∧
      (∀ p, p ≠ a → sm.refCnt p = s1.refCnt p) ∧
      getGeomSrc s2 = .ok top ∧
      top.fVertexSrc = kBuffer_GeometrySrcType ∧ top.fVertexBuffer = b ∧
      (∀ p, s2.refCnt p =
        s.refCnt p
          - (if g.fVertexSrc = kBuffer_GeometrySrcType ∧ g.fVertexBuffer = p then 1 else 0)
          + (if p = b then 1 else 0)) ∧
      (1 ≤ sm0.refCnt a ∧ 1 ≤ s1.refCnt a ∧ 1 ≤ sm.refCnt a ∧ 1 ≤ s2.refCnt a) ∧
      (1 ≤ sm0.refCnt b ∧ 1 ≤ s1.refCnt b ∧ 1 ≤ sm.refCnt b ∧ 1 ≤ s2.refCnt b) := by
  obtain ⟨sm0, h0, hr0⟩ := releasePreviousVertexSource_refCnt s g hv hg
  obtain ⟨s1, top1, h1, hv1, ht1, hk1, hb1, hr1⟩ := setVertexSourceToBuffer_spec s a g hv hg
  obtain ⟨sm, hm, hma, hmo⟩ := releasePreviousVertexSource_buffer s1 top1 ht1 hk1
  obtain ⟨s2, top2, h2, _, ht2, hk2, hb2, hr2⟩ :=
    setVertexSourceToBuffer_spec s1 b top1 hv1 ht1
  rw [hb1] at hma hmo
  have hfin : ∀ p, s2.refCnt p =
      s.refCnt p
        - (if g.fVertexSrc = kBuffer_GeometrySrcType ∧ g.fVertexBuffer = p then 1 else 0)
        + (if p = b then 1 else 0) := by
    intro p
    rw [hr2 p, hr1 p]
    by_cases hp : p = a
    · simp [hk1, hb1, hp]
    · have hp2 : ¬ a = p := fun h => hp h.symm
      simp [hk1, hb1, hp, hp2]
  have e0a := hr0 a
  have e0b := hr0 b
  have e1a := hr1 a
  have e1b := hr1 b
  have e2a := hfin a
  have e2b := hfin b
  have emb : sm.refCnt b = s1.refCnt b - (if b = a then 1 else 0) := by
    by_cases hab : b = a
    · rw [hab, hma]
      simp
    · rw [hmo b hab]
      simp [hab]
  refine ⟨sm0, s1, sm, s2, top2, h0, h1, hm, h2, hma, hmo, ht2, hk2, hb2, hfin, ?_, ?_⟩
  · refine ⟨?_, ?_, ?_, ?_⟩ <;> split_ifs at hoa e0a e1a e2a <;> omega
  · refine ⟨?_, ?_, ?_, ?_⟩ <;> split_ifs at hob e0b e1b e2b emb <;> omega

theorem setVertexSourceToBuffer_twice_witness :
    Valid callerOwnsBoth ∧
    callerOwnsBoth.refCnt 1 = 2 ∧ callerOwnsBoth.refCnt 2 = 1 ∧
    (∃ g, getGeomSrc callerOwnsBoth = .ok g ∧
      g.fVertexSrc = kBuffer_GeometrySrcType ∧ g.fVertexBuffer = 1) ∧
    ∃ sm0 s1 sm s2 top,
      releasePreviousVertexSource callerOwnsBoth = .ok sm0 ∧
      setVertexSourceToBuffer 1 callerOwnsBoth = .ok s1 ∧
      releasePreviousVertexSource s1 = .ok sm ∧
      setVertexSourceToBuffer 2 s1 = .ok s2 ∧
      sm.refCnt 1 = s1.refCnt 1 - 1 ∧
      (∀ p, p ≠ 1 → sm.refCnt p = s1.refCnt p) ∧
      getGeomSrc s2 = .ok top ∧
      top.fVertexSrc = kBuffer_GeometrySrcType ∧ top.fVertexBuffer = 2 ∧
      (∀ p, s2.refCnt p =
        callerOwnsBoth.refCnt p - (if 1 = p then 1 else 0) + (if p = 2 then 1 else 0)) ∧
      (1 ≤ sm0.refCnt 1 ∧ 1 ≤ s1.refCnt 1 ∧ 1 ≤ sm.refCnt 1 ∧ 1 ≤ s2.refCnt 1) ∧
      (1 ≤ sm0.refCnt 2 ∧ 1 ≤ s1.refCnt 2 ∧ 1 ≤ sm.refCnt 2 ∧ 1 ≤ s2.refCnt 2) := by
  refine ⟨by decide, rfl, rfl, ⟨_, rfl, rfl, rfl⟩, ?_⟩
  have h := setVertexSourceToBuffer_twice callerOwnsBoth 1 2
    { fVertexSrc := kBuffer_GeometrySrcType, fIndexSrc := kNone_GeometrySrcType,
      fVertexBuffer := 1, fIndexBuffer := DEBUG_INVAL_BUFFER,
      fVertexCount := DEBUG_INVAL_START_IDX, fIndexCount := DEBUG_INVAL_START_IDX,
      fVertexSize := 0 } (by decide) rfl (by decide) (by decide)
  simpa using h

theorem innerLoop_spec (f : Nat → Nat) (baseIdx : Nat) (n : Nat) (data : List Nat)
    (hlen : baseIdx + n ≤ data.length) :
    ((List.range n).foldl (fun d j => d.set (baseIdx + j) (f j)) data).length = data.length ∧
    (∀ j, j < n →
      ((List.range n).foldl (fun d j => d.set (baseIdx + j) (f j)) data)[baseIdx + j]? =
        some (f j)) ∧
    (∀ k, k < baseIdx →
      ((List.range n).foldl (fun d j => d.set (baseIdx + j) (f j)) data)[k]? = data[k]?) := by
  induction n with
  | zero => simp
  | succ n ih =>
    obtain ⟨h1, h2, h3⟩ := ih (by omega)
    rw [List.range_succ, List.foldl_append]
    simp only [List.foldl_cons, List.foldl_nil]
    refine ⟨by simp [h1], ?_, ?_⟩
    · intro j hj
      by_cases hjn : j = n
      · subst hjn
        rw [List.getElem?_set_self]
        simp [h1]; omega
      · rw [List.getElem?_set_ne (by omega)]
        exact h2 j (by omega)
    · intro k hk
      rw [List.getElem?_set_ne (by omega)]
      exact h3 k hk

theorem fillInstancedIndices_spec (pattern : List Nat) (patternSize vertCount : Nat)
    (data : List Nat) (m : Nat) (hlen : m * patternSize ≤ data.length) :
    (fillInstancedIndices pattern patternSize m vertCount data).length = data.length ∧
    ∀ i j, i < m → j < patternSize →
      (fillInstancedIndices pattern patternSize m vertCount data)[i * patternSize + j]? =
        some (((i * vertCount) % 2 ^ 16 + pattern.getD j 0) % 2 ^ 16) := by
  induction m with
  | zero => simp [fillInstancedIndices]
  | succ m ih =>
    have hm : m * patternSize ≤ data.length := by
      have : m * patternSize ≤ (m + 1) * patternSize := Nat.mul_le_mul_right _ (Nat.le_succ m)
      omega
    obtain ⟨h1, h2⟩ := ih hm
    unfold fillInstancedIndices at h1 h2 ⊢
    rw [List.range_succ, List.foldl_append]
    simp only [List.foldl_cons, List.foldl_nil]
    have hb : m * patternSize + patternSize ≤
        ((List.range m).foldl
          (fun data i =>
            let baseIdx := i * patternSize
            let baseVert := (i * vertCount) % 2 ^ 16
            (List.range patternSize).foldl
              (fun data j => data.set (baseIdx + j) ((baseVert + pattern.getD j 0) % 2 ^ 16))
              data)
          data).length := by
      rw [h1]; rw [Nat.succ_mul] at hlen; exact hlen
    obtain ⟨g1, g2, g3⟩ := innerLoop_spec
      (fun j => ((m * vertCount) % 2 ^ 16 + pattern.getD j 0) % 2 ^ 16)
      (m * patternSize) patternSize _ hb
    refine ⟨by rw [g1, h1], ?_⟩
    intro i j hi hj
    by_cases him : i = m
    · subst him
      exact g2 j hj
    · have hlt : i < m := by omega
      have hk : i * patternSize + j < m * patternSize := by
        have : (i + 1) * patternSize ≤ m * patternSize := Nat.mul_le_mul_right _ hlt
        rw [Nat.succ_mul] at this
        omega
      rw [g3 _ hk]
      exact h2 i j hlt hj

theorem quadIndexData_spec :
    quadIndexData.length = 6 * MAX_QUADS ∧
    ∀ i j, i < MAX_QUADS → j < 6 →
      quadIndexData[6 * i + j]? = some (4 * i + gQuadIndexPattern.getD j 0) := by
  obtain ⟨h1, h2⟩ := fillInstancedIndices_spec gQuadIndexPattern 6 4
    (List.replicate (MAX_QUADS * 6) 0) MAX_QUADS (by simp)
  refine ⟨by rw [quadIndexData, h1]; simp [Nat.mul_comm], ?_⟩
  intro i j hi hj
  have h := h2 i j hi hj
  rw [quadIndexData, Nat.mul_comm 6 i, h]
  have hp : gQuadIndexPattern.getD j 0 ≤ 3 := by
    unfold gQuadIndexPattern
    interval_cases j <;> simp
  have hi4 : i < 4096 := by simpa [MAX_QUADS] using hi
  have e : (i * 4 % 2 ^ 16 + gQuadIndexPattern.getD j 0) % 2 ^ 16 =
      4 * i + gQuadIndexPattern.getD j 0 := by omega
  rw [e]

theorem getQuadIndexBuffer_needs (env : Env) (s : GrGpu)
    (hneed : s.fQuadIndexBuffer = none ∨
      ∃ c, s.fQuadIndexBuffer = some c ∧ env.wasDestroyed s.log c = true) :
    getQuadIndexBuffer env s =
      match createInstancedIndexBuffer env gQuadIndexPattern 6 MAX_QUADS 4
          env.isDynamicDefault (SkSafeUnref s.fQuadIndexBuffer s) with
      | .error e => .error e
      | .ok (buffer, s2) => .ok (buffer, { s2 with fQuadIndexBuffer := buffer }) := by
  unfold getQuadIndexBuffer
  rw [if_pos]
  rcases hneed with h | ⟨c, hc, hd⟩
  · exact Or.inl h
  · right
    rw [hc]
    exact hd

theorem SkSafeUnref_log (p : Option Nat) (s : GrGpu) : (SkSafeUnref p s).log = s.log := by
  cases p <;> rfl

theorem quadBufferSize : (6 * MAX_QUADS * 2) % 2 ^ 64 = 6 * MAX_QUADS * 2 := by
  decide

/-- C3: when `getQuadIndexBuffer` has to build the buffer (nothing cached, or the
cached buffer was destroyed), the backend creates buffer `b` and the data can be
stored (the buffer maps, or `updateData` succeeds), the call returns `b` and hands
it exactly `quadIndexData`; that data has `6 * MAX_QUADS` entries, and for every
repetition `i < MAX_QUADS` the entries at `6i .. 6i+5` are
`4i, 4i+1, 4i+2, 4i, 4i+2, 4i+3`, untouched by the `uint16_t` truncation. -/
theorem getQuadIndexBuffer_index_data (env : Env) (s : GrGpu) (b : Nat)
    (hneed : s.fQuadIndexBuffer = none ∨
      ∃ c, s.fQuadIndexBuffer = some c ∧ env.wasDestroyed s.log c = true)
    (hcreate : env.onCreateIndexBuffer (s.log ++ [.handleDirtyContext])
      (6 * MAX_QUADS * 2) env.isDynamicDefault = some b)
    (hstore :
      env.bufferMap (s.log ++ [.handleDirtyContext,
        .onCreateIndexBuffer (6 * MAX_QUADS * 2) env.isDynamicDefault]) b = true ∨
      env.bufferUpdateData (s.log ++ [.handleDirtyContext,
        .onCreateIndexBuffer (6 * MAX_QUADS * 2) env.isDynamicDefault, .bufferMap b])
        b quadIndexData (6 * MAX_QUADS * 2) = true) :
    (∃ s1, getQuadIndexBuffer env s = .ok (some b, s1) ∧
      (s1.log = s.log ++ [.handleDirtyContext,
          .onCreateIndexBuffer (6 * MAX_QUADS * 2) env.isDynamicDefault, .bufferMap b,
          .bufferWriteMapped b quadIndexData, .bufferUnmap b] ∨
       s1.log = s.log ++ [.handleDirtyContext,
          .onCreateIndexBuffer (6 * MAX_QUADS * 2) env.isDynamicDefault, .bufferMap b,
          .bufferUpdateData b quadIndexData (6 * MAX_QUADS * 2)])) ∧
    quadIndexData.length = 6 * MAX_QUADS ∧
    ∀ i, i < MAX_QUADS →
      quadIndexData[6 * i]? = some (4 * i) ∧
      quadIndexData[6 * i + 1]? = some (4 * i + 1) ∧
      quadIndexData[6 * i + 2]? = some (4 * i + 2) ∧
      quadIndexData[6 * i + 3]? = some (4 * i) ∧
      quadIndexData[6 * i + 4]? = some (4 * i + 2) ∧
      quadIndexData[6 * i + 5]? = some (4 * i + 3) := by
  obtain ⟨hlen, hent⟩ := quadIndexData_spec
  refine ⟨?_, hlen, ?_⟩
  · rw [getQuadIndexBuffer_needs env s hneed]
    simp only [createInstancedIndexBuffer, createIndexBuffer, handleDirtyContext, emit,
      SkSafeUnref_log, quadBufferSize, hcreate, List.append_assoc, List.singleton_append,
      List.cons_append, List.nil_append]
    by_cases hm : env.bufferMap (s.log ++ [.handleDirtyContext,
        .onCreateIndexBuffer (6 * MAX_QUADS * 2) env.isDynamicDefault]) b = true
    · simp [hm, quadIndexData]
    · have hu := hstore.resolve_left hm
      simp only [quadIndexData] at hu
      simp [hm, hu, quadIndexData]
  · intro i hi
    have h0 := hent i 0 hi (by decide)
    have h1 := hent i 1 hi (by decide)
    have h2 := hent i 2 hi (by decide)
    have h3 := hent i 3 hi (by decide)
    have h4 := hent i 4 hi (by decide)
    have h5 := hent i 5 hi (by decide)
    simp only [gQuadIndexPattern, List.getD_cons_zero, List.getD_cons_succ, Nat.add_zero]
      at h0 h1 h2 h3 h4 h5
    exact ⟨h0, h1, h2, h3, h4, h5⟩

theorem getQuadIndexBuffer_index_data_witness :
    (init.fQuadIndexBuffer = none ∨
      ∃ c, init.fQuadIndexBuffer = some c ∧ sampleEnv.wasDestroyed init.log c = true) ∧
    sampleEnv.onCreateIndexBuffer (init.log ++ [.handleDirtyContext])
      (6 * MAX_QUADS * 2) sampleEnv.isDynamicDefault = some 7 ∧
    sampleEnv.bufferMap (init.log ++ [.handleDirtyContext,
      .onCreateIndexBuffer (6 * MAX_QUADS * 2) sampleEnv.isDynamicDefault]) 7 = true ∧
    (∃ s1, getQuadIndexBuffer sampleEnv init = .ok (some 7, s1) ∧
      (s1.log = init.log ++ [.handleDirtyContext,
          .onCreateIndexBuffer (6 * MAX_QUADS * 2) sampleEnv.isDynamicDefault, .bufferMap 7,
          .bufferWriteMapped 7 quadIndexData, .bufferUnmap 7] ∨
       s1.log = init.log ++ [.handleDirtyContext,
          .onCreateIndexBuffer (6 * MAX_QUADS * 2) sampleEnv.isDynamicDefault, .bufferMap 7,
          .bufferUpdateData 7 quadIndexData (6 * MAX_QUADS * 2)])) ∧
    quadIndexData.length = 6 * MAX_QUADS ∧
    quadIndexData[6 * 4095 + 5]? = some (4 * 4095 + 3) :=
  have h := getQuadIndexBuffer_index_data sampleEnv init 7 (Or.inl rfl) rfl (Or.inl rfl)
  ⟨Or.inl rfl, rfl, rfl, h.1, h.2.1, (h.2.2 4095 (by decide)).2.2.2.2.2⟩

/-- C4 as stated fails: the cached buffer 7 reports itself destroyed and the backend
cannot create an index buffer; `getQuadIndexBuffer` then returns `NULL`, not a
new instance. -/
theorem getQuadIndexBuffer_recreate_counterexample :
    cachedSeven.fQuadIndexBuffer = some 7 ∧
    lostContextEnv.wasDestroyed cachedSeven.log 7 = true ∧
    (match getQuadIndexBuffer lostContextEnv cachedSeven with
     | .error _ => none
     | .ok (buffer, _) => some buffer) = some none :=
  ⟨rfl, rfl, rfl⟩

theorem getQuadIndexBuffer_caches (env : Env) (s s1 : GrGpu) (r : Option Nat)
    (h : getQuadIndexBuffer env s = .ok (r, s1)) : s1.fQuadIndexBuffer = r := by
  unfold getQuadIndexBuffer at h
  split_ifs at h with hc
  · dsimp only at h
    split at h
    · cases h
    · cases h
      rfl
  · cases h
    rfl

theorem getQuadIndexBuffer_hit (env : Env) (s : GrGpu) (b : Nat)
    (hb : s.fQuadIndexBuffer = some b) (hd : env.wasDestroyed s.log b = false) :
    getQuadIndexBuffer env s = .ok (some b, s) := by
  unfold getQuadIndexBuffer
  rw [if_neg]
  · rw [hb]
  · rw [hb]
    simp [hd]

theorem getQuadIndexBuffer_build (env : Env) (s : GrGpu) (b : Nat)
    (hneed : s.fQuadIndexBuffer = none ∨
      ∃ c, s.fQuadIndexBuffer = some c ∧ env.wasDestroyed s.log c = true)
    (hcreate : env.onCreateIndexBuffer (s.log ++ [.handleDirtyContext])
      (6 * MAX_QUADS * 2) env.isDynamicDefault = some b)
    (hstore :
      env.bufferMap (s.log ++ [.handleDirtyContext,
        .onCreateIndexBuffer (6 * MAX_QUADS * 2) env.isDynamicDefault]) b = true ∨
      env.bufferUpdateData (s.log ++ [.handleDirtyContext,
        .onCreateIndexBuffer (6 * MAX_QUADS * 2) env.isDynamicDefault, .bufferMap b])
        b quadIndexData (6 * MAX_QUADS * 2) = true) :
    ∃ s1, getQuadIndexBuffer env s = .ok (some b, s1) ∧
      s1.fQuadIndexBuffer = some b ∧
      s1.refCnt = (SkSafeUnref s.fQuadIndexBuffer s).refCnt ∧
      (s1.log = s.log ++ [.handleDirtyContext,
          .onCreateIndexBuffer (6 * MAX_QUADS * 2) env.isDynamicDefault, .bufferMap b,
          .bufferWriteMapped b quadIndexData, .bufferUnmap b] ∨
       s1.log = s.log ++ [.handleDirtyContext,
          .onCreateIndexBuffer (6 * MAX_QUADS * 2) env.isDynamicDefault, .bufferMap b,
          .bufferUpdateData b quadIndexData (6 * MAX_QUADS * 2)]) := by
  rw [getQuadIndexBuffer_needs env s hneed]
  simp only [createInstancedIndexBuffer, createIndexBuffer, handleDirtyContext, emit,
    SkSafeUnref_log, quadBufferSize, hcreate, List.append_assoc, List.singleton_append,
    List.cons_append, List.nil_append]
  by_cases hm : env.bufferMap (s.log ++ [.handleDirtyContext,
      .onCreateIndexBuffer (6 * MAX_QUADS * 2) env.isDynamicDefault]) b = true
  · simp [hm, quadIndexData]
  · have hu := hstore.resolve_left hm
    simp only [quadIndexData] at hu
    simp [hm, hu, quadIndexData]

theorem getQuadIndexBuffer_create_failed (env : Env) (s : GrGpu)
    (hneed : s.fQuadIndexBuffer = none ∨
      ∃ c, s.fQuadIndexBuffer = some c ∧ env.wasDestroyed s.log c = true)
    (hcreate : env.onCreateIndexBuffer (s.log ++ [.handleDirtyContext])
      (6 * MAX_QUADS * 2) env.isDynamicDefault = none) :
    ∃ s1, getQuadIndexBuffer env s = .ok (none, s1) ∧
      s1.fQuadIndexBuffer = none ∧
      s1.refCnt = (SkSafeUnref s.fQuadIndexBuffer s).refCnt ∧
      s1.log = s.log ++ [.handleDirtyContext,
          .onCreateIndexBuffer (6 * MAX_QUADS * 2) env.isDynamicDefault] := by
  rw [getQuadIndexBuffer_needs env s hneed]
  simp only [createInstancedIndexBuffer, createIndexBuffer, handleDirtyContext, emit,
    SkSafeUnref_log, quadBufferSize, hcreate, List.append_assoc, List.singleton_append,
    List.cons_append, List.nil_append]
  simp

/-- C4 (amended): a call of `getQuadIndexBuffer` that follows one which returned
buffer `b`, with `b` not reporting itself destroyed, returns `b` again and leaves
the state, hence the log, untouched: nothing is created.  When the cached buffer
`c` reports itself destroyed, the next call drops the cached reference on `c`,
asks the backend for an index buffer once, and returns and caches what the
backend returned: `NULL` when creation fails, the created buffer when creation
succeeds and its indices can be stored. -/
theorem getQuadIndexBuffer_cache_policy (env : Env) (s : GrGpu) :
    (∀ b s1, getQuadIndexBuffer env s = .ok (some b, s1) →
      env.wasDestroyed s1.log b = false →
      getQuadIndexBuffer env s1 = .ok (some b, s1)) ∧
    (∀ c, s.fQuadIndexBuffer = some c → env.wasDestroyed s.log c = true →
      (env.onCreateIndexBuffer (s.log ++ [.handleDirtyContext])
          (6 * MAX_QUADS * 2) env.isDynamicDefault = none →
        ∃ s1, getQuadIndexBuffer env s = .ok (none, s1) ∧
          s1.fQuadIndexBuffer = none ∧
          s1.refCnt = Function.update s.refCnt c (s.refCnt c - 1) ∧
          s1.log = s.log ++ [.handleDirtyContext,
            .onCreateIndexBuffer (6 * MAX_QUADS * 2) env.isDynamicDefault]) ∧
      (∀ b, env.onCreateIndexBuffer (s.log ++ [.handleDirtyContext])
          (6 * MAX_QUADS * 2) env.isDynamicDefault = some b →
        (env.bufferMap (s.log ++ [.handleDirtyContext,
            .onCreateIndexBuffer (6 * MAX_QUADS * 2) env.isDynamicDefault]) b = true ∨
          env.bufferUpdateData (s.log ++ [.handleDirtyContext,
            .onCreateIndexBuffer (6 * MAX_QUADS * 2) env.isDynamicDefault, .bufferMap b])
            b quadIndexData (6 * MAX_QUADS * 2) = true) →
        ∃ s1, getQuadIndexBuffer env s = .ok (some b, s1) ∧
          s1.fQuadIndexBuffer = some b ∧
          s1.refCnt = Function.update s.refCnt c (s.refCnt c - 1) ∧
          (s1.log = s.log ++ [.handleDirtyContext,
              .onCreateIndexBuffer (6 * MAX_QUADS * 2) env.isDynamicDefault, .bufferMap b,
              .bufferWriteMapped b quadIndexData, .bufferUnmap b] ∨
           s1.log = s.log ++ [.handleDirtyContext,
              .onCreateIndexBuffer (6 * MAX_QUADS * 2) env.isDynamicDefault, .bufferMap b,
              .bufferUpdateData b quadIndexData (6 * MAX_QUADS * 2)]))) := by
  refine ⟨?_, ?_⟩
  · intro b s1 h hd
    exact getQuadIndexBuffer_hit env s1 b (getQuadIndexBuffer_caches env s s1 _ h) hd
  · intro c hc hd
    have hneed : s.fQuadIndexBuffer = none ∨
        ∃ c, s.fQuadIndexBuffer = some c ∧ env.wasDestroyed s.log c = true :=
      Or.inr ⟨c, hc, hd⟩
    have hu : (SkSafeUnref s.fQuadIndexBuffer s).refCnt =
        Function.update s.refCnt c (s.refCnt c - 1) := by
      rw [hc]; rfl
    refine ⟨?_, ?_⟩
    · intro hcreate
      obtain ⟨s1, h1, h2, h3, h4⟩ := getQuadIndexBuffer_create_failed env s hneed hcreate
      exact ⟨s1, h1, h2, h3.trans hu, h4⟩
    · intro b hcreate hstore
      obtain ⟨s1, h1, h2, h3, h4⟩ := getQuadIndexBuffer_build env s b hneed hcreate hstore
      exact ⟨s1, h1, h2, h3.trans hu, h4⟩

theorem getQuadIndexBuffer_cache_policy_witness :
    (∃ s1, getQuadIndexBuffer sampleEnv init = .ok (some 7, s1) ∧
      sampleEnv.wasDestroyed s1.log 7 = false ∧
      getQuadIndexBuffer sampleEnv s1 = .ok (some 7, s1)) ∧
    (cachedSeven.fQuadIndexBuffer = some 7 ∧
      recreatingEnv.wasDestroyed cachedSeven.log 7 = true ∧
      ∃ s1, getQuadIndexBuffer recreatingEnv cachedSeven = .ok (some 8, s1) ∧
        s1.fQuadIndexBuffer = some 8 ∧ s1.refCnt 7 = 0) ∧
    (lostContextEnv.wasDestroyed cachedSeven.log 7 = true ∧
      ∃ s1, getQuadIndexBuffer lostContextEnv cachedSeven = .ok (none, s1) ∧
        s1.fQuadIndexBuffer = none ∧ s1.refCnt 7 = 0) := by
  refine ⟨?_, ⟨rfl, rfl, ?_⟩, ⟨rfl, ?_⟩⟩
  · obtain ⟨s1, h1, _, _, _⟩ :=
      getQuadIndexBuffer_build sampleEnv init 7 (Or.inl rfl) rfl (Or.inl rfl)
    exact ⟨s1, h1, rfl, (getQuadIndexBuffer_cache_policy sampleEnv init).1 7 s1 h1 rfl⟩
  · obtain ⟨s1, h1, h2, h3, _⟩ :=
      (getQuadIndexBuffer_cache_policy recreatingEnv cachedSeven).2 7 rfl rfl |>.2 8 rfl
        (Or.inl rfl)
    exact ⟨s1, h1, h2, by rw [h3]; rfl⟩
  · obtain ⟨s1, h1, h2, h3, _⟩ :=
      (getQuadIndexBuffer_cache_policy lostContextEnv cachedSeven).2 7 rfl rfl |>.1 rfl
    exact ⟨s1, h1, h2, by rw [h3]; rfl⟩

/-- C5: when the format is not texturable, or the render-target flag is set and
the format is not renderable at the requested sampling, `createTexture` returns
`NULL` and leaves the state, hence the log of backend calls, exactly as it was. -/
theorem createTexture_capability_rejection (env : Env) (desc : GrSurfaceDesc)
    (rowBytes : Nat) (s : GrGpu)
    (h : env.isConfigTexturable desc.fConfig = false ∨
      (desc.fFlags &&& env.kRenderTarget_GrSurfaceFlag ≠ 0 ∧
        env.isConfigRenderable desc.fConfig (decide (desc.fSampleCnt > 0)) = false)) :
    createTexture env desc rowBytes s = .ok (none, s) := by
  unfold createTexture
  rcases h with h | h
  · rw [if_pos h]
  · by_cases ht : env.isConfigTexturable desc.fConfig = false
    · rw [if_pos ht]
    · rw [if_neg ht, if_pos h]

theorem createTexture_capability_rejection_witness :
    (notRenderableEnv.isConfigTexturable renderTargetDesc.fConfig = false ∨
      (renderTargetDesc.fFlags &&& notRenderableEnv.kRenderTarget_GrSurfaceFlag ≠ 0 ∧
        notRenderableEnv.isConfigRenderable renderTargetDesc.fConfig
          (decide (renderTargetDesc.fSampleCnt > 0)) = false)) ∧
    createTexture notRenderableEnv renderTargetDesc 64 init = .ok (none, init) :=
  ⟨Or.inr ⟨by decide, rfl⟩,
    createTexture_capability_rejection notRenderableEnv renderTargetDesc 64 init
      (Or.inr ⟨by decide, rfl⟩)⟩

theorem attachStencilBufferToRenderTarget_refCnt (env : Env) (rt : GrRenderTarget)
    (s s1 : GrGpu) (r : Bool)
    (h : attachStencilBufferToRenderTarget env rt s = .ok (r, s1)) : s1.refCnt = s.refCnt := by
  unfold attachStencilBufferToRenderTarget at h
  split_ifs at h with h0
  split at h
  · dsimp only at h
    split_ifs at h <;> cases h <;> rfl
  · dsimp only at h
    split_ifs at h <;> cases h <;> rfl

/-- C6: for a texturable, uncompressed description (renderable when the
render-target flag is set) for which the backend creates texture `t`:
with the render-target flag set and the no-stencil flag clear, if attaching a
stencil buffer to the render target of `t` fails, `createTexture` returns `NULL`
and the reference count of `t` is one lower than before (one `unref`); if the
attach succeeds it returns `t` and no reference count changes.  With the
render-target flag clear or the no-stencil flag set it returns `t` right after
the backend call, and no reference count changes. -/
theorem createTexture_stencil_attach (env : Env) (desc : GrSurfaceDesc) (rowBytes : Nat)
    (s : GrGpu) (t : GrTexture)
    (htex : env.isConfigTexturable desc.fConfig = true)
    (hrend : desc.fFlags &&& env.kRenderTarget_GrSurfaceFlag ≠ 0 →
      env.isConfigRenderable desc.fConfig (decide (desc.fSampleCnt > 0)) = true)
    (hcomp : env.GrPixelConfigIsCompressed desc.fConfig = false)
    (hcreate : env.onCreateTexture (s.log ++ [.handleDirtyContext]) desc rowBytes = some t) :
    (env.kRenderTarget_GrSurfaceFlag &&& desc.fFlags ≠ 0 →
      env.kNoStencil_GrSurfaceFlag &&& desc.fFlags = 0 →
      ∀ rt s3, t.asRenderTarget = some rt →
        (attachStencilBufferToRenderTarget env rt
            (emit (.onCreateTexture desc rowBytes) (handleDirtyContext s)) = .ok (false, s3) →
          ∃ s4, createTexture env desc rowBytes s = .ok (none, s4) ∧
            s4.refCnt t.ptr = s.refCnt t.ptr - 1 ∧
            (∀ p, p ≠ t.ptr → s4.refCnt p = s.refCnt p) ∧ s4.log = s3.log) ∧
        (attachStencilBufferToRenderTarget env rt
            (emit (.onCreateTexture desc rowBytes) (handleDirtyContext s)) = .ok (true, s3) →
          createTexture env desc rowBytes s = .ok (some t, s3) ∧ s3.refCnt = s.refCnt)) ∧
    (env.kRenderTarget_GrSurfaceFlag &&& desc.fFlags = 0 ∨
        env.kNoStencil_GrSurfaceFlag &&& desc.fFlags ≠ 0 →
      createTexture env desc rowBytes s =
        .ok (some t, emit (.onCreateTexture desc rowBytes) (handleDirtyContext s))) := by
  have hpre : ¬ (desc.fFlags &&& env.kRenderTarget_GrSurfaceFlag ≠ 0 ∧
      env.isConfigRenderable desc.fConfig (decide (desc.fSampleCnt > 0)) = false) := by
    rintro ⟨h1, h2⟩
    rw [hrend h1] at h2
    cases h2
  have hlog : (handleDirtyContext s).log = s.log ++ [.handleDirtyContext] := rfl
  refine ⟨?_, ?_⟩
  · intro hrt hns rt s3 hasrt
    have hcond : env.kRenderTarget_GrSurfaceFlag &&& desc.fFlags ≠ 0 ∧
        ¬ env.kNoStencil_GrSurfaceFlag &&& desc.fFlags ≠ 0 := ⟨hrt, by simpa using hns⟩
    refine ⟨?_, ?_⟩
    · intro hatt
      have hr := attachStencilBufferToRenderTarget_refCnt env rt _ s3 false hatt
      refine ⟨unref t.ptr s3, ?_, ?_, ?_, rfl⟩
      · unfold createTexture
        rw [if_neg (by simp [htex]), if_neg hpre, if_neg (by simp [hcomp])]
        simp only [hlog, hcreate, if_pos hcond, hasrt, hatt]
      · simp [unref, hr, emit, handleDirtyContext]
      · intro p hp
        simp [unref, hr, emit, handleDirtyContext, Function.update_apply, hp]
    · intro hatt
      have hr := attachStencilBufferToRenderTarget_refCnt env rt _ s3 true hatt
      refine ⟨?_, by rw [hr]; rfl⟩
      unfold createTexture
      rw [if_neg (by simp [htex]), if_neg hpre, if_neg (by simp [hcomp])]
      simp only [hlog, hcreate, if_pos hcond, hasrt, hatt]
  · intro hflags
    have hcond : ¬ (env.kRenderTarget_GrSurfaceFlag &&& desc.fFlags ≠ 0 ∧
        ¬ env.kNoStencil_GrSurfaceFlag &&& desc.fFlags ≠ 0) := by
      rintro ⟨h1, h2⟩
      rcases hflags with h | h
      · exact h1 h
      · exact h2 h
    unfold createTexture
    rw [if_neg (by simp [htex]), if_neg hpre, if_neg (by simp [hcomp])]
    simp only [hlog, hcreate, if_neg hcond]

theorem createTexture_stencil_attach_witness :
    noStencilEnv.isConfigTexturable renderTargetDesc.fConfig = true ∧
    noStencilEnv.GrPixelConfigIsCompressed renderTargetDesc.fConfig = false ∧
    noStencilEnv.onCreateTexture (init.log ++ [.handleDirtyContext]) renderTargetDesc 64 =
      some { ptr := 100, asRenderTarget := some sampleRenderTarget } ∧
    noStencilEnv.kRenderTarget_GrSurfaceFlag &&& renderTargetDesc.fFlags ≠ 0 ∧
    noStencilEnv.kNoStencil_GrSurfaceFlag &&& renderTargetDesc.fFlags = 0 ∧
    (∃ s3, attachStencilBufferToRenderTarget noStencilEnv sampleRenderTarget
        (emit (.onCreateTexture renderTargetDesc 64) (handleDirtyContext init)) =
          .ok (false, s3)) ∧
    ∃ s4, createTexture noStencilEnv renderTargetDesc 64 init = .ok (none, s4) ∧
      s4.refCnt 100 = init.refCnt 100 - 1 :=
  ⟨rfl, rfl, rfl, by decide, by decide, ⟨_, rfl⟩,
    have h := (createTexture_stencil_attach noStencilEnv renderTargetDesc 64 init
      { ptr := 100, asRenderTarget := some sampleRenderTarget } rfl (fun _ => rfl) rfl rfl).1
      (by decide) (by decide) sampleRenderTarget _ rfl
    (h.1 rfl).imp (fun _ h4 => ⟨h4.1, h4.2.1⟩)⟩

/-- C7: for a render target with no stencil buffer attached for which the
stencil cache returns buffer `sb`: if the backend-level attach fails, the call
returns `false` and the stencil pointers are as before the call (that of `rt`
is `NULL` again); if it succeeds, the call returns `true` and `rt` references
`sb`.  Either way the only backend call made is the backend-level attach: no
stencil buffer is created and `clearStencil` is not called. -/
theorem attachStencilBufferToRenderTarget_cached (env : Env) (rt : GrRenderTarget)
    (s : GrGpu) (sb : Nat)
    (hnone : s.rtStencilBuffer rt.ptr = none)
    (hfind : env.findStencilBuffer s.log rt.width rt.height rt.numSamples = some sb) :
    (env.backendAttachStencilBuffer s.log sb rt = false →
      ∃ s1, attachStencilBufferToRenderTarget env rt s = .ok (false, s1) ∧
        s1.rtStencilBuffer rt.ptr = none ∧ s1.rtStencilBuffer = s.rtStencilBuffer ∧
        s1.log = s.log ++ [.backendAttachStencilBuffer sb rt]) ∧
    (env.backendAttachStencilBuffer s.log sb rt = true →
      ∃ s1, attachStencilBufferToRenderTarget env rt s = .ok (true, s1) ∧
        s1.rtStencilBuffer rt.ptr = some sb ∧
        s1.log = s.log ++ [.backendAttachStencilBuffer sb rt]) := by
  have hlog : (setStencilBuffer rt (some sb) s).log = s.log := rfl
  refine ⟨?_, ?_⟩
  · intro hatt
    refine ⟨setStencilBuffer rt none
      (emit (.backendAttachStencilBuffer sb rt) (setStencilBuffer rt (some sb) s)),
      ?_, ?_, ?_, ?_⟩
    · unfold attachStencilBufferToRenderTarget
      rw [if_neg (by simp [hnone])]
      simp only [hfind, hlog, hatt, if_true]
    · simp [setStencilBuffer, emit]
    · simp only [setStencilBuffer, emit, Function.update_idem]
      rw [← hnone, Function.update_eq_self]
    · rfl
  · intro hatt
    refine ⟨emit (.backendAttachStencilBuffer sb rt) (setStencilBuffer rt (some sb) s),
      ?_, ?_, ?_⟩
    · unfold attachStencilBufferToRenderTarget
      rw [if_neg (by simp [hnone])]
      simp only [hfind, hlog, hatt]
      rfl
    · simp [setStencilBuffer, emit]
    · rfl

theorem attachStencilBufferToRenderTarget_cached_witness :
    init.rtStencilBuffer sampleRenderTarget.ptr = none ∧
    attachFailsEnv.findStencilBuffer init.log sampleRenderTarget.width
      sampleRenderTarget.height sampleRenderTarget.numSamples = some 9 ∧
    attachFailsEnv.backendAttachStencilBuffer init.log 9 sampleRenderTarget = false ∧
    ∃ s1, attachStencilBufferToRenderTarget attachFailsEnv sampleRenderTarget init =
        .ok (false, s1) ∧
      s1.rtStencilBuffer sampleRenderTarget.ptr = none ∧
      s1.rtStencilBuffer = init.rtStencilBuffer ∧
      s1.log = init.log ++ [.backendAttachStencilBuffer 9 sampleRenderTarget] :=
  ⟨rfl, rfl, rfl,
    (attachStencilBufferToRenderTarget_cached attachFailsEnv sampleRenderTarget init 9
      rfl rfl).1 rfl⟩

/-- C8: for a render target with no stencil buffer attached for which the
stencil cache has no match, `attachStencilBufferToRenderTarget` returns exactly
what `createStencilBufferForRenderTarget(rt, width, height)` returns; the calls
it issues are that creation, followed by one `clearStencil(rt)` when the
creation succeeded and by nothing when it failed. -/
theorem attachStencilBufferToRenderTarget_uncached (env : Env) (rt : GrRenderTarget)
    (s : GrGpu)
    (hnone : s.rtStencilBuffer rt.ptr = none)
    (hfind : env.findStencilBuffer s.log rt.width rt.height rt.numSamples = none) :
    ∃ r s1, attachStencilBufferToRenderTarget env rt s = .ok (r, s1) ∧
      (r = true ↔ env.createStencilBufferForRenderTarget s.log rt rt.width rt.height = true) ∧
      s1.log = s.log ++ .createStencilBufferForRenderTarget rt rt.width rt.height ::
        (if r = true then [.clearStencil rt] else []) ∧
      s1.log.count (.clearStencil rt) =
        s.log.count (.clearStencil rt) + (if r = true then 1 else 0) := by
  unfold attachStencilBufferToRenderTarget
  rw [if_neg (by simp [hnone])]
  simp only [hfind]
  by_cases hc : env.createStencilBufferForRenderTarget s.log rt rt.width rt.height = true
  · refine ⟨true, emit (.clearStencil rt)
      (emit (.createStencilBufferForRenderTarget rt rt.width rt.height) s),
      by rw [if_pos hc], by simp [hc], by simp [emit], ?_⟩
    simp [emit, List.count_cons, List.count_append]
  · refine ⟨false, emit (.createStencilBufferForRenderTarget rt rt.width rt.height) s,
      by rw [if_neg hc], by simp [hc], by simp [emit], ?_⟩
    simp [emit, List.count_cons, List.count_append]

theorem attachStencilBufferToRenderTarget_uncached_witness :
    init.rtStencilBuffer sampleRenderTarget.ptr = none ∧
    sampleEnv.findStencilBuffer init.log sampleRenderTarget.width
      sampleRenderTarget.height sampleRenderTarget.numSamples = none ∧
    ∃ r s1, attachStencilBufferToRenderTarget sampleEnv sampleRenderTarget init = .ok (r, s1) ∧
      (r = true ↔ sampleEnv.createStencilBufferForRenderTarget init.log sampleRenderTarget
        sampleRenderTarget.width sampleRenderTarget.height = true) ∧
      s1.log = init.log ++ .createStencilBufferForRenderTarget sampleRenderTarget
          sampleRenderTarget.width sampleRenderTarget.height ::
        (if r = true then [.clearStencil sampleRenderTarget] else []) ∧
      s1.log.count (.clearStencil sampleRenderTarget) =
        init.log.count (.clearStencil sampleRenderTarget) + (if r = true then 1 else 0) :=
  ⟨rfl, rfl, attachStencilBufferToRenderTarget_uncached sampleEnv sampleRenderTarget init rfl rfl⟩

theorem prepareVertexPool_ok (s : GrGpu)
    (hz : s.fVertexPool = false → s.fVertexPoolUseCnt = 0) :
    ∃ s0, prepareVertexPool s = .ok s0 ∧ s0.fVertexPool = true ∧
      s0.fIndexPool = s.fIndexPool ∧ s0.fGeoSrcStateStack = s.fGeoSrcStateStack ∧
      s0.fGeomPoolStateStack = s.fGeomPoolStateStack ∧
      s0.fVertexPoolUseCnt = s.fVertexPoolUseCnt ∧ s0.fIndexPoolUseCnt = s.fIndexPoolUseCnt := by
  unfold prepareVertexPool
  by_cases hp : s.fVertexPool = false
  · rw [if_pos hp, if_neg (by simp [hz hp])]
    exact ⟨_, rfl, rfl, rfl, rfl, rfl, rfl, rfl⟩
  · have hp1 : s.fVertexPool = true := by simpa using hp
    rw [if_neg hp]
    by_cases h0 : s.fVertexPoolUseCnt = 0
    · rw [if_pos h0]
      exact ⟨_, rfl, hp1, rfl, rfl, rfl, rfl, rfl⟩
    · rw [if_neg h0]
      exact ⟨_, rfl, hp1, rfl, rfl, rfl, rfl, rfl⟩

theorem prepareIndexPool_ok (s : GrGpu)
    (hz : s.fIndexPool = false → s.fIndexPoolUseCnt = 0) :
    ∃ s0, prepareIndexPool s = .ok s0 ∧ s0.fIndexPool = true ∧
      s0.fVertexPool = s.fVertexPool ∧ s0.fGeoSrcStateStack = s.fGeoSrcStateStack ∧
      s0.fGeomPoolStateStack = s.fGeomPoolStateStack ∧
      s0.fVertexPoolUseCnt = s.fVertexPoolUseCnt ∧ s0.fIndexPoolUseCnt = s.fIndexPoolUseCnt := by
  unfold prepareIndexPool
  by_cases hp : s.fIndexPool = false
  · rw [if_pos hp, if_neg (by simp [hz hp])]
    exact ⟨_, rfl, rfl, rfl, rfl, rfl, rfl, rfl⟩
  · have hp1 : s.fIndexPool = true := by simpa using hp
    rw [if_neg hp]
    by_cases h0 : s.fIndexPoolUseCnt = 0
    · rw [if_pos h0]
      exact ⟨_, rfl, hp1, rfl, rfl, rfl, rfl, rfl⟩
    · rw [if_neg h0]
      exact ⟨_, rfl, hp1, rfl, rfl, rfl, rfl, rfl⟩

theorem onReserveVertexSpace_step (env : Env) (vertexSize : Nat) (vertexCount : Int)
    (s : GrGpu) (hp : s.fGeomPoolStateStack ≠ []) (hc : vertexCount > 0)
    (hz : s.fVertexPool = false → s.fVertexPoolUseCnt = 0) :
    ∃ s0 s1, prepareVertexPool s = .ok s0 ∧
      onReserveVertexSpace env vertexSize vertexCount s =
        .ok (((env.vertexMakeSpace s0.log vertexSize vertexCount).ptr.isSome,
              (env.vertexMakeSpace s0.log vertexSize vertexCount).ptr), s1) ∧
      s1.fVertexPool = true ∧ s1.fIndexPool = s.fIndexPool ∧
      s1.fGeoSrcStateStack = s.fGeoSrcStateStack ∧ s1.fGeomPoolStateStack ≠ [] ∧
      s1.fIndexPoolUseCnt = s.fIndexPoolUseCnt ∧
      s1.fVertexPoolUseCnt = s.fVertexPoolUseCnt +
        (if (env.vertexMakeSpace s0.log vertexSize vertexCount).ptr.isSome = true
          then 1 else 0) := by
  obtain ⟨s0, h0, hpool, hip, hgeo, hps, hcv, hci⟩ := prepareVertexPool_ok s hz
  cases hst : s.fGeomPoolStateStack with
  | nil => exact absurd hst hp
  | cons top rest =>
    refine ⟨s0, ?_⟩
    unfold onReserveVertexSpace
    simp only [hst, back, h0, if_neg (not_not.mpr hc)]
    cases hr : (env.vertexMakeSpace s0.log vertexSize vertexCount).ptr with
    | none =>
      simp [emit, hpool, hip, hgeo, hps, hcv, hci, hst, setBack]
    | some q =>
      simp [emit, hpool, hip, hgeo, hps, hcv, hci, hst, setBack]

theorem onReserveIndexSpace_step (env : Env) (indexCount : Int)
    (s : GrGpu) (hp : s.fGeomPoolStateStack ≠ []) (hc : indexCount > 0)
    (hz : s.fIndexPool = false → s.fIndexPoolUseCnt = 0) :
    ∃ s0 s1, prepareIndexPool s = .ok s0 ∧
      onReserveIndexSpace env indexCount s =
        .ok (((env.indexMakeSpace s0.log indexCount).ptr.isSome,
              (env.indexMakeSpace s0.log indexCount).ptr), s1) ∧
      s1.fIndexPool = true ∧ s1.fVertexPool = s.fVertexPool ∧
      s1.fGeoSrcStateStack = s.fGeoSrcStateStack ∧ s1.fGeomPoolStateStack ≠ [] ∧
      s1.fVertexPoolUseCnt = s.fVertexPoolUseCnt ∧
      s1.fIndexPoolUseCnt = s.fIndexPoolUseCnt +
        (if (env.indexMakeSpace s0.log indexCount).ptr.isSome = true then 1 else 0) := by
  obtain ⟨s0, h0, hpool, hip, hgeo, hps, hcv, hci⟩ := prepareIndexPool_ok s hz
  cases hst : s.fGeomPoolStateStack with
  | nil => exact absurd hst hp
  | cons top rest =>
    refine ⟨s0, ?_⟩
    unfold onReserveIndexSpace
    simp only [hst, back, h0, if_neg (not_not.mpr hc)]
    cases hr : (env.indexMakeSpace s0.log indexCount).ptr with
    | none =>
      simp [emit, hpool, hip, hgeo, hps, hcv, hci, hst, setBack]
    | some q =>
      simp [emit, hpool, hip, hgeo, hps, hcv, hci, hst, setBack]

theorem releaseReservedVertexSpace_step (s : GrGpu) (g : GeometrySrcState)
    (hg : getGeomSrc s = .ok g) (hk : g.fVertexSrc = kReserved_GeometrySrcType)
    (hpool : s.fVertexPool = true) :
    ∃ s1, releaseReservedVertexSpace s = .ok s1 ∧
      s1.fVertexPool = true ∧ s1.fIndexPool = s.fIndexPool ∧
      s1.fGeoSrcStateStack = s.fGeoSrcStateStack ∧
      s1.fGeomPoolStateStack = s.fGeomPoolStateStack ∧
      s1.fIndexPoolUseCnt = s.fIndexPoolUseCnt ∧
      s1.fVertexPoolUseCnt = s.fVertexPoolUseCnt - 1 := by
  unfold releaseReservedVertexSpace
  rw [hg]
  simp [hk, hpool, emit]

theorem releaseReservedIndexSpace_step (s : GrGpu) (g : GeometrySrcState)
    (hg : getGeomSrc s = .ok g) (hk : g.fIndexSrc = kReserved_GeometrySrcType)
    (hpool : s.fIndexPool = true) :
    ∃ s1, releaseReservedIndexSpace s = .ok s1 ∧
      s1.fIndexPool = true ∧ s1.fVertexPool = s.fVertexPool ∧
      s1.fGeoSrcStateStack = s.fGeoSrcStateStack ∧
      s1.fGeomPoolStateStack = s.fGeomPoolStateStack ∧
      s1.fVertexPoolUseCnt = s.fVertexPoolUseCnt ∧
      s1.fIndexPoolUseCnt = s.fIndexPoolUseCnt - 1 := by
  unfold releaseReservedIndexSpace
  rw [hg]
  simp [hk, hpool, emit]

theorem getGeomSrc_congr (s s1 : GrGpu) (h : s1.fGeoSrcStateStack = s.fGeoSrcStateStack) :
    getGeomSrc s1 = getGeomSrc s := by
  unfold getGeomSrc
  rw [h]

theorem runPoolOps_useCnt (env : Env) (ops : List PoolOp) :
    ∀ (s : GrGpu) (g : GeometrySrcState), getGeomSrc s = .ok g →
      s.fGeomPoolStateStack ≠ [] →
      (s.fVertexPool = false → s.fVertexPoolUseCnt = 0) →
      (s.fIndexPool = false → s.fIndexPoolUseCnt = 0) →
      poolOpsOk g.fVertexSrc g.fIndexSrc s.fVertexPool s.fIndexPool ops →
      ∃ vs is s1, runPoolOps env ops s = .ok (vs, is, s1) ∧
        vs.length = ops.countP PoolOp.isReserveVertex ∧
        is.length = ops.countP PoolOp.isReserveIndex ∧
        s1.fVertexPoolUseCnt =
          s.fVertexPoolUseCnt + (vs.count true : Int) - ops.countP PoolOp.isReleaseVertex ∧
        s1.fIndexPoolUseCnt =
          s.fIndexPoolUseCnt + (is.count true : Int) - ops.countP PoolOp.isReleaseIndex := by
  induction ops with
  | nil =>
    intro s g _ _ _ _ _
    exact ⟨[], [], s, rfl, by simp, by simp, by simp, by simp⟩
  | cons op ops ih =>
    intro s g hg hp hzv hzi hok
    cases op with
    | reserveVertex vertexSize vertexCount =>
      obtain ⟨hc, hok1⟩ := hok
      obtain ⟨s0, s1, _, h1, hpv, hpi, hgeo, hps, hci, hcv⟩ :=
        onReserveVertexSpace_step env vertexSize vertexCount s hp hc hzv
      have hg1 : getGeomSrc s1 = .ok g := by rw [getGeomSrc_congr s s1 hgeo, hg]
      obtain ⟨vs, is, s2, h2, hlv, hli, hv2, hi2⟩ := ih s1 g hg1 hps
        (by simp [hpv]) (by rw [hpi, hci]; exact hzi) (by rw [hpv, hpi]; exact hok1)
      refine ⟨(env.vertexMakeSpace s0.log vertexSize vertexCount).ptr.isSome :: vs, is, s2,
        by simp [runPoolOps, h1, h2], ?_, ?_, ?_, ?_⟩
      · simp [hlv, PoolOp.isReserveVertex]
      · simp [hli, PoolOp.isReserveIndex]
      · rw [hv2, hcv]
        cases (env.vertexMakeSpace s0.log vertexSize vertexCount).ptr.isSome <;>
          simp [PoolOp.isReleaseVertex, List.count_cons]
        ring
      · rw [hi2, hci]
        simp [PoolOp.isReleaseIndex]
    | releaseVertex =>
      obtain ⟨hk, hpool, hok1⟩ := hok
      obtain ⟨s1, h1, hpv, hpi, hgeo, hps, hci, hcv⟩ :=
        releaseReservedVertexSpace_step s g hg hk hpool
      have hg1 : getGeomSrc s1 = .ok g := by rw [getGeomSrc_congr s s1 hgeo, hg]
      obtain ⟨vs, is, s2, h2, hlv, hli, hv2, hi2⟩ := ih s1 g hg1 (by rw [hps]; exact hp)
        (by simp [hpv]) (by rw [hpi, hci]; exact hzi) (by rw [hpv, hpi, ← hpool]; exact hok1)
      refine ⟨vs, is, s2, by simp [runPoolOps, h1, h2], ?_, ?_, ?_, ?_⟩
      · simp [hlv, PoolOp.isReserveVertex]
      · simp [hli, PoolOp.isReserveIndex]
      · rw [hv2, hcv]
        simp [PoolOp.isReleaseVertex]
        ring
      · rw [hi2, hci]
        simp [PoolOp.isReleaseIndex]
    | reserveIndex indexCount =>
      obtain ⟨hc, hok1⟩ := hok
      obtain ⟨s0, s1, _, h1, hpi, hpv, hgeo, hps, hcv, hci⟩ :=
        onReserveIndexSpace_step env indexCount s hp hc hzi
      have hg1 : getGeomSrc s1 = .ok g := by rw [getGeomSrc_congr s s1 hgeo, hg]
      obtain ⟨vs, is, s2, h2, hlv, hli, hv2, hi2⟩ := ih s1 g hg1 hps
        (by rw [hpv, hcv]; exact hzv) (by simp [hpi]) (by rw [hpv, hpi]; exact hok1)
      refine ⟨vs, (env.indexMakeSpace s0.log indexCount).ptr.isSome :: is, s2,
        by simp [runPoolOps, h1, h2], ?_, ?_, ?_, ?_⟩
      · simp [hlv, PoolOp.isReserveVertex]
      · simp [hli, PoolOp.isReserveIndex]
      · rw [hv2, hcv]
        simp [PoolOp.isReleaseVertex]
      · rw [hi2, hci]
        cases (env.indexMakeSpace s0.log indexCount).ptr.isSome <;>
          simp [PoolOp.isReleaseIndex, List.count_cons]
        ring
    | releaseIndex =>
      obtain ⟨hk, hpool, hok1⟩ := hok
      obtain ⟨s1, h1, hpi, hpv, hgeo, hps, hcv, hci⟩ :=
        releaseReservedIndexSpace_step s g hg hk hpool
      have hg1 : getGeomSrc s1 = .ok g := by rw [getGeomSrc_congr s s1 hgeo, hg]
      obtain ⟨vs, is, s2, h2, hlv, hli, hv2, hi2⟩ := ih s1 g hg1 (by rw [hps]; exact hp)
        (by rw [hpv, hcv]; exact hzv) (by simp [hpi]) (by rw [hpv, hpi, ← hpool]; exact hok1)
      refine ⟨vs, is, s2, by simp [runPoolOps, h1, h2], ?_, ?_, ?_, ?_⟩
      · simp [hlv, PoolOp.isReserveVertex]
      · simp [hli, PoolOp.isReserveIndex]
      · rw [hv2, hcv]
        simp [PoolOp.isReleaseVertex]
      · rw [hi2, hci]
        simp [PoolOp.isReleaseIndex]
        ring
    | callerWritesTop g1 =>
      have hg1 : getGeomSrc { s with fGeoSrcStateStack := setBack g1 s.fGeoSrcStateStack } =
          .ok g1 := by
        unfold getGeomSrc at hg ⊢
        cases hst : s.fGeoSrcStateStack with
        | nil => simp [hst, back] at hg
        | cons a rest => simp [setBack, back]
      obtain ⟨vs, is, s2, h2, hlv, hli, hv2, hi2⟩ := ih _ g1 hg1 hp hzv hzi hok
      refine ⟨vs, is, s2, by simp [runPoolOps, h2], ?_, ?_, ?_, ?_⟩
      · simp [hlv, PoolOp.isReserveVertex]
      · simp [hli, PoolOp.isReserveIndex]
      · rw [hv2]
        simp [PoolOp.isReleaseVertex]
      · rw [hi2]
        simp [PoolOp.isReleaseIndex]

/-- C9: from a valid state with top level `g`, a sequence of reservations and
releases whose asserted preconditions hold runs to completion, and each use
counter ends at its initial value plus the number of reservations that
succeeded minus the number of releases: a successful reservation adds exactly
1, a release subtracts exactly 1, a failed reservation adds nothing.  Hence
after `N` successful reservations and `N` releases the counter is back at its
value before the first reservation. -/
theorem reserve_release_useCnt (env : Env) (s : GrGpu) (g : GeometrySrcState)
    (ops : List PoolOp) (hv : Valid s) (hg : getGeomSrc s = .ok g)
    (hok : poolOpsOk g.fVertexSrc g.fIndexSrc s.fVertexPool s.fIndexPool ops) :
    ∃ vs is s1, runPoolOps env ops s = .ok (vs, is, s1) ∧
      vs.length = ops.countP PoolOp.isReserveVertex ∧
      is.length = ops.countP PoolOp.isReserveIndex ∧
      s1.fVertexPoolUseCnt =
        s.fVertexPoolUseCnt + (vs.count true : Int) - ops.countP PoolOp.isReleaseVertex ∧
      s1.fIndexPoolUseCnt =
        s.fIndexPoolUseCnt + (is.count true : Int) - ops.countP PoolOp.isReleaseIndex ∧
      ((∀ r ∈ vs, r = true) →
        ops.countP PoolOp.isReserveVertex = ops.countP PoolOp.isReleaseVertex →
        s1.fVertexPoolUseCnt = s.fVertexPoolUseCnt) ∧
      ((∀ r ∈ is, r = true) →
        ops.countP PoolOp.isReserveIndex = ops.countP PoolOp.isReleaseIndex →
        s1.fIndexPoolUseCnt = s.fIndexPoolUseCnt) := by
  obtain ⟨_, hlen, _, _, hzv, hzi⟩ := hv
  have hp : s.fGeomPoolStateStack ≠ [] := by
    intro h
    unfold getGeomSrc at hg
    cases hst : s.fGeoSrcStateStack with
    | nil => simp [hst, back] at hg
    | cons a rest => simp [h, hst] at hlen
  obtain ⟨vs, is, s1, h1, hlv, hli, hcv, hci⟩ := runPoolOps_useCnt env ops s g hg hp hzv hzi hok
  refine ⟨vs, is, s1, h1, hlv, hli, hcv, hci, ?_, ?_⟩
  · intro hall hn
    have hc : vs.count true = vs.length := List.count_eq_length.2 (fun b hb => (hall b hb).symm)
    rw [hcv, hc, hlv, hn]
    ring
  · intro hall hn
    have hc : is.count true = is.length := List.count_eq_length.2 (fun b hb => (hall b hb).symm)
    rw [hci, hc, hli, hn]
    ring

theorem reserve_release_useCnt_witness :
    Valid init ∧ getGeomSrc init = .ok constructedSrcState ∧
    poolOpsOk constructedSrcState.fVertexSrc constructedSrcState.fIndexSrc
      init.fVertexPool init.fIndexPool
      [.reserveVertex 20 100, .callerWritesTop reservedTop, .releaseVertex] ∧
    ∃ vs is s1,
      runPoolOps sampleEnv [.reserveVertex 20 100, .callerWritesTop reservedTop, .releaseVertex]
        init = .ok (vs, is, s1) ∧
      vs = [true] ∧ s1.fVertexPoolUseCnt = init.fVertexPoolUseCnt := by
  refine ⟨by decide, rfl, by decide, ?_⟩
  obtain ⟨vs, is, s1, h1, _, _, _, _, hback, _⟩ :=
    reserve_release_useCnt sampleEnv init constructedSrcState
      [.reserveVertex 20 100, .callerWritesTop reservedTop, .releaseVertex]
      (by decide) rfl (by decide)
  have hvs : vs = [true] := by
    have h2 : runPoolOps sampleEnv
        [.reserveVertex 20 100, .callerWritesTop reservedTop, .releaseVertex] init =
        .ok ([true], [], _) := rfl
    rw [h2] at h1
    cases h1
    rfl
  exact ⟨vs, is, s1, h1, hvs, hback (by simp [hvs]) (by decide)⟩

/-- C10: from a valid state and for every element size and count > 0, the pool is
prepared and asked for space; when `makeSpace` returns `NULL`,
`onReserveVertexSpace` returns `false` with the output pointer `NULL` and the
vertex use counter unchanged; when `makeSpace` returns a pointer, it returns
`true` with that pointer (and the counter is one higher).  The same holds for
`onReserveIndexSpace` and the index use counter. -/
theorem onReserveSpace_makeSpace_result (env : Env) (s : GrGpu) (hv : Valid s) :
    (∀ (vertexSize : Nat) (vertexCount : Int), vertexCount > 0 →
      ∃ s0, prepareVertexPool s = .ok s0 ∧
        ((env.vertexMakeSpace s0.log vertexSize vertexCount).ptr = none →
          ∃ s1, onReserveVertexSpace env vertexSize vertexCount s = .ok ((false, none), s1) ∧
            s1.fVertexPoolUseCnt = s.fVertexPoolUseCnt) ∧
        (∀ p, (env.vertexMakeSpace s0.log vertexSize vertexCount).ptr = some p →
          ∃ s1, onReserveVertexSpace env vertexSize vertexCount s = .ok ((true, some p), s1) ∧
            s1.fVertexPoolUseCnt = s.fVertexPoolUseCnt + 1)) ∧
    (∀ (indexCount : Int), indexCount > 0 →
      ∃ s0, prepareIndexPool s = .ok s0 ∧
        ((env.indexMakeSpace s0.log indexCount).ptr = none →
          ∃ s1, onReserveIndexSpace env indexCount s = .ok ((false, none), s1) ∧
            s1.fIndexPoolUseCnt = s.fIndexPoolUseCnt) ∧
        (∀ p, (env.indexMakeSpace s0.log indexCount).ptr = some p →
          ∃ s1, onReserveIndexSpace env indexCount s = .ok ((true, some p), s1) ∧
            s1.fIndexPoolUseCnt = s.fIndexPoolUseCnt + 1)) := by
  obtain ⟨hne, hlen, _, _, hzv, hzi⟩ := hv
  have hp : s.fGeomPoolStateStack ≠ [] := by
    intro h
    rw [h] at hlen
    exact hne (List.length_eq_zero.1 hlen.symm)
  refine ⟨?_, ?_⟩
  · intro vertexSize vertexCount hc
    obtain ⟨s0, s1, h0, h1, _, _, _, _, _, hcv⟩ :=
      onReserveVertexSpace_step env vertexSize vertexCount s hp hc hzv
    refine ⟨s0, h0, ?_, ?_⟩
    · intro hnone
      rw [hnone] at h1 hcv
      exact ⟨s1, h1, by simpa using hcv⟩
    · intro p hsome
      rw [hsome] at h1 hcv
      exact ⟨s1, h1, by simpa using hcv⟩
  · intro indexCount hc
    obtain ⟨s0, s1, h0, h1, _, _, _, _, _, hci⟩ :=
      onReserveIndexSpace_step env indexCount s hp hc hzi
    refine ⟨s0, h0, ?_, ?_⟩
    · intro hnone
      rw [hnone] at h1 hci
      exact ⟨s1, h1, by simpa using hci⟩
    · intro p hsome
      rw [hsome] at h1 hci
      exact ⟨s1, h1, by simpa using hci⟩

theorem onReserveSpace_makeSpace_result_witness :
    Valid init ∧
    (∃ s1, onReserveVertexSpace fullPoolEnv 20 100 init = .ok ((false, none), s1) ∧
      s1.fVertexPoolUseCnt = init.fVertexPoolUseCnt) ∧
    (∃ s1, onReserveIndexSpace sampleEnv 6 init = .ok ((true, some 8192), s1) ∧
      s1.fIndexPoolUseCnt = init.fIndexPoolUseCnt + 1) := by
  have hf := onReserveSpace_makeSpace_result fullPoolEnv init (by decide)
  have hs := onReserveSpace_makeSpace_result sampleEnv init (by decide)
  refine ⟨by decide, ?_, ?_⟩
  · obtain ⟨s0, _, hnone, _⟩ := hf.1 20 100 (by decide)
    exact hnone rfl
  · obtain ⟨s0, _, _, hsome⟩ := hs.2 6 (by decide)
    exact hsome 8192 rfl

theorem prepareVertexPoolTraced_forget (s : GrGpu) :
    forgetAbortState (prepareVertexPoolTraced s) = prepareVertexPool s := by
  unfold prepareVertexPoolTraced prepareVertexPool
  split_ifs <;> rfl

theorem prepareIndexPoolTraced_forget (s : GrGpu) :
    forgetAbortState (prepareIndexPoolTraced s) = prepareIndexPool s := by
  unfold prepareIndexPoolTraced prepareIndexPool
  split_ifs <;> rfl

/-- Without the state in the abort, the traced reservation of vertex space is
`onReserveVertexSpace`. -/
theorem onReserveVertexSpaceTraced_forget (env : Env) (vertexSize : Nat) (vertexCount : Int)
    (s : GrGpu) :
    forgetAbortState (onReserveVertexSpaceTraced env vertexSize vertexCount s) =
      onReserveVertexSpace env vertexSize vertexCount s := by
  have hp := prepareVertexPoolTraced_forget s
  unfold onReserveVertexSpaceTraced onReserveVertexSpace
  cases s.fGeomPoolStateStack with
  | nil => rfl
  | cons q qs =>
    simp only [back]
    by_cases hc : vertexCount > 0
    · simp only [hc, not_true_eq_false, if_false]
      cases ht : prepareVertexPoolTraced s with
      | error e =>
        rw [ht] at hp
        rw [← hp]
        rfl
      | ok s1 =>
        rw [ht] at hp
        rw [← hp]
        simp only [forgetAbortState]
        cases env.vertexMakeSpace s1.log vertexSize vertexCount with
        | mk ptr buffer start =>
          cases ptr <;> rfl
    · simp only [hc, not_false_eq_true, if_true]
      rfl

/-- Without the state in the abort, the traced reservation of index space is
`onReserveIndexSpace`. -/
theorem onReserveIndexSpaceTraced_forget (env : Env) (indexCount : Int) (s : GrGpu) :
    forgetAbortState (onReserveIndexSpaceTraced env indexCount s) =
      onReserveIndexSpace env indexCount s := by
  have hp := prepareIndexPoolTraced_forget s
  unfold onReserveIndexSpaceTraced onReserveIndexSpace
  cases s.fGeomPoolStateStack with
  | nil => rfl
  | cons q qs =>
    simp only [back]
    by_cases hc : indexCount > 0
    · simp only [hc, not_true_eq_false, if_false]
      cases ht : prepareIndexPoolTraced s with
      | error e =>
        rw [ht] at hp
        rw [← hp]
        rfl
      | ok s1 =>
        rw [ht] at hp
        rw [← hp]
        simp only [forgetAbortState]
        cases env.indexMakeSpace s1.log indexCount with
        | mk ptr buffer start =>
          cases ptr <;> rfl
    · simp only [hc, not_false_eq_true, if_true]
      rfl

/-- C11: for every element size, every count `≤ 0` and every state,
`onReserveVertexSpace` aborts on an assertion, and the state of the object at the
abort is the state the call started in: the abort comes before the pool is
prepared or asked for space, so the pool, the use counter and the log of calls
on the pool are unchanged.  Likewise `onReserveIndexSpace` for every count `≤ 0`. -/
theorem onReserveSpace_nonpositive_count (env : Env) (s : GrGpu) (count : Int)
    (hc : count ≤ 0) :
    (∀ vertexSize : Nat,
      onReserveVertexSpace env vertexSize count s = .error .assertFailed ∧
      onReserveVertexSpaceTraced env vertexSize count s = .error (.assertFailed, s)) ∧
    onReserveIndexSpace env count s = .error .assertFailed ∧
    onReserveIndexSpaceTraced env count s = .error (.assertFailed, s) := by
  have hn : ¬ count > 0 := not_lt.mpr hc
  refine ⟨?_, ?_, ?_⟩
  · intro vertexSize
    unfold onReserveVertexSpace onReserveVertexSpaceTraced
    cases s.fGeomPoolStateStack with
    | nil => exact ⟨rfl, rfl⟩
    | cons a rest => simp only [back, if_pos hn, and_self]
  · unfold onReserveIndexSpace
    cases s.fGeomPoolStateStack with
    | nil => rfl
    | cons a rest => simp only [back, if_pos hn]
  · unfold onReserveIndexSpaceTraced
    cases s.fGeomPoolStateStack with
    | nil => rfl
    | cons a rest => simp only [back, if_pos hn]

theorem onReserveSpace_nonpositive_count_witness :
    (0 : Int) ≤ 0 ∧
    (∀ vertexSize : Nat,
      onReserveVertexSpace sampleEnv vertexSize 0 poolInUse = .error .assertFailed ∧
      onReserveVertexSpaceTraced sampleEnv vertexSize 0 poolInUse =
        .error (.assertFailed, poolInUse)) ∧
    onReserveIndexSpace sampleEnv 0 poolInUse = .error .assertFailed ∧
    onReserveIndexSpaceTraced sampleEnv 0 poolInUse = .error (.assertFailed, poolInUse) :=
  ⟨le_refl 0, onReserveSpace_nonpositive_count sampleEnv poolInUse 0 (le_refl 0)⟩

/-- C20: `prepareVertexPool` creates the pool, with buffer size `2^18` and 4
buffers, and does not reset it when no pool exists (and nothing is outstanding);
resets the pool when it exists and the use counter is zero; leaves everything
untouched when the pool exists and the counter is not zero.  So whenever it
returns, the pool was reset exactly when it existed and the counter was zero: it
is never reset while a reservation is outstanding.  The same holds for
`prepareIndexPool`, with buffer size `2^16` and 4 buffers. -/
theorem preparePool_reset_policy (s : GrGpu) :
    (VERTEX_POOL_VB_SIZE = 2 ^ 18 ∧ VERTEX_POOL_VB_COUNT = 4 ∧
      INDEX_POOL_IB_SIZE = 2 ^ 16 ∧ INDEX_POOL_IB_COUNT = 4) ∧
    ((s.fVertexPool = false → s.fVertexPoolUseCnt = 0 →
        ∃ s1, prepareVertexPool s = .ok s1 ∧ s1.fVertexPool = true ∧
          s1.log = s.log ++ [.vertexPoolCreate true VERTEX_POOL_VB_SIZE VERTEX_POOL_VB_COUNT,
            .vertexPoolReleaseGpuRef]) ∧
      (s.fVertexPool = true → s.fVertexPoolUseCnt = 0 →
        ∃ s1, prepareVertexPool s = .ok s1 ∧ s1.log = s.log ++ [.vertexPoolReset]) ∧
      (s.fVertexPool = true → s.fVertexPoolUseCnt ≠ 0 → prepareVertexPool s = .ok s) ∧
      (∀ s1, prepareVertexPool s = .ok s1 →
        ∃ added, s1.log = s.log ++ added ∧
          (Event.vertexPoolReset ∈ added ↔
            (s.fVertexPool = true ∧ s.fVertexPoolUseCnt = 0)))) ∧
    ((s.fIndexPool = false → s.fIndexPoolUseCnt = 0 →
        ∃ s1, prepareIndexPool s = .ok s1 ∧ s1.fIndexPool = true ∧
          s1.log = s.log ++ [.indexPoolCreate true INDEX_POOL_IB_SIZE INDEX_POOL_IB_COUNT,
            .indexPoolReleaseGpuRef]) ∧
      (s.fIndexPool = true → s.fIndexPoolUseCnt = 0 →
        ∃ s1, prepareIndexPool s = .ok s1 ∧ s1.log = s.log ++ [.indexPoolReset]) ∧
      (s.fIndexPool = true → s.fIndexPoolUseCnt ≠ 0 → prepareIndexPool s = .ok s) ∧
      (∀ s1, prepareIndexPool s = .ok s1 →
        ∃ added, s1.log = s.log ++ added ∧
          (Event.indexPoolReset ∈ added ↔
            (s.fIndexPool = true ∧ s.fIndexPoolUseCnt = 0)))) := by
  refine ⟨⟨rfl, rfl, rfl, rfl⟩, ⟨?_, ?_, ?_, ?_⟩, ⟨?_, ?_, ?_, ?_⟩⟩
  · intro hp hc
    refine ⟨emit .vertexPoolReleaseGpuRef (emit (.vertexPoolCreate true VERTEX_POOL_VB_SIZE VERTEX_POOL_VB_COUNT)
      { s with fVertexPool := true }), ?_, rfl, by simp [emit]⟩
    unfold prepareVertexPool
    rw [if_pos hp, if_neg (not_not.mpr hc)]
  · intro hp hc
    refine ⟨emit .vertexPoolReset s, ?_, rfl⟩
    unfold prepareVertexPool
    rw [if_neg (by simp [hp]), if_pos hc]
  · intro hp hc
    simp [prepareVertexPool, hp, hc]
  · intro s1 h
    unfold prepareVertexPool at h
    split_ifs at h with h1 h2 h3
    · cases h
      exact ⟨[.vertexPoolCreate true VERTEX_POOL_VB_SIZE VERTEX_POOL_VB_COUNT,
        .vertexPoolReleaseGpuRef], by simp [emit], by simp [h1]⟩
    · cases h
      exact ⟨[.vertexPoolReset], rfl, by simpa [h3] using h1⟩
    · cases h
      exact ⟨[], by simp, by simp [h3]⟩
  · intro hp hc
    refine ⟨emit .indexPoolReleaseGpuRef (emit (.indexPoolCreate true INDEX_POOL_IB_SIZE INDEX_POOL_IB_COUNT)
      { s with fIndexPool := true }), ?_, rfl, by simp [emit]⟩
    unfold prepareIndexPool
    rw [if_pos hp, if_neg (not_not.mpr hc)]
  · intro hp hc
    refine ⟨emit .indexPoolReset s, ?_, rfl⟩
    unfold prepareIndexPool
    rw [if_neg (by simp [hp]), if_pos hc]
  · intro hp hc
    simp [prepareIndexPool, hp, hc]
  · intro s1 h
    unfold prepareIndexPool at h
    split_ifs at h with h1 h2 h3
    · cases h
      exact ⟨[.indexPoolCreate true INDEX_POOL_IB_SIZE INDEX_POOL_IB_COUNT,
        .indexPoolReleaseGpuRef], by simp [emit], by simp [h1]⟩
    · cases h
      exact ⟨[.indexPoolReset], rfl, by simpa [h3] using h1⟩
    · cases h
      exact ⟨[], by simp, by simp [h3]⟩

theorem preparePool_reset_policy_witness :
    (init.fVertexPool = false ∧ init.fVertexPoolUseCnt = 0 ∧
      ∃ s1, prepareVertexPool init = .ok s1 ∧ s1.fVertexPool = true ∧
        s1.log = init.log ++ [.vertexPoolCreate true VERTEX_POOL_VB_SIZE VERTEX_POOL_VB_COUNT,
          .vertexPoolReleaseGpuRef]) ∧
    (poolInUse.fVertexPool = true ∧ poolInUse.fVertexPoolUseCnt ≠ 0 ∧
      prepareVertexPool poolInUse = .ok poolInUse) :=
  ⟨⟨rfl, rfl, (preparePool_reset_policy init).2.1.1 rfl rfl⟩,
    ⟨rfl, by decide, (preparePool_reset_policy poolInUse).2.1.2.2.1 rfl (by decide)⟩⟩

theorem popGeometrySource_full (s : GrGpu) (hv : Valid s) (g g2 : GeometrySrcState)
    (rest : List GeometrySrcState) (hst : s.fGeoSrcStateStack = g :: g2 :: rest) :
    ∃ s1, popGeometrySource s = .ok s1 ∧ Valid s1 ∧ s1.fGeoSrcStateStack = g2 :: rest ∧
      ∀ p, s1.refCnt p = s.refCnt p - heldBy g p := by
  obtain ⟨_, hlen, hvp, hip, hvc, hic⟩ := hv
  cases hpl : s.fGeomPoolStateStack with
  | nil => simp [hpl, hst] at hlen
  | cons q ptl =>
    have hgv : g.fVertexSrc = kReserved_GeometrySrcType → s.fVertexPool = true :=
      hvp g (by simp [hst])
    have hgi : g.fIndexSrc = kReserved_GeometrySrcType → s.fIndexPool = true :=
      hip g (by simp [hst])
    simp only [hst, hpl] at hvp hip hlen
    have hvr : ∀ a ∈ g2 :: rest,
        a.fVertexSrc = kReserved_GeometrySrcType → s.fVertexPool = true :=
      fun a ha => hvp a (List.mem_cons_of_mem _ ha)
    have hir : ∀ a ∈ g2 :: rest,
        a.fIndexSrc = kReserved_GeometrySrcType → s.fIndexPool = true :=
      fun a ha => hip a (List.mem_cons_of_mem _ ha)
    have hpt : ptl.length = rest.length + 1 := by simpa using hlen
    cases h1 : g.fVertexSrc <;> cases h2 : g.fIndexSrc <;>
    simp [popGeometrySource, geometrySourceWillPop, fromBack, pop_back, back, setBack,
      releasePreviousVertexSource, releasePreviousIndexSource, releaseReservedVertexSpace,
      releaseReservedIndexSpace, getGeomSrc, emit, unref, Valid, hst, hpl, h1, h2, hpt,
      hgv, hgi, heldBy]
    all_goals
      obtain ⟨hv1, hv2⟩ := List.forall_mem_cons.1 hvr
      obtain ⟨hi1, hi2⟩ := List.forall_mem_cons.1 hir
      repeat' apply And.intro
    all_goals first
      | exact hvc
      | exact hic
      | exact hv1
      | exact hv2
      | exact hi1
      | exact hi2
      | (intro p
         by_cases hp : g.fVertexBuffer = p <;> by_cases hq : g.fIndexBuffer = p <;>
           simp [Function.update_apply, hp, hq] <;> omega)

theorem resetVertexSource_full (s : GrGpu) (hv : Valid s) (g : GeometrySrcState)
    (rest : List GeometrySrcState) (hst : s.fGeoSrcStateStack = g :: rest) :
    ∃ s1 g1, resetVertexSource s = .ok s1 ∧ Valid s1 ∧ s1.fGeoSrcStateStack = g1 :: rest ∧
      g1.fVertexSrc = kNone_GeometrySrcType ∧ g1.fIndexSrc = g.fIndexSrc ∧
      g1.fIndexBuffer = g.fIndexBuffer ∧
      ∀ p, s1.refCnt p = s.refCnt p -
        (if g.fVertexSrc = kBuffer_GeometrySrcType ∧ g.fVertexBuffer = p then 1 else 0) := by
  obtain ⟨_, hlen, hvp, hip, hvc, hic⟩ := hv
  have hgv : g.fVertexSrc = kReserved_GeometrySrcType → s.fVertexPool = true :=
    hvp g (by simp [hst])
  simp only [hst] at hvp hip hlen
  obtain ⟨_, hv2⟩ := List.forall_mem_cons.1 hvp
  obtain ⟨hi1, hi2⟩ := List.forall_mem_cons.1 hip
  have hl : s.fGeomPoolStateStack.length = rest.length + 1 := by simpa using hlen
  cases h1 : g.fVertexSrc <;>
  simp [resetVertexSource, releasePreviousVertexSource, releaseReservedVertexSpace,
    getGeomSrc, back, setBack, emit, unref, Valid, hst, h1, hgv, hl]
  all_goals repeat' apply And.intro
  all_goals first
    | exact hvc
    | exact hic
    | exact hv2
    | exact hi1
    | exact hi2
    | (intro p
       by_cases hp : g.fVertexBuffer = p
       · simp [Function.update_apply, hp]
       · simp [Function.update_apply, hp]
         intro hq
         exact absurd hq.symm hp)

theorem resetIndexSource_full (s : GrGpu) (hv : Valid s) (g : GeometrySrcState)
    (rest : List GeometrySrcState) (hst : s.fGeoSrcStateStack = g :: rest) :
    ∃ s1 g1, resetIndexSource s = .ok s1 ∧ Valid s1 ∧ s1.fGeoSrcStateStack = g1 :: rest ∧
      g1.fIndexSrc = kNone_GeometrySrcType ∧ g1.fVertexSrc = g.fVertexSrc ∧
      g1.fVertexBuffer = g.fVertexBuffer ∧
      ∀ p, s1.refCnt p = s.refCnt p -
        (if g.fIndexSrc = kBuffer_GeometrySrcType ∧ g.fIndexBuffer = p then 1 else 0) := by
  obtain ⟨_, hlen, hvp, hip, hvc, hic⟩ := hv
  have hgi : g.fIndexSrc = kReserved_GeometrySrcType → s.fIndexPool = true :=
    hip g (by simp [hst])
  simp only [hst] at hvp hip hlen
  obtain ⟨hv1, hv2⟩ := List.forall_mem_cons.1 hvp
  obtain ⟨_, hi2⟩ := List.forall_mem_cons.1 hip
  have hl : s.fGeomPoolStateStack.length = rest.length + 1 := by simpa using hlen
  cases h1 : g.fIndexSrc <;>
  simp [resetIndexSource, releasePreviousIndexSource, releaseReservedIndexSpace,
    getGeomSrc, back, setBack, emit, unref, Valid, hst, h1, hgi, hl]
  all_goals repeat' apply And.intro
  all_goals first
    | exact hvc
    | exact hic
    | exact hv1
    | exact hv2
    | exact hi2
    | (intro p
       by_cases hp : g.fIndexBuffer = p
       · simp [Function.update_apply, hp]
       · simp [Function.update_apply, hp]
         intro hq
         exact absurd hq.symm hp)

theorem releaseGeometryLoop_full (upper : List GeometrySrcState) :
    ∀ (s : GrGpu) (base : GeometrySrcState), Valid s →
      s.fGeoSrcStateStack = upper ++ [base] →
      ∃ s1, releaseGeometryLoop upper.length s = .ok s1 ∧ Valid s1 ∧
        s1.fGeoSrcStateStack = [base] ∧
        ∀ p, s1.refCnt p = s.refCnt p - heldByStack upper p := by
  induction upper with
  | nil =>
    intro s base hv hst
    exact ⟨s, rfl, hv, by simpa using hst, by simp [heldByStack]⟩
  | cons g up ih =>
    intro s base hv hst
    obtain ⟨g2, rest, hgr⟩ : ∃ g2 rest, up ++ [base] = g2 :: rest := by
      cases up with
      | nil => exact ⟨base, [], rfl⟩
      | cons a up1 => exact ⟨a, up1 ++ [base], rfl⟩
    have hst2 : s.fGeoSrcStateStack = g :: g2 :: rest := by
      rw [hst, List.cons_append, hgr]
    obtain ⟨s1, h1, hv1, hg1, hr1⟩ := popGeometrySource_full s hv g g2 rest hst2
    obtain ⟨s2, h2, hv2, hg2, hr2⟩ := ih s1 base hv1 (by rw [hg1, hgr])
    refine ⟨s2, ?_, hv2, hg2, ?_⟩
    · simp [releaseGeometryLoop, h1, h2]
    · intro p
      rw [hr2 p, hr1 p]
      simp [heldByStack]
      ring

/-- C12: from every valid state, whatever the depth and the source kinds of
its levels, `releaseGeometry` returns; afterwards the geometry-source stack has
exactly one level, the pool-state stack has depth 1, the vertex and index source
kinds of that level are both `None`, and every reference count is lower by the
number of references the levels held on that object (one per vertex or index
source of kind `Buffer`): each held reference is released exactly once. -/
theorem releaseGeometry_teardown (s : GrGpu) (hv : Valid s) :
    ∃ s1 base, releaseGeometry s = .ok s1 ∧
      s1.fGeoSrcStateStack = [base] ∧ s1.fGeomPoolStateStack.length = 1 ∧
      base.fVertexSrc = kNone_GeometrySrcType ∧ base.fIndexSrc = kNone_GeometrySrcType ∧
      ∀ p, s1.refCnt p = s.refCnt p - heldByStack s.fGeoSrcStateStack p := by
  have hne := hv.1
  cases hst : s.fGeoSrcStateStack with
  | nil => exact absurd hst hne
  | cons g rest =>
    have hdec : (g :: rest).dropLast ++ [(g :: rest).getLast (by simp)] = g :: rest :=
      List.dropLast_append_getLast _
    have hlen : (g :: rest).dropLast.length = rest.length := by simp
    obtain ⟨s1, h1, hv1, hg1, hr1⟩ := releaseGeometryLoop_full (g :: rest).dropLast s
      ((g :: rest).getLast (by simp)) hv (by rw [hdec, hst])
    rw [hlen] at h1
    obtain ⟨s2, b2, h2, hv2, hg2, hk2, hi2, hb2, hr2⟩ :=
      resetVertexSource_full s1 hv1 _ [] hg1
    obtain ⟨s3, b3, h3, hv3, hg3, hk3, hvk3, _, hr3⟩ :=
      resetIndexSource_full s2 hv2 b2 [] hg2
    refine ⟨s3, b3, ?_, hg3, ?_, ?_, hk3, ?_⟩
    · simp [releaseGeometry, hst, h1, h2, h3]
    · have := hv3.2.1
      rw [hg3] at this
      simpa using this
    · rw [hvk3, hk2]
    · intro p
      rw [hr3 p, hr2 p, hr1 p, hi2, hb2]
      have hsum : heldByStack (g :: rest) p =
          heldByStack (g :: rest).dropLast p + heldBy ((g :: rest).getLast (by simp)) p := by
        conv_lhs => rw [← hdec]
        simp [heldByStack]
      rw [hsum]
      simp only [heldBy]
      ring


theorem releaseGeometry_teardown_witness :
    Valid twoLevelsHolding ∧
    ∃ s1 base, releaseGeometry twoLevelsHolding = .ok s1 ∧
      s1.fGeoSrcStateStack = [base] ∧ s1.fGeomPoolStateStack.length = 1 ∧
      base.fVertexSrc = kNone_GeometrySrcType ∧ base.fIndexSrc = kNone_GeometrySrcType ∧
      s1.refCnt 1 = 0 ∧ s1.refCnt 2 = 0 := by
  refine ⟨by decide, ?_⟩
  obtain ⟨s1, base, h1, h2, h3, h4, h5, h6⟩ :=
    releaseGeometry_teardown twoLevelsHolding (by decide)
  refine ⟨s1, base, h1, h2, h3, h4, h5, ?_, ?_⟩
  · rw [h6 1]; decide
  · rw [h6 2]; decide

/-- C13: `onDraw` calls `handleDirtyContext`, then `flushGraphicsState`, and then
`onGpuDraw` exactly when the flush succeeded: the draw is among the calls added
if and only if the flush returned `true`; when it failed nothing follows the
flush and the call returns normally.  The same holds for `onStencilPath`,
`onDrawPath` and `onDrawPaths` with `stencilPath`, `drawPath`, and
`willDrawPaths` followed by `drawPaths`. -/
theorem draw_submitted_iff_flushed (env : Env) (s : GrGpu) :
    (∀ (info : DrawInfo) (scissorState : Nat),
      (onDraw env info scissorState s).log =
        s.log ++ [.handleDirtyContext,
          .flushGraphicsState (env.PrimTypeToDrawType info.primitiveType) scissorState
            info.dstCopy] ++
          (if env.flushGraphicsState (s.log ++ [.handleDirtyContext])
              (env.PrimTypeToDrawType info.primitiveType) scissorState info.dstCopy = true
            then [.onGpuDraw info] else []) ∧
      (Event.onGpuDraw info ∈ (onDraw env info scissorState s).log.drop s.log.length ↔
        env.flushGraphicsState (s.log ++ [.handleDirtyContext])
          (env.PrimTypeToDrawType info.primitiveType) scissorState info.dstCopy = true)) ∧
    (∀ (path scissorState stencilSettings : Nat),
      (onStencilPath env path scissorState stencilSettings s).log =
        s.log ++ [.handleDirtyContext,
          .flushGraphicsState .kStencilPath_DrawType scissorState none] ++
          (if env.flushGraphicsState (s.log ++ [.handleDirtyContext])
              .kStencilPath_DrawType scissorState none = true
            then [.stencilPath path stencilSettings] else [])) ∧
    (∀ (path scissorState stencilSettings : Nat) (dstCopy : Option Nat),
      (onDrawPath env path scissorState stencilSettings dstCopy s).log =
        s.log ++ [.handleDirtyContext,
          .flushGraphicsState .kDrawPath_DrawType scissorState dstCopy] ++
          (if env.flushGraphicsState (s.log ++ [.handleDirtyContext])
              .kDrawPath_DrawType scissorState dstCopy = true
            then [.drawPath path stencilSettings] else [])) ∧
    (∀ (pathRange indices : Nat) (count : Int)
        (transforms transformsType scissorState stencilSettings : Nat) (dstCopy : Option Nat),
      (onDrawPaths env pathRange indices count transforms transformsType scissorState
          stencilSettings dstCopy s).log =
        s.log ++ [.handleDirtyContext,
          .flushGraphicsState .kDrawPaths_DrawType scissorState dstCopy] ++
          (if env.flushGraphicsState (s.log ++ [.handleDirtyContext])
              .kDrawPaths_DrawType scissorState dstCopy = true
            then [.willDrawPaths pathRange indices count,
              .drawPaths pathRange indices count transforms transformsType stencilSettings]
            else [])) := by
  refine ⟨?_, ?_, ?_, ?_⟩
  · intro info scissorState
    cases hf : env.flushGraphicsState (s.log ++ [.handleDirtyContext])
        (env.PrimTypeToDrawType info.primitiveType) scissorState info.dstCopy <;>
      simp [onDraw, handleDirtyContext, emit, hf]
  · intro path scissorState stencilSettings
    cases hf : env.flushGraphicsState (s.log ++ [.handleDirtyContext])
        .kStencilPath_DrawType scissorState none <;>
      simp [onStencilPath, handleDirtyContext, emit, hf]
  · intro path scissorState stencilSettings dstCopy
    cases hf : env.flushGraphicsState (s.log ++ [.handleDirtyContext])
        .kDrawPath_DrawType scissorState dstCopy <;>
      simp [onDrawPath, handleDirtyContext, emit, hf]
  · intro pathRange indices count transforms transformsType scissorState stencilSettings dstCopy
    cases hf : env.flushGraphicsState (s.log ++ [.handleDirtyContext])
        .kDrawPaths_DrawType scissorState dstCopy <;>
      simp [onDrawPaths, handleDirtyContext, emit, hf]

theorem draw_submitted_iff_flushed_witness :
    (onDraw sampleEnv sampleDraw 0 init).log =
      [.handleDirtyContext, .flushGraphicsState .kDrawTriangles_DrawType 0 none,
        .onGpuDraw sampleDraw] ∧
    (onDraw flushFailsEnv sampleDraw 0 init).log =
      [.handleDirtyContext, .flushGraphicsState .kDrawTriangles_DrawType 0 none] :=
  ⟨((draw_submitted_iff_flushed sampleEnv init).1 sampleDraw 0).1,
    ((draw_submitted_iff_flushed flushFailsEnv init).1 sampleDraw 0).1⟩

theorem attachStencilBufferToRenderTarget_log (env : Env) (rt : GrRenderTarget)
    (s s1 : GrGpu) (r : Bool)
    (h : attachStencilBufferToRenderTarget env rt s = .ok (r, s1)) :
    ∃ added, s1.log = s.log ++ added ∧ added ≠ [] ∧ Event.handleDirtyContext ∉ added := by
  unfold attachStencilBufferToRenderTarget at h
  split_ifs at h with h0
  split at h
  · rename_i sb hfind
    dsimp only at h
    split_ifs at h <;> cases h <;>
      exact ⟨[.backendAttachStencilBuffer sb rt], rfl, by simp, by simp⟩
  · dsimp only at h
    split_ifs at h <;> cases h
    · exact ⟨[.createStencilBufferForRenderTarget rt rt.width rt.height, .clearStencil rt],
        by simp [emit], by simp, by simp⟩
    · exact ⟨[.createStencilBufferForRenderTarget rt rt.width rt.height],
        rfl, by simp, by simp⟩

theorem dirtyContextFirst_cons (before rest : List Event) :
    dirtyContextFirst before (before ++ Event.handleDirtyContext :: rest) :=
  ⟨_, rfl, Or.inr rfl⟩

theorem dirtyContextFirst_refl (before : List Event) : dirtyContextFirst before before :=
  ⟨[], by simp, Or.inl rfl⟩

theorem createTexture_dirtyContextFirst (env : Env) (desc : GrSurfaceDesc) (rowBytes : Nat)
    (s s1 : GrGpu) (r : Option GrTexture)
    (h : createTexture env desc rowBytes s = .ok (r, s1)) :
    dirtyContextFirst s.log s1.log := by
  unfold createTexture at h
  dsimp only at h
  repeat' split at h
  all_goals first
    | (cases h; done)
    | (cases h; exact dirtyContextFirst_refl _)
    | (cases h; simpa [emit, handleDirtyContext] using dirtyContextFirst_cons s.log [_])
    | (cases h
       obtain ⟨added, ha, _, _⟩ :=
         attachStencilBufferToRenderTarget_log env _ _ _ _ (by assumption)
       simp only [unref, ha]
       simpa [emit, handleDirtyContext] using dirtyContextFirst_cons s.log (_ :: added))

theorem wrapBackendTexture_dirtyContextFirst (env : Env) (desc : Nat)
    (s s1 : GrGpu) (r : Option GrTexture)
    (h : wrapBackendTexture env desc s = .ok (r, s1)) :
    dirtyContextFirst s.log s1.log := by
  unfold wrapBackendTexture at h
  dsimp only at h
  repeat' split at h
  all_goals first
    | (cases h; done)
    | (cases h; simpa [emit, handleDirtyContext] using dirtyContextFirst_cons s.log [_])
    | (cases h
       obtain ⟨added, ha, _, _⟩ :=
         attachStencilBufferToRenderTarget_log env _ _ _ _ (by assumption)
       simp only [unref, ha]
       simpa [emit, handleDirtyContext] using dirtyContextFirst_cons s.log (_ :: added))

/-- C14 as stated fails: `attachStencilBufferToRenderTarget`, called on a fresh
object, creates a stencil buffer and clears it without `handleDirtyContext`
being invoked at all. -/
theorem attachStencil_no_handleDirtyContext_counterexample :
    (match attachStencilBufferToRenderTarget sampleEnv sampleRenderTarget init with
     | .error _ => none
     | .ok (_, s1) => some s1.log) =
      some [.createStencilBufferForRenderTarget sampleRenderTarget 16 16,
        .clearStencil sampleRenderTarget] ∧
    Event.handleDirtyContext ∉
      [Event.createStencilBufferForRenderTarget sampleRenderTarget 16 16,
        Event.clearStencil sampleRenderTarget] :=
  ⟨rfl, by decide⟩

/-- C14 (amended): in `createTexture`, `wrapBackendTexture`,
`wrapBackendRenderTarget`, `createVertexBuffer`, `createIndexBuffer`, `clear`,
`clearStencilClip`, `readPixels`, `writeTexturePixels`, `resolveRenderTarget`,
`onDraw` and the path draws, the calls added to the log are none or start with
`handleDirtyContext`, so it precedes every backend call of the operation, the
stencil attach, stencil-buffer creation and `clearStencil` reached through
`createTexture` and `wrapBackendTexture` included.
`attachStencilBufferToRenderTarget` itself adds backend calls and never
`handleDirtyContext`. -/
theorem handleDirtyContext_first (env : Env) (s : GrGpu) :
    (∀ desc rowBytes r s1, createTexture env desc rowBytes s = .ok (r, s1) →
      dirtyContextFirst s.log s1.log) ∧
    (∀ desc r s1, wrapBackendTexture env desc s = .ok (r, s1) →
      dirtyContextFirst s.log s1.log) ∧
    (∀ desc, dirtyContextFirst s.log (wrapBackendRenderTarget env desc s).2.log) ∧
    (∀ size dynamic, dirtyContextFirst s.log (createVertexBuffer env size dynamic s).2.log) ∧
    (∀ size dynamic, dirtyContextFirst s.log (createIndexBuffer env size dynamic s).2.log) ∧
    (∀ rect color canIgnoreRect renderTarget s1,
      clear rect color canIgnoreRect renderTarget s = .ok s1 →
      dirtyContextFirst s.log s1.log) ∧
    (∀ rect insideClip renderTarget s1,
      clearStencilClip rect insideClip renderTarget s = .ok s1 →
      dirtyContextFirst s.log s1.log) ∧
    (∀ target left top width height config rowBytes,
      dirtyContextFirst s.log
        (readPixels env target left top width height config rowBytes s).2.log) ∧
    (∀ texture left top width height config rowBytes,
      dirtyContextFirst s.log
        (writeTexturePixels env texture left top width height config rowBytes s).2.log) ∧
    (∀ target s1, resolveRenderTarget target s = .ok s1 → dirtyContextFirst s.log s1.log) ∧
    (∀ info scissorState, dirtyContextFirst s.log (onDraw env info scissorState s).log) ∧
    (∀ path scissorState stencilSettings,
      dirtyContextFirst s.log (onStencilPath env path scissorState stencilSettings s).log) ∧
    (∀ path scissorState stencilSettings dstCopy,
      dirtyContextFirst s.log
        (onDrawPath env path scissorState stencilSettings dstCopy s).log) ∧
    (∀ pathRange indices count transforms transformsType scissorState stencilSettings dstCopy,
      dirtyContextFirst s.log
        (onDrawPaths env pathRange indices count transforms transformsType scissorState
          stencilSettings dstCopy s).log) ∧
    (∀ rt r s1, attachStencilBufferToRenderTarget env rt s = .ok (r, s1) →
      ∃ added, s1.log = s.log ++ added ∧ added ≠ [] ∧ Event.handleDirtyContext ∉ added) := by
  refine ⟨?_, ?_, ?_, ?_, ?_, ?_, ?_, ?_, ?_, ?_, ?_, ?_, ?_, ?_, ?_⟩
  · intro desc rowBytes r s1 h
    exact createTexture_dirtyContextFirst env desc rowBytes s s1 r h
  · intro desc r s1 h
    exact wrapBackendTexture_dirtyContextFirst env desc s s1 r h
  · intro desc
    simpa [wrapBackendRenderTarget, emit, handleDirtyContext] using
      dirtyContextFirst_cons s.log [_]
  · intro size dynamic
    simpa [createVertexBuffer, emit, handleDirtyContext] using
      dirtyContextFirst_cons s.log [_]
  · intro size dynamic
    simpa [createIndexBuffer, emit, handleDirtyContext] using
      dirtyContextFirst_cons s.log [_]
  · intro rect color canIgnoreRect renderTarget s1 h
    cases renderTarget with
    | none => cases h
    | some rt =>
      cases h
      simpa [emit, handleDirtyContext] using dirtyContextFirst_cons s.log [_]
  · intro rect insideClip renderTarget s1 h
    unfold clearStencilClip at h
    dsimp only at h
    split at h
    · cases h
    · cases h
      simpa [emit, handleDirtyContext] using dirtyContextFirst_cons s.log [_]
  · intro target left top width height config rowBytes
    simpa [readPixels, emit, handleDirtyContext] using dirtyContextFirst_cons s.log [_]
  · intro texture left top width height config rowBytes
    simpa [writeTexturePixels, emit, handleDirtyContext] using
      dirtyContextFirst_cons s.log [_]
  · intro target s1 h
    cases target with
    | none => cases h
    | some rt =>
      cases h
      simpa [emit, handleDirtyContext] using dirtyContextFirst_cons s.log [_]
  · intro info scissorState
    unfold onDraw
    dsimp only
    split_ifs
    · simpa [emit, handleDirtyContext] using dirtyContextFirst_cons s.log [_]
    · simpa [emit, handleDirtyContext] using dirtyContextFirst_cons s.log [_, _]
  · intro path scissorState stencilSettings
    unfold onStencilPath
    dsimp only
    split_ifs
    · simpa [emit, handleDirtyContext] using dirtyContextFirst_cons s.log [_]
    · simpa [emit, handleDirtyContext] using dirtyContextFirst_cons s.log [_, _]
  · intro path scissorState stencilSettings dstCopy
    unfold onDrawPath
    dsimp only
    split_ifs
    · simpa [emit, handleDirtyContext] using dirtyContextFirst_cons s.log [_]
    · simpa [emit, handleDirtyContext] using dirtyContextFirst_cons s.log [_, _]
  · intro pathRange indices count transforms transformsType scissorState stencilSettings dstCopy
    unfold onDrawPaths
    dsimp only
    split_ifs
    · simpa [emit, handleDirtyContext] using dirtyContextFirst_cons s.log [_]
    · simpa [emit, handleDirtyContext] using dirtyContextFirst_cons s.log [_, _, _]
  · intro rt r s1 h
    exact attachStencilBufferToRenderTarget_log env rt s s1 r h


/-- C18 as stated fails: with a compressed, texturable format that is not
renderable, the render-target flag makes `createTexture` return `NULL` at the
capability check; no assertion is reached. -/
theorem createTexture_compressed_renderTarget_counterexample :
    compressedEnv.isConfigTexturable renderTargetDesc.fConfig = true ∧
    compressedEnv.GrPixelConfigIsCompressed renderTargetDesc.fConfig = true ∧
    renderTargetDesc.fFlags &&& compressedEnv.kRenderTarget_GrSurfaceFlag ≠ 0 ∧
    createTexture compressedEnv renderTargetDesc 64 init = .ok (none, init) :=
  ⟨rfl, rfl, by decide, rfl⟩

/-- C18 (amended): for a texturable, compressed description.  Without the
render-target flag: if the backend lacks non-power-of-two tile support and the
width or the height is not a power of two, `createTexture` returns `NULL` and
leaves the state, hence the log, as it was; otherwise it returns what the
compressed-texture creation of the backend returns, the calls added being
`handleDirtyContext` and that creation, and no stencil pointer changes.  With
the render-target flag: the call aborts on the assertion when the format is
renderable at the requested sampling, and returns `NULL` with the state
unchanged when it is not. -/
theorem createTexture_compressed (env : Env) (desc : GrSurfaceDesc) (rowBytes : Nat)
    (s : GrGpu)
    (htex : env.isConfigTexturable desc.fConfig = true)
    (hcomp : env.GrPixelConfigIsCompressed desc.fConfig = true) :
    (desc.fFlags &&& env.kRenderTarget_GrSurfaceFlag = 0 →
      (env.npotTextureTileSupport = false ∧
          (env.SkIsPow2 desc.fWidth = false ∨ env.SkIsPow2 desc.fHeight = false) →
        createTexture env desc rowBytes s = .ok (none, s)) ∧
      (¬ (env.npotTextureTileSupport = false ∧
          (env.SkIsPow2 desc.fWidth = false ∨ env.SkIsPow2 desc.fHeight = false)) →
        ∃ s1, createTexture env desc rowBytes s =
            .ok (env.onCreateCompressedTexture (s.log ++ [.handleDirtyContext]) desc, s1) ∧
          s1.log = s.log ++ [.handleDirtyContext, .onCreateCompressedTexture desc] ∧
          s1.rtStencilBuffer = s.rtStencilBuffer ∧ s1.refCnt = s.refCnt)) ∧
    (desc.fFlags &&& env.kRenderTarget_GrSurfaceFlag ≠ 0 →
      (env.isConfigRenderable desc.fConfig (decide (desc.fSampleCnt > 0)) = true →
        createTexture env desc rowBytes s = .error .assertFailed) ∧
      (env.isConfigRenderable desc.fConfig (decide (desc.fSampleCnt > 0)) = false →
        createTexture env desc rowBytes s = .ok (none, s))) := by
  have h1 : ¬ env.isConfigTexturable desc.fConfig = false := by simp [htex]
  refine ⟨?_, ?_⟩
  · intro hrt
    have h2 : ¬ (desc.fFlags &&& env.kRenderTarget_GrSurfaceFlag ≠ 0 ∧
        env.isConfigRenderable desc.fConfig (decide (desc.fSampleCnt > 0)) = false) :=
      fun h => h.1 hrt
    refine ⟨?_, ?_⟩
    · intro hnpot
      unfold createTexture
      rw [if_neg h1, if_neg h2, if_pos hcomp, if_neg (not_not.mpr hrt), if_pos hnpot]
    · intro hnpot
      refine ⟨emit (.onCreateCompressedTexture desc) (handleDirtyContext s), ?_, ?_, rfl, rfl⟩
      · unfold createTexture
        rw [if_neg h1, if_neg h2, if_pos hcomp, if_neg (not_not.mpr hrt), if_neg hnpot]
        rfl
      · simp [emit, handleDirtyContext]
  · intro hrt
    refine ⟨?_, ?_⟩
    · intro hrend
      have h2 : ¬ (desc.fFlags &&& env.kRenderTarget_GrSurfaceFlag ≠ 0 ∧
          env.isConfigRenderable desc.fConfig (decide (desc.fSampleCnt > 0)) = false) := by
        rintro ⟨_, h⟩
        rw [hrend] at h
        cases h
      unfold createTexture
      rw [if_neg h1, if_neg h2, if_pos hcomp, if_pos hrt]
    · intro hrend
      unfold createTexture
      rw [if_neg h1, if_pos ⟨hrt, hrend⟩]

theorem createTexture_compressed_witness :
    compressedRenderableEnv.isConfigTexturable renderTargetDesc.fConfig = true ∧
    compressedRenderableEnv.GrPixelConfigIsCompressed renderTargetDesc.fConfig = true ∧
    createTexture compressedRenderableEnv renderTargetDesc 64 init = .error .assertFailed ∧
    createTexture compressedEnv renderTargetDesc 64 init = .ok (none, init) ∧
    (∃ s1, createTexture compressedEnv plainDesc 64 init =
        .ok (some (GrTexture.mk 100 none), s1) ∧
      s1.log = init.log ++ [.handleDirtyContext, .onCreateCompressedTexture plainDesc]) :=
  ⟨rfl, rfl,
    ((createTexture_compressed compressedRenderableEnv renderTargetDesc 64 init rfl rfl).2
      (by decide)).1 rfl,
    ((createTexture_compressed compressedEnv renderTargetDesc 64 init rfl rfl).2
      (by decide)).2 rfl,
    (((createTexture_compressed compressedEnv plainDesc 64 init rfl rfl).1
      (by decide)).2 (by decide)).imp (fun _ h => ⟨h.1, h.2.1⟩)⟩

theorem handleDirtyContext_first_witness :
    (∃ r s1, createTexture sampleEnv renderTargetDesc 64 init = .ok (r, s1) ∧
      dirtyContextFirst init.log s1.log) ∧
    dirtyContextFirst init.log (onDraw sampleEnv sampleDraw 0 init).log :=
  ⟨⟨_, _, rfl, (handleDirtyContext_first sampleEnv init).1 renderTargetDesc 64 _ _ rfl⟩,
    (handleDirtyContext_first sampleEnv init).2.2.2.2.2.2.2.2.2.2.1 sampleDraw 0⟩

/-! ### Trace markers -/

theorem addGpuTraceMarker_count_eq_length (env : Env) (marker : GrGpuTraceMarker) (s s1 : GrGpu)
    (h : addGpuTraceMarker env marker s = .ok s1)
    (hs : s.fGpuTraceMarkerCount = s.fActiveTraceMarkers.length) :
    s1.fGpuTraceMarkerCount = s1.fActiveTraceMarkers.length := by
  unfold addGpuTraceMarker at h
  dsimp only at h
  repeat' split at h
  all_goals first
    | (cases h; done)
    | (cases h; simp [emit, GrTraceMarkerSet.add, hs])

theorem removeGpuTraceMarker_count_eq_length (env : Env) (marker : GrGpuTraceMarker)
    (s s1 : GrGpu) (h : removeGpuTraceMarker env marker s = .ok s1)
    (hs : s.fGpuTraceMarkerCount = s.fActiveTraceMarkers.length) :
    s1.fGpuTraceMarkerCount = s1.fActiveTraceMarkers.length := by
  unfold removeGpuTraceMarker at h
  dsimp only at h
  split at h
  · split at h
    · cases h
    · split at h
      · cases h
      · rename_i active ha
        unfold GrTraceMarkerSet.remove at ha
        split at ha
        · rename_i hmem
          cases ha
          cases h
          have hpos : 0 < s.fActiveTraceMarkers.length := List.length_pos_of_mem hmem
          simp only [emit, hs, List.length_erase_of_mem hmem]
          omega
        · cases ha
  · cases h
    exact hs

/-- Every state reached through the trace-marker interface from one whose live
count is the number of active markers has that property again. -/
theorem runTraceOps_count_eq_length (env : Env) (ops : List TraceOp) :
    ∀ s s1 : GrGpu, runTraceOps env ops s = .ok s1 →
      s.fGpuTraceMarkerCount = s.fActiveTraceMarkers.length →
      s1.fGpuTraceMarkerCount = s1.fActiveTraceMarkers.length := by
  induction ops with
  | nil =>
    intro s s1 h hs
    cases h
    exact hs
  | cons op ops ih =>
    intro s s1 h hs
    cases op with
    | add marker =>
      simp only [runTraceOps] at h
      split at h
      · cases h
      · rename_i sa ha
        exact ih sa s1 h (addGpuTraceMarker_count_eq_length env marker s sa ha hs)
    | remove marker =>
      simp only [runTraceOps] at h
      split at h
      · cases h
      · rename_i sa ha
        exact ih sa s1 h (removeGpuTraceMarker_count_eq_length env marker s sa ha hs)

theorem GrTraceMarkerSet.addSet_eq (markerSet : List GrGpuTraceMarker) :
    ∀ set, GrTraceMarkerSet.addSet markerSet set = set ++ markerSet := by
  induction markerSet with
  | nil => intro set; simp [GrTraceMarkerSet.addSet]
  | cons m ms ih =>
    intro set
    have := ih (set ++ [m])
    simp only [GrTraceMarkerSet.addSet, GrTraceMarkerSet.add, List.foldl_cons] at this ⊢
    rw [this]
    simp

theorem removeEachGpuTraceMarker_spec (env : Env) (htr : env.gpuTracingSupport = true)
    (markers : List GrGpuTraceMarker) :
    ∀ (s : GrGpu) (extra : List GrGpuTraceMarker),
      s.fActiveTraceMarkers.Perm (markers ++ extra) →
      s.fGpuTraceMarkerCount ≥ markers.length →
      ∃ s1, removeEachGpuTraceMarker env markers s = .ok s1 ∧
        s1.fActiveTraceMarkers.Perm extra ∧
        s1.fStoredTraceMarkers = s.fStoredTraceMarkers ∧
        s1.log = s.log ++ List.replicate markers.length .didRemoveGpuTraceMarker ∧
        s1.fGpuTraceMarkerCount = s.fGpuTraceMarkerCount - markers.length := by
  induction markers with
  | nil =>
    intro s extra hperm _
    exact ⟨s, rfl, by simpa using hperm, rfl, by simp, by simp⟩
  | cons m ms ih =>
    intro s extra hperm hcnt
    have hmem : m ∈ s.fActiveTraceMarkers := hperm.symm.subset (by simp)
    have hc1 : s.fGpuTraceMarkerCount ≥ 1 := by
      simp only [List.length_cons, Nat.cast_add, Nat.cast_one] at hcnt
      omega
    have hperm1 : (s.fActiveTraceMarkers.erase m).Perm (ms ++ extra) := by
      have := hperm.erase m
      simpa using this
    let sm : GrGpu :=
      { emit .didRemoveGpuTraceMarker
          { s with fActiveTraceMarkers := s.fActiveTraceMarkers.erase m } with
        fGpuTraceMarkerCount := s.fGpuTraceMarkerCount - 1 }
    have hstep : removeGpuTraceMarker env m s = .ok sm := by
      simp [removeGpuTraceMarker, htr, hc1, GrTraceMarkerSet.remove, hmem, emit, sm]
    have hcm : sm.fGpuTraceMarkerCount ≥ (ms.length : Int) := by
      simp only [List.length_cons, Nat.cast_add, Nat.cast_one] at hcnt
      show s.fGpuTraceMarkerCount - 1 ≥ (ms.length : Int)
      omega
    obtain ⟨s1, h1, hp1, hs1, hl1, hc2⟩ := ih sm extra hperm1 hcm
    refine ⟨s1, ?_, hp1, hs1, ?_, ?_⟩
    · simp [removeEachGpuTraceMarker, hstep, h1]
    · rw [hl1]
      simp [emit, List.replicate_succ, sm]
    · rw [hc2]
      simp [sm]
      ring

/-- C15: with tracing supported, the stored marker set empty and the live count
covering the active markers (it equals their number in every state reached
through the trace-marker interface), `saveActiveTraceMarkers` returns; afterwards
the stored set is the active set as it was before the call, the active set is
empty, the backend has been told of one removal per stored marker and of nothing
else, and the live count is lower by the number of stored markers. -/
theorem saveActiveTraceMarkers_moves_active (env : Env) (s : GrGpu)
    (htr : env.gpuTracingSupport = true) (hst : s.fStoredTraceMarkers = [])
    (hcnt : s.fGpuTraceMarkerCount ≥ s.fActiveTraceMarkers.length) :
    ∃ s1, saveActiveTraceMarkers env s = .ok s1 ∧
      s1.fStoredTraceMarkers = s.fActiveTraceMarkers ∧
      s1.fActiveTraceMarkers = [] ∧
      s1.log = s.log ++
        List.replicate s.fActiveTraceMarkers.length .didRemoveGpuTraceMarker ∧
      s1.fGpuTraceMarkerCount = s.fGpuTraceMarkerCount - s.fActiveTraceMarkers.length := by
  have hadd : GrTraceMarkerSet.addSet s.fActiveTraceMarkers s.fStoredTraceMarkers =
      s.fActiveTraceMarkers := by
    rw [GrTraceMarkerSet.addSet_eq, hst]
    simp
  obtain ⟨s1, h1, hp, hs, hl, hc⟩ := removeEachGpuTraceMarker_spec env htr
    s.fActiveTraceMarkers { s with fStoredTraceMarkers := s.fActiveTraceMarkers } []
    (by simp) hcnt
  refine ⟨s1, ?_, hs, List.Perm.eq_nil hp, hl, hc⟩
  unfold saveActiveTraceMarkers
  rw [if_pos htr, if_neg (by simp [GrTraceMarkerSet.count, hst])]
  simp only [hadd]
  exact h1

theorem saveActiveTraceMarkers_moves_active_witness :
    sampleEnv.gpuTracingSupport = true ∧ twoMarkersActive.fStoredTraceMarkers = [] ∧
    twoMarkersActive.fGpuTraceMarkerCount ≥ twoMarkersActive.fActiveTraceMarkers.length ∧
    ∃ s1, saveActiveTraceMarkers sampleEnv twoMarkersActive = .ok s1 ∧
      s1.fStoredTraceMarkers = [markerA, markerB] ∧
      s1.fActiveTraceMarkers = [] ∧
      s1.log = [.didRemoveGpuTraceMarker, .didRemoveGpuTraceMarker] ∧
      s1.fGpuTraceMarkerCount = 0 := by
  refine ⟨rfl, rfl, by decide, ?_⟩
  obtain ⟨s1, h1, h2, h3, h4, h5⟩ :=
    saveActiveTraceMarkers_moves_active sampleEnv twoMarkersActive rfl rfl (by decide)
  exact ⟨s1, h1, h2, h3, by rw [h4]; rfl, by rw [h5]; decide⟩

/-- C16: when the backend does not support tracing, `saveActiveTraceMarkers`,
`restoreActiveTraceMarkers`, `addGpuTraceMarker` and `removeGpuTraceMarker` each
return with the state as it was: the active marker set, the stored marker set, the
live marker count and the record of backend calls are unchanged. -/
theorem traceMarkers_noop_without_tracing (env : Env) (s : GrGpu)
    (marker : GrGpuTraceMarker) (htr : env.gpuTracingSupport = false) :
    saveActiveTraceMarkers env s = .ok s ∧
    restoreActiveTraceMarkers env s = .ok s ∧
    addGpuTraceMarker env marker s = .ok s ∧
    removeGpuTraceMarker env marker s = .ok s := by
  have hn : ¬ env.gpuTracingSupport = true := by simp [htr]
  refine ⟨?_, ?_, ?_, ?_⟩
  · unfold saveActiveTraceMarkers
    rw [if_neg hn]
  · unfold restoreActiveTraceMarkers
    rw [if_neg hn]
  · unfold addGpuTraceMarker
    rw [if_neg hn]
  · unfold removeGpuTraceMarker
    rw [if_neg hn]

theorem traceMarkers_noop_without_tracing_witness :
    noTracingEnv.gpuTracingSupport = false ∧
    saveActiveTraceMarkers noTracingEnv twoMarkersActive = .ok twoMarkersActive ∧
    restoreActiveTraceMarkers noTracingEnv twoMarkersActive = .ok twoMarkersActive ∧
    addGpuTraceMarker noTracingEnv markerA twoMarkersActive = .ok twoMarkersActive ∧
    removeGpuTraceMarker noTracingEnv markerA twoMarkersActive = .ok twoMarkersActive :=
  ⟨rfl, traceMarkers_noop_without_tracing noTracingEnv twoMarkersActive markerA rfl⟩

/-- With tracing supported a sequence of trace-marker calls runs to the end
exactly when the asserted preconditions hold along it. -/
theorem runTraceOps_ok_iff (env : Env) (htr : env.gpuTracingSupport = true)
    (ops : List TraceOp) :
    ∀ s : GrGpu, (∃ s1, runTraceOps env ops s = .ok s1) ↔
      traceOpsOk s.fActiveTraceMarkers s.fGpuTraceMarkerCount ops := by
  induction ops with
  | nil =>
    intro s
    simp [runTraceOps, traceOpsOk]
  | cons op ops ih =>
    intro s
    cases op with
    | add marker =>
      simp only [runTraceOps, traceOpsOk]
      by_cases hc : s.fGpuTraceMarkerCount ≥ 0
      · have hstep : addGpuTraceMarker env marker s = .ok
            { emit .didAddGpuTraceMarker
                { s with fActiveTraceMarkers :=
                    GrTraceMarkerSet.add marker s.fActiveTraceMarkers } with
              fGpuTraceMarkerCount := s.fGpuTraceMarkerCount + 1 } := by
          simp [addGpuTraceMarker, htr, hc, emit]
        rw [hstep]
        simp only [ih, emit]
        exact ⟨fun h => ⟨hc, h⟩, fun h => h.2⟩
      · have hstep : addGpuTraceMarker env marker s = .error .assertFailed := by
          simp [addGpuTraceMarker, htr, hc]
        rw [hstep]
        constructor
        · rintro ⟨s1, h⟩
          cases h
        · intro h
          exact absurd h.1 hc
    | remove marker =>
      simp only [runTraceOps, traceOpsOk]
      by_cases hc : s.fGpuTraceMarkerCount ≥ 1
      · by_cases hmem : marker ∈ s.fActiveTraceMarkers
        · have hstep : removeGpuTraceMarker env marker s = .ok
              { emit .didRemoveGpuTraceMarker
                  { s with fActiveTraceMarkers := s.fActiveTraceMarkers.erase marker } with
                fGpuTraceMarkerCount := s.fGpuTraceMarkerCount - 1 } := by
            simp [removeGpuTraceMarker, htr, hc, GrTraceMarkerSet.remove, hmem, emit]
          rw [hstep]
          simp only [ih, emit]
          exact ⟨fun h => ⟨hc, hmem, h⟩, fun h => h.2.2⟩
        · have hstep : removeGpuTraceMarker env marker s = .error .assertFailed := by
            simp [removeGpuTraceMarker, htr, hc, GrTraceMarkerSet.remove, hmem]
          rw [hstep]
          constructor
          · rintro ⟨s1, h⟩
            cases h
          · intro h
            exact absurd h.2.1 hmem
      · have hstep : removeGpuTraceMarker env marker s = .error .assertFailed := by
          simp [removeGpuTraceMarker, htr, hc]
        rw [hstep]
        constructor
        · rintro ⟨s1, h⟩
          cases h
        · intro h
          exact absurd h.1 hc

theorem runTraceOps_count (env : Env) (htr : env.gpuTracingSupport = true)
    (ops : List TraceOp) :
    ∀ s : GrGpu, traceOpsOk s.fActiveTraceMarkers s.fGpuTraceMarkerCount ops →
      ∃ s1, runTraceOps env ops s = .ok s1 ∧
        s1.fGpuTraceMarkerCount =
          s.fGpuTraceMarkerCount +
            ((ops.countP TraceOp.isAdd : Int) - ops.countP TraceOp.isRemove) ∧
        s1.log = s.log ++ ops.map TraceOp.notification := by
  induction ops with
  | nil =>
    intro s _
    exact ⟨s, rfl, by simp, by simp⟩
  | cons op ops ih =>
    intro s hok
    cases op with
    | add marker =>
      obtain ⟨hc, hrest⟩ := hok
      let sm : GrGpu :=
        { emit .didAddGpuTraceMarker
            { s with fActiveTraceMarkers :=
                GrTraceMarkerSet.add marker s.fActiveTraceMarkers } with
          fGpuTraceMarkerCount := s.fGpuTraceMarkerCount + 1 }
      have hstep : addGpuTraceMarker env marker s = .ok sm := by
        simp [addGpuTraceMarker, htr, hc, emit, sm]
      obtain ⟨s1, h1, hc1, hl1⟩ := ih sm hrest
      refine ⟨s1, by simp [runTraceOps, hstep, h1], ?_, ?_⟩
      · rw [hc1]
        simp [sm, TraceOp.isAdd, TraceOp.isRemove]
        ring
      · rw [hl1]
        simp [sm, emit, TraceOp.notification]
    | remove marker =>
      obtain ⟨hc, hmem, hrest⟩ := hok
      let sm : GrGpu :=
        { emit .didRemoveGpuTraceMarker
            { s with fActiveTraceMarkers := s.fActiveTraceMarkers.erase marker } with
          fGpuTraceMarkerCount := s.fGpuTraceMarkerCount - 1 }
      have hstep : removeGpuTraceMarker env marker s = .ok sm := by
        simp [removeGpuTraceMarker, htr, hc, GrTraceMarkerSet.remove, hmem, emit, sm]
      obtain ⟨s1, h1, hc1, hl1⟩ := ih sm hrest
      refine ⟨s1, by simp [runTraceOps, hstep, h1], ?_, ?_⟩
      · rw [hc1]
        simp [sm, TraceOp.isAdd, TraceOp.isRemove]
        ring
      · rw [hl1]
        simp [sm, emit, TraceOp.notification]

/-- C17: with tracing supported, a sequence of `addGpuTraceMarker` and
`removeGpuTraceMarker` calls whose asserted preconditions hold along the way runs
to the end; the live marker count is then the count at the start plus the number
of adds minus the number of removes, and the backend has been notified once per
call, in order.  A `removeGpuTraceMarker` issued when the live count is 0 (or
less) fails its assertion. -/
theorem traceMarker_count_balance (env : Env) (s : GrGpu) (ops : List TraceOp)
    (htr : env.gpuTracingSupport = true)
    (hok : traceOpsOk s.fActiveTraceMarkers s.fGpuTraceMarkerCount ops) :
    (∃ s1, runTraceOps env ops s = .ok s1 ∧
      s1.fGpuTraceMarkerCount =
        s.fGpuTraceMarkerCount +
          ((ops.countP TraceOp.isAdd : Int) - ops.countP TraceOp.isRemove) ∧
      s1.log = s.log ++ ops.map TraceOp.notification) ∧
    (∀ (t : GrGpu) (marker : GrGpuTraceMarker), t.fGpuTraceMarkerCount ≤ 0 →
      removeGpuTraceMarker env marker t = .error .assertFailed) := by
  refine ⟨runTraceOps_count env htr ops s hok, ?_⟩
  intro t marker ht
  unfold removeGpuTraceMarker
  rw [if_pos htr, if_pos (by omega)]

theorem traceMarker_count_balance_witness :
    sampleEnv.gpuTracingSupport = true ∧
    traceOpsOk init.fActiveTraceMarkers init.fGpuTraceMarkerCount
      [.add markerA, .add markerB, .remove markerA] ∧
    (∃ s1, runTraceOps sampleEnv [.add markerA, .add markerB, .remove markerA] init = .ok s1 ∧
      s1.fGpuTraceMarkerCount = 1 ∧
      s1.log = [.didAddGpuTraceMarker, .didAddGpuTraceMarker, .didRemoveGpuTraceMarker]) ∧
    removeGpuTraceMarker sampleEnv markerA init = .error .assertFailed := by
  have h := traceMarker_count_balance sampleEnv init
    [.add markerA, .add markerB, .remove markerA] rfl (by decide)
  refine ⟨rfl, by decide, ?_, h.2 init markerA (by decide)⟩
  obtain ⟨s1, h1, h2, h3⟩ := h.1
  exact ⟨s1, h1, by rw [h2]; decide, by rw [h3]; rfl⟩

/-! ### Depth of the two stacks -/

theorem setBack_length {α : Type} (x : α) (l : List α) : (setBack x l).length = l.length := by
  cases l <;> rfl

theorem releaseReservedVertexSpace_stacks (s s1 : GrGpu)
    (h : releaseReservedVertexSpace s = .ok s1) :
    s1.fGeoSrcStateStack = s.fGeoSrcStateStack ∧
      s1.fGeomPoolStateStack = s.fGeomPoolStateStack := by
  unfold releaseReservedVertexSpace at h
  repeat' split at h
  all_goals first
    | (cases h; done)
    | (cases h; exact ⟨rfl, rfl⟩)

theorem releaseReservedIndexSpace_stacks (s s1 : GrGpu)
    (h : releaseReservedIndexSpace s = .ok s1) :
    s1.fGeoSrcStateStack = s.fGeoSrcStateStack ∧
      s1.fGeomPoolStateStack = s.fGeomPoolStateStack := by
  unfold releaseReservedIndexSpace at h
  repeat' split at h
  all_goals first
    | (cases h; done)
    | (cases h; exact ⟨rfl, rfl⟩)

theorem releasePreviousVertexSource_stacks (s s1 : GrGpu)
    (h : releasePreviousVertexSource s = .ok s1) :
    s1.fGeoSrcStateStack.length = s.fGeoSrcStateStack.length ∧
      s1.fGeomPoolStateStack = s.fGeomPoolStateStack := by
  unfold releasePreviousVertexSource at h
  split at h
  · cases h
  · split at h
    · cases h
      exact ⟨rfl, rfl⟩
    · obtain ⟨h1, h2⟩ := releaseReservedVertexSpace_stacks s s1 h
      exact ⟨by rw [h1], h2⟩
    · cases h
      exact ⟨by simp [unref, setBack_length], rfl⟩

theorem releasePreviousIndexSource_stacks (s s1 : GrGpu)
    (h : releasePreviousIndexSource s = .ok s1) :
    s1.fGeoSrcStateStack.length = s.fGeoSrcStateStack.length ∧
      s1.fGeomPoolStateStack = s.fGeomPoolStateStack := by
  unfold releasePreviousIndexSource at h
  split at h
  · cases h
  · split at h
    · cases h
      exact ⟨rfl, rfl⟩
    · obtain ⟨h1, h2⟩ := releaseReservedIndexSpace_stacks s s1 h
      exact ⟨by rw [h1], h2⟩
    · cases h
      exact ⟨by simp [unref, setBack_length], rfl⟩

theorem setVertexSourceToBuffer_stacks (buffer : Nat) (s s1 : GrGpu)
    (h : setVertexSourceToBuffer buffer s = .ok s1) :
    s1.fGeoSrcStateStack.length = s.fGeoSrcStateStack.length ∧
      s1.fGeomPoolStateStack = s.fGeomPoolStateStack := by
  unfold setVertexSourceToBuffer at h
  split at h
  · cases h
  · rename_i sa ha
    obtain ⟨h1, h2⟩ := releasePreviousVertexSource_stacks s sa ha
    dsimp only at h
    repeat' split at h
    all_goals first
      | (cases h; done)
      | (cases h
         exact ⟨by simp [ref, setBack_length, h1], by simp [ref, h2]⟩)

theorem setIndexSourceToBuffer_stacks (buffer : Nat) (s s1 : GrGpu)
    (h : setIndexSourceToBuffer buffer s = .ok s1) :
    s1.fGeoSrcStateStack.length = s.fGeoSrcStateStack.length ∧
      s1.fGeomPoolStateStack = s.fGeomPoolStateStack := by
  unfold setIndexSourceToBuffer at h
  split at h
  · cases h
  · rename_i sa ha
    obtain ⟨h1, h2⟩ := releasePreviousIndexSource_stacks s sa ha
    dsimp only at h
    repeat' split at h
    all_goals first
      | (cases h; done)
      | (cases h
         exact ⟨by simp [ref, setBack_length, h1], by simp [ref, h2]⟩)

theorem resetVertexSource_stacks (s s1 : GrGpu) (h : resetVertexSource s = .ok s1) :
    s1.fGeoSrcStateStack.length = s.fGeoSrcStateStack.length ∧
      s1.fGeomPoolStateStack = s.fGeomPoolStateStack := by
  unfold resetVertexSource at h
  split at h
  · cases h
  · rename_i sa ha
    obtain ⟨h1, h2⟩ := releasePreviousVertexSource_stacks s sa ha
    repeat' split at h
    all_goals first
      | (cases h; done)
      | (cases h
         exact ⟨by simp [setBack_length, h1], h2⟩)

theorem resetIndexSource_stacks (s s1 : GrGpu) (h : resetIndexSource s = .ok s1) :
    s1.fGeoSrcStateStack.length = s.fGeoSrcStateStack.length ∧
      s1.fGeomPoolStateStack = s.fGeomPoolStateStack := by
  unfold resetIndexSource at h
  split at h
  · cases h
  · rename_i sa ha
    obtain ⟨h1, h2⟩ := releasePreviousIndexSource_stacks s sa ha
    repeat' split at h
    all_goals first
      | (cases h; done)
      | (cases h
         exact ⟨by simp [setBack_length, h1], h2⟩)

theorem finalizeReservedVertices_stacks (s s1 : GrGpu)
    (h : finalizeReservedVertices s = .ok s1) :
    s1.fGeoSrcStateStack = s.fGeoSrcStateStack ∧
      s1.fGeomPoolStateStack = s.fGeomPoolStateStack := by
  unfold finalizeReservedVertices at h
  split at h
  · cases h
  · cases h
    exact ⟨rfl, rfl⟩

theorem finalizeReservedIndices_stacks (s s1 : GrGpu)
    (h : finalizeReservedIndices s = .ok s1) :
    s1.fGeoSrcStateStack = s.fGeoSrcStateStack ∧
      s1.fGeomPoolStateStack = s.fGeomPoolStateStack := by
  unfold finalizeReservedIndices at h
  split at h
  · cases h
  · cases h
    exact ⟨rfl, rfl⟩

theorem geometrySourceWillPush_stacks (s s1 : GrGpu)
    (h : geometrySourceWillPush s = .ok s1) :
    s1.fGeoSrcStateStack = s.fGeoSrcStateStack ∧
      s1.fGeomPoolStateStack.length = s.fGeomPoolStateStack.length + 1 := by
  unfold geometrySourceWillPush at h
  split at h
  · cases h
  · split at h
    · cases h
    · rename_i sa ha
      have hsa : sa.fGeoSrcStateStack = s.fGeoSrcStateStack ∧
          sa.fGeomPoolStateStack = s.fGeomPoolStateStack := by
        split at ha
        · exact finalizeReservedVertices_stacks s sa ha
        · cases ha
          exact ⟨rfl, rfl⟩
      split at h
      · cases h
      · rename_i sb hb
        have hsb : sb.fGeoSrcStateStack = sa.fGeoSrcStateStack ∧
            sb.fGeomPoolStateStack = sa.fGeomPoolStateStack := by
          split at hb
          · exact finalizeReservedIndices_stacks sa sb hb
          · cases hb
            exact ⟨rfl, rfl⟩
        cases h
        exact ⟨by rw [hsb.1, hsa.1], by simp [hsb.2, hsa.2]⟩

theorem pushGeometrySource_stacks (s s1 : GrGpu) (h : pushGeometrySource s = .ok s1) :
    s1.fGeoSrcStateStack.length = s.fGeoSrcStateStack.length + 1 ∧
      s1.fGeomPoolStateStack.length = s.fGeomPoolStateStack.length + 1 := by
  unfold pushGeometrySource at h
  split at h
  · cases h
  · rename_i sa ha
    obtain ⟨h1, h2⟩ := geometrySourceWillPush_stacks s sa ha
    cases h
    exact ⟨by simp [h1], h2⟩

theorem popGeometrySource_stacks (s s1 : GrGpu) (h : popGeometrySource s = .ok s1) :
    s1.fGeoSrcStateStack.length + 1 = s.fGeoSrcStateStack.length ∧
      s1.fGeomPoolStateStack.length + 1 = s.fGeomPoolStateStack.length ∧
      1 ≤ s1.fGeoSrcStateStack.length ∧ 1 ≤ s1.fGeomPoolStateStack.length := by
  unfold popGeometrySource at h
  split at h
  · cases h
  · rename_i hd
    split at h
    · cases h
    · split at h
      · cases h
      · rename_i sa ha
        unfold geometrySourceWillPop at ha
        split at ha
        · cases ha
        · rename_i hpd
          split at ha
          · cases ha
          · rename_i st hst
            cases ha
            split at h
            · cases h
            · rename_i sb hb
              obtain ⟨hb1, hb2⟩ := releasePreviousVertexSource_stacks _ sb hb
              split at h
              · cases h
              · rename_i sc hc
                obtain ⟨hc1, hc2⟩ := releasePreviousIndexSource_stacks sb sc hc
                split at h
                · cases h
                · rename_i st2 hst2
                  cases h
                  have e1 : st.length + 1 = s.fGeomPoolStateStack.length := by
                    cases hp : s.fGeomPoolStateStack with
                    | nil => simp [hp, pop_back] at hst
                    | cons a b =>
                      simp only [hp, pop_back, Except.ok.injEq] at hst
                      subst hst
                      simp
                  have e2 : st2.length + 1 = sc.fGeoSrcStateStack.length := by
                    cases hp : sc.fGeoSrcStateStack with
                    | nil => simp [hp, pop_back] at hst2
                    | cons a b =>
                      simp only [hp, pop_back, Except.ok.injEq] at hst2
                      subst hst2
                      simp
                  simp only [] at hb1 hb2 hc1 hc2 ⊢
                  have hd1 : 1 < s.fGeoSrcStateStack.length := by simpa using hd
                  have hpd1 : 1 < s.fGeomPoolStateStack.length := by simpa using hpd
                  rw [hc2, hb2]
                  refine ⟨?_, e1, ?_, ?_⟩ <;> omega


theorem prepareVertexPool_stacks (s s1 : GrGpu) (h : prepareVertexPool s = .ok s1) :
    s1.fGeoSrcStateStack = s.fGeoSrcStateStack ∧
      s1.fGeomPoolStateStack = s.fGeomPoolStateStack := by
  unfold prepareVertexPool at h
  repeat' split at h
  all_goals first
    | (cases h; done)
    | (cases h; exact ⟨rfl, rfl⟩)

theorem prepareIndexPool_stacks (s s1 : GrGpu) (h : prepareIndexPool s = .ok s1) :
    s1.fGeoSrcStateStack = s.fGeoSrcStateStack ∧
      s1.fGeomPoolStateStack = s.fGeomPoolStateStack := by
  unfold prepareIndexPool at h
  repeat' split at h
  all_goals first
    | (cases h; done)
    | (cases h; exact ⟨rfl, rfl⟩)

theorem onReserveVertexSpace_stacks (env : Env) (vertexSize : Nat) (vertexCount : Int)
    (s s1 : GrGpu) (r : Bool × Option Nat)
    (h : onReserveVertexSpace env vertexSize vertexCount s = .ok (r, s1)) :
    s1.fGeoSrcStateStack = s.fGeoSrcStateStack ∧
      s1.fGeomPoolStateStack.length = s.fGeomPoolStateStack.length := by
  unfold onReserveVertexSpace at h
  split at h
  · cases h
  · split at h
    · cases h
    · split at h
      · cases h
      · rename_i sa ha
        obtain ⟨h1, h2⟩ := prepareVertexPool_stacks s sa ha
        dsimp only at h
        split at h <;> cases h <;> exact ⟨by simp [emit, h1], by simp [emit, setBack_length, h2]⟩

theorem onReserveIndexSpace_stacks (env : Env) (indexCount : Int)
    (s s1 : GrGpu) (r : Bool × Option Nat)
    (h : onReserveIndexSpace env indexCount s = .ok (r, s1)) :
    s1.fGeoSrcStateStack = s.fGeoSrcStateStack ∧
      s1.fGeomPoolStateStack.length = s.fGeomPoolStateStack.length := by
  unfold onReserveIndexSpace at h
  split at h
  · cases h
  · split at h
    · cases h
    · split at h
      · cases h
      · rename_i sa ha
        obtain ⟨h1, h2⟩ := prepareIndexPool_stacks s sa ha
        dsimp only at h
        split at h <;> cases h <;> exact ⟨by simp [emit, h1], by simp [emit, setBack_length, h2]⟩

theorem popGeometrySource_inSync (s s1 : GrGpu) (h : popGeometrySource s = .ok s1)
    (hs : StacksInSync s) : StacksInSync s1 := by
  obtain ⟨h1, h2, h3, _⟩ := popGeometrySource_stacks s s1 h
  unfold StacksInSync at hs ⊢
  omega

theorem releaseGeometryLoop_inSync (popCnt : Nat) :
    ∀ (s s1 : GrGpu), releaseGeometryLoop popCnt s = .ok s1 → StacksInSync s →
      StacksInSync s1 ∧ s1.fGeoSrcStateStack.length + popCnt = s.fGeoSrcStateStack.length := by
  induction popCnt with
  | zero =>
    intro s s1 h hs
    cases h
    exact ⟨hs, rfl⟩
  | succ n ih =>
    intro s s1 h hs
    unfold releaseGeometryLoop at h
    split at h
    · cases h
    · rename_i sa ha
      obtain ⟨h1, h2⟩ := ih sa s1 h (popGeometrySource_inSync s sa ha hs)
      have := (popGeometrySource_stacks s sa ha).1
      exact ⟨h1, by omega⟩

theorem releaseGeometry_inSync (s s1 : GrGpu) (h : releaseGeometry s = .ok s1)
    (hs : StacksInSync s) : StacksInSync s1 := by
  unfold releaseGeometry at h
  split at h
  · exact popGeometrySource_inSync s s1 h hs
  · split at h
    · cases h
    · rename_i sa ha
      obtain ⟨ha1, _⟩ := releaseGeometryLoop_inSync _ s sa ha hs
      split at h
      · cases h
      · rename_i sb hb
        obtain ⟨hb1, hb2⟩ := resetVertexSource_stacks sa sb hb
        obtain ⟨hc1, hc2⟩ := resetIndexSource_stacks sb s1 h
        unfold StacksInSync at ha1 ⊢
        rw [hc2, hb2, hc1, hb1]
        exact ha1

theorem ApiCall.run_inSync (env : Env) (call : ApiCall) (s s1 : GrGpu)
    (h : call.run env s = .ok s1) (hs : StacksInSync s) : StacksInSync s1 := by
  cases call with
  | pushGeometrySource =>
    obtain ⟨h1, h2⟩ := pushGeometrySource_stacks s s1 h
    unfold StacksInSync at hs ⊢
    omega
  | popGeometrySource => exact popGeometrySource_inSync s s1 h hs
  | setVertexSourceToBuffer buffer =>
    obtain ⟨h1, h2⟩ := setVertexSourceToBuffer_stacks buffer s s1 h
    unfold StacksInSync at hs ⊢
    rw [h1, h2]; exact hs
  | setIndexSourceToBuffer buffer =>
    obtain ⟨h1, h2⟩ := setIndexSourceToBuffer_stacks buffer s s1 h
    unfold StacksInSync at hs ⊢
    rw [h1, h2]; exact hs
  | resetVertexSource =>
    obtain ⟨h1, h2⟩ := resetVertexSource_stacks s s1 h
    unfold StacksInSync at hs ⊢
    rw [h1, h2]; exact hs
  | resetIndexSource =>
    obtain ⟨h1, h2⟩ := resetIndexSource_stacks s s1 h
    unfold StacksInSync at hs ⊢
    rw [h1, h2]; exact hs
  | onReserveVertexSpace vertexSize vertexCount =>
    simp only [ApiCall.run] at h
    split at h
    · cases h
    · rename_i r sa ha
      cases h
      obtain ⟨h1, h2⟩ := onReserveVertexSpace_stacks env vertexSize vertexCount s s1 r ha
      unfold StacksInSync at hs ⊢
      rw [h1, h2]; exact hs
  | onReserveIndexSpace indexCount =>
    simp only [ApiCall.run] at h
    split at h
    · cases h
    · rename_i r sa ha
      cases h
      obtain ⟨h1, h2⟩ := onReserveIndexSpace_stacks env indexCount s s1 r ha
      unfold StacksInSync at hs ⊢
      rw [h1, h2]; exact hs
  | releaseGeometry => exact releaseGeometry_inSync s s1 h hs
  | callerWritesTop g =>
    cases h
    unfold StacksInSync at hs ⊢
    simpa [setBack_length] using hs

theorem runApiCalls_inSync (env : Env) (calls : List ApiCall) :
    ∀ (s s1 : GrGpu), runApiCalls env calls s = .ok s1 → StacksInSync s → StacksInSync s1 := by
  induction calls with
  | nil =>
    intro s s1 h hs
    cases h
    exact hs
  | cons call calls ih =>
    intro s s1 h hs
    unfold runApiCalls at h
    split at h
    · cases h
    · rename_i sa ha
      exact ih sa s1 h (ApiCall.run_inSync env call s sa ha hs)

/-- C19: in every state reached from a freshly constructed object through
`pushGeometrySource`, `popGeometrySource`, setting and resetting the vertex and
index sources, reservations, `releaseGeometry` and writes of the top level by the
layer above, the pool-state stack and the geometry-source stack have the same
depth, and that depth is at least 1. -/
theorem stacks_depth_invariant (env : Env) (calls : List ApiCall) (s0 s : GrGpu)
    (hgeo : s0.fGeoSrcStateStack = init.fGeoSrcStateStack)
    (hpool : s0.fGeomPoolStateStack = init.fGeomPoolStateStack)
    (hrun : runApiCalls env calls s0 = .ok s) :
    s.fGeomPoolStateStack.length = s.fGeoSrcStateStack.length ∧
      1 ≤ s.fGeoSrcStateStack.length := by
  have h0 : StacksInSync s0 := by
    unfold StacksInSync
    rw [hgeo, hpool]
    decide
  exact runApiCalls_inSync env calls s0 s hrun h0

theorem stacks_depth_invariant_witness :
    ∃ s, runApiCalls sampleEnv
        [.pushGeometrySource, .setVertexSourceToBuffer 7, .onReserveIndexSpace 6,
          .popGeometrySource, .setIndexSourceToBuffer 3, .releaseGeometry] init = .ok s ∧
      s.fGeomPoolStateStack.length = s.fGeoSrcStateStack.length ∧
      1 ≤ s.fGeoSrcStateStack.length :=
  ⟨_, rfl, stacks_depth_invariant sampleEnv
    [.pushGeometrySource, .setVertexSourceToBuffer 7, .onReserveIndexSpace 6,
      .popGeometrySource, .setIndexSourceToBuffer 3, .releaseGeometry] init _ rfl rfl rfl⟩

/-! ### Push followed by pop -/

theorem pushGeometrySource_effect (s : GrGpu) (hv : Valid s) (g : GeometrySrcState)
    (hg : getGeomSrc s = .ok g) :
    pushGeometrySource s = .ok
      { s with
        log := s.log ++
          (if g.fVertexSrc = kReserved_GeometrySrcType then [Event.vertexPoolUnmap] else []) ++
          (if g.fIndexSrc = kReserved_GeometrySrcType then [Event.indexPoolUnmap] else []),
        fGeomPoolStateStack := debugPoolState :: s.fGeomPoolStateStack,
        fGeoSrcStateStack := pushedSrcState :: s.fGeoSrcStateStack } := by
  obtain ⟨_, _, hvp, hip, _, _⟩ := hv
  cases hst : s.fGeoSrcStateStack with
  | nil => simp [getGeomSrc, back, hst] at hg
  | cons g0 rest =>
    have hg0 : g0 = g := by simpa [getGeomSrc, back, hst] using hg
    subst hg0
    have hgv : g0.fVertexSrc = kReserved_GeometrySrcType → s.fVertexPool = true :=
      hvp g0 (by simp [hst])
    have hgi : g0.fIndexSrc = kReserved_GeometrySrcType → s.fIndexPool = true :=
      hip g0 (by simp [hst])
    by_cases h1 : g0.fVertexSrc = kReserved_GeometrySrcType <;>
    by_cases h2 : g0.fIndexSrc = kReserved_GeometrySrcType <;>
    simp [pushGeometrySource, geometrySourceWillPush, getGeomSrc, back, hst, h1, h2,
      finalizeReservedVertices, finalizeReservedIndices, emit, hgv, hgi]

theorem popGeometrySource_pushed (s : GrGpu) (hne : s.fGeoSrcStateStack ≠ [])
    (hpl : s.fGeomPoolStateStack ≠ []) (p : GeometryPoolState) :
    popGeometrySource
      { s with fGeomPoolStateStack := p :: s.fGeomPoolStateStack,
               fGeoSrcStateStack := pushedSrcState :: s.fGeoSrcStateStack } = .ok s := by
  cases hst : s.fGeoSrcStateStack with
  | nil => exact absurd hst hne
  | cons g rest =>
    cases hp : s.fGeomPoolStateStack with
    | nil => exact absurd hp hpl
    | cons q qs =>
      cases s
      simp only at hst hp
      subst hst hp
      simp [popGeometrySource, geometrySourceWillPop, fromBack, pop_back, back,
        releasePreviousVertexSource, releasePreviousIndexSource, pushedSrcState]

/-- From a valid state a push followed by a pop returns the state it started
from, the log apart. -/
theorem pushGeometrySource_popGeometrySource (s : GrGpu) (hv : Valid s) :
    ∃ s1 s2 g, getGeomSrc s = .ok g ∧ pushGeometrySource s = .ok s1 ∧
      popGeometrySource s1 = .ok s2 ∧
      s2 = { s with log := s.log ++
              (if g.fVertexSrc = kReserved_GeometrySrcType then [Event.vertexPoolUnmap] else []) ++
              (if g.fIndexSrc = kReserved_GeometrySrcType then [Event.indexPoolUnmap] else []) } := by
  have hne := hv.1
  have hlen := hv.2.1
  cases hst : s.fGeoSrcStateStack with
  | nil => exact absurd hst hne
  | cons g rest =>
    have hg : getGeomSrc s = .ok g := by simp [getGeomSrc, back, hst]
    have hpne : s.fGeomPoolStateStack ≠ [] := by
      intro h
      rw [h, hst] at hlen
      simp at hlen
    let t : GrGpu :=
      { s with log := s.log ++
          (if g.fVertexSrc = kReserved_GeometrySrcType then [Event.vertexPoolUnmap] else []) ++
          (if g.fIndexSrc = kReserved_GeometrySrcType then [Event.indexPoolUnmap] else []) }
    have hpop := popGeometrySource_pushed t hne hpne debugPoolState
    refine ⟨_, t, g, hg, pushGeometrySource_effect s hv g hg, hpop, ?_⟩
    simp only [t, hst]

/-- C21: from a valid state, `pushGeometrySource` followed at once by
`popGeometrySource` returns, and both stacks (their depth and every level's source
kinds, buffers, counts and stride), every buffer's reference count and both pool
use counters are as before the push.  The state afterwards is the state before
with one change: the log of backend calls has gained the unmap of the vertex pool
when the top level's vertex source was `Reserved`, and the unmap of the index pool
when its index source was `Reserved`. -/
theorem pushPop_restores_state (s : GrGpu) (hv : Valid s) :
    ∃ s1 s2 g, getGeomSrc s = .ok g ∧ pushGeometrySource s = .ok s1 ∧
      popGeometrySource s1 = .ok s2 ∧
      s2.fGeoSrcStateStack = s.fGeoSrcStateStack ∧
      s2.fGeomPoolStateStack = s.fGeomPoolStateStack ∧
      s2.refCnt = s.refCnt ∧
      s2.fVertexPoolUseCnt = s.fVertexPoolUseCnt ∧
      s2.fIndexPoolUseCnt = s.fIndexPoolUseCnt ∧
      s2 = { s with log := s.log ++
              (if g.fVertexSrc = kReserved_GeometrySrcType then [Event.vertexPoolUnmap] else []) ++
              (if g.fIndexSrc = kReserved_GeometrySrcType then [Event.indexPoolUnmap] else []) } := by
  obtain ⟨s1, s2, g, hg, h1, h2, h3⟩ := pushGeometrySource_popGeometrySource s hv
  refine ⟨s1, s2, g, hg, h1, h2, ?_, ?_, ?_, ?_, ?_, h3⟩
  all_goals
    rw [h3]

theorem pushPop_restores_state_witness :
    Valid reservedVertices ∧
    ∃ s1 s2, pushGeometrySource reservedVertices = .ok s1 ∧
      popGeometrySource s1 = .ok s2 ∧
      s2.fGeoSrcStateStack = reservedVertices.fGeoSrcStateStack ∧
      s2.fGeomPoolStateStack = reservedVertices.fGeomPoolStateStack ∧
      s2.refCnt = reservedVertices.refCnt ∧
      s2.fVertexPoolUseCnt = 1 ∧ s2.fIndexPoolUseCnt = 0 ∧
      s2.log = [.vertexPoolUnmap] := by
  refine ⟨by decide, ?_⟩
  obtain ⟨s1, s2, g, hg, h1, h2, h3, h4, h5, h6, h7, h8⟩ :=
    pushPop_restores_state reservedVertices (by decide)
  have hg2 : g = { reservedTop with fIndexSrc := kBuffer_GeometrySrcType, fIndexBuffer := 2 } := by
    have h : getGeomSrc reservedVertices =
        .ok { reservedTop with fIndexSrc := kBuffer_GeometrySrcType, fIndexBuffer := 2 } := rfl
    rw [h] at hg
    cases hg
    rfl
  refine ⟨s1, s2, h1, h2, h3, h4, h5, by rw [h6]; rfl, by rw [h7]; rfl, ?_⟩
  rw [h8, hg2]
  rfl

/-! ### Saving and restoring the trace markers -/

theorem addEachGpuTraceMarker_spec (env : Env) (htr : env.gpuTracingSupport = true)
    (markers : List GrGpuTraceMarker) :
    ∀ s : GrGpu, s.fGpuTraceMarkerCount ≥ 0 →
      ∃ s1, addEachGpuTraceMarker env markers s = .ok s1 ∧
        s1.fActiveTraceMarkers = s.fActiveTraceMarkers ++ markers ∧
        s1.fStoredTraceMarkers = s.fStoredTraceMarkers ∧
        s1.log = s.log ++ List.replicate markers.length .didAddGpuTraceMarker ∧
        s1.fGpuTraceMarkerCount = s.fGpuTraceMarkerCount + markers.length := by
  induction markers with
  | nil =>
    intro s _
    exact ⟨s, rfl, by simp, rfl, by simp, by simp⟩
  | cons m ms ih =>
    intro s hc
    let sm : GrGpu :=
      { emit .didAddGpuTraceMarker
          { s with fActiveTraceMarkers := GrTraceMarkerSet.add m s.fActiveTraceMarkers } with
        fGpuTraceMarkerCount := s.fGpuTraceMarkerCount + 1 }
    have hstep : addGpuTraceMarker env m s = .ok sm := by
      simp [addGpuTraceMarker, htr, hc, emit, sm]
    have hcm : sm.fGpuTraceMarkerCount ≥ 0 := by
      show s.fGpuTraceMarkerCount + 1 ≥ 0
      omega
    obtain ⟨s1, h1, ha1, hs1, hl1, hc1⟩ := ih sm hcm
    refine ⟨s1, ?_, ?_, hs1, ?_, ?_⟩
    · simp [addEachGpuTraceMarker, hstep, h1]
    · rw [ha1]
      simp [sm, emit, GrTraceMarkerSet.add]
    · rw [hl1]
      simp [emit, List.replicate_succ, sm]
    · rw [hc1]
      simp [sm]
      ring

theorem removeEachStored_spec (markers : List GrGpuTraceMarker) :
    ∀ stored extra : List GrGpuTraceMarker, stored.Perm (markers ++ extra) →
      ∃ r, removeEachStored markers stored = .ok r ∧ r.Perm extra := by
  induction markers with
  | nil =>
    intro stored extra hperm
    exact ⟨stored, rfl, by simpa using hperm⟩
  | cons m ms ih =>
    intro stored extra hperm
    have hmem : m ∈ stored := hperm.symm.subset (by simp)
    have hperm1 : (stored.erase m).Perm (ms ++ extra) := by
      have := hperm.erase m
      simpa using this
    obtain ⟨r, hr, hp⟩ := ih (stored.erase m) extra hperm1
    exact ⟨r, by simp [removeEachStored, GrTraceMarkerSet.remove, hmem, hr], hp⟩

/-- C22: with tracing supported, the stored marker set empty and the live count
covering the active markers (it equals their number in every state reached
through the trace-marker interface), `saveActiveTraceMarkers` followed by
`restoreActiveTraceMarkers` returns; afterwards the active set is the active set as
it was before the save, the stored set is empty again and the live marker count is
its value before the save.  The backend has been told of one removal and then of
one addition per marker. -/
theorem saveRestore_roundTrip (env : Env) (s : GrGpu)
    (htr : env.gpuTracingSupport = true) (hst : s.fStoredTraceMarkers = [])
    (hcnt : s.fGpuTraceMarkerCount ≥ s.fActiveTraceMarkers.length) :
    ∃ s1 s2, saveActiveTraceMarkers env s = .ok s1 ∧
      restoreActiveTraceMarkers env s1 = .ok s2 ∧
      s2.fActiveTraceMarkers = s.fActiveTraceMarkers ∧
      s2.fStoredTraceMarkers = [] ∧
      s2.fGpuTraceMarkerCount = s.fGpuTraceMarkerCount ∧
      s2.log = s.log ++
        List.replicate s.fActiveTraceMarkers.length .didRemoveGpuTraceMarker ++
        List.replicate s.fActiveTraceMarkers.length .didAddGpuTraceMarker := by
  have hadd : GrTraceMarkerSet.addSet s.fActiveTraceMarkers s.fStoredTraceMarkers =
      s.fActiveTraceMarkers := by
    rw [GrTraceMarkerSet.addSet_eq, hst]
    simp
  obtain ⟨s1, h1, hp, hs, hl, hc⟩ := removeEachGpuTraceMarker_spec env htr
    s.fActiveTraceMarkers { s with fStoredTraceMarkers := s.fActiveTraceMarkers } []
    (by simp) hcnt
  have ha1 : s1.fActiveTraceMarkers = [] := List.Perm.eq_nil hp
  have hsave : saveActiveTraceMarkers env s = .ok s1 := by
    unfold saveActiveTraceMarkers
    rw [if_pos htr, if_neg (by simp [GrTraceMarkerSet.count, hst])]
    simp only [hadd]
    exact h1
  simp only at hs hl hc
  have hc0 : s1.fGpuTraceMarkerCount ≥ 0 := by
    rw [hc]
    omega
  obtain ⟨sa, h2, haa, hsa, hla, hca⟩ :=
    addEachGpuTraceMarker_spec env htr s1.fStoredTraceMarkers s1 hc0
  obtain ⟨r, hr, hrp⟩ := removeEachStored_spec sa.fActiveTraceMarkers sa.fStoredTraceMarkers []
    (by rw [haa, hsa, ha1]; simp)
  have hr0 : r = [] := List.Perm.eq_nil hrp
  refine ⟨s1, { sa with fStoredTraceMarkers := r }, hsave, ?_, ?_, hr0, ?_, ?_⟩
  · unfold restoreActiveTraceMarkers
    rw [if_pos htr, if_neg (by simp [GrTraceMarkerSet.count, ha1])]
    simp [h2, hr]
  · show sa.fActiveTraceMarkers = s.fActiveTraceMarkers
    rw [haa, ha1, hs]
    simp
  · show sa.fGpuTraceMarkerCount = s.fGpuTraceMarkerCount
    rw [hca, hc, hs]
    ring
  · show sa.log = _
    rw [hla, hl, hs]

theorem saveRestore_roundTrip_witness :
    sampleEnv.gpuTracingSupport = true ∧ twoMarkersActive.fStoredTraceMarkers = [] ∧
    twoMarkersActive.fGpuTraceMarkerCount ≥ twoMarkersActive.fActiveTraceMarkers.length ∧
    ∃ s1 s2, saveActiveTraceMarkers sampleEnv twoMarkersActive = .ok s1 ∧
      restoreActiveTraceMarkers sampleEnv s1 = .ok s2 ∧
      s2.fActiveTraceMarkers = [markerA, markerB] ∧
      s2.fStoredTraceMarkers = [] ∧
      s2.fGpuTraceMarkerCount = 2 ∧
      s2.log = [.didRemoveGpuTraceMarker, .didRemoveGpuTraceMarker,
        .didAddGpuTraceMarker, .didAddGpuTraceMarker] := by
  refine ⟨rfl, rfl, by decide, ?_⟩
  obtain ⟨s1, s2, h1, h2, h3, h4, h5, h6⟩ :=
    saveRestore_roundTrip sampleEnv twoMarkersActive rfl rfl (by decide)
  exact ⟨s1, s2, h1, h2, h3, h4, h5, by rw [h6]; rfl⟩

/-! ### Setting the buffer the top level holds -/

/-- Setting the vertex source to the buffer the top level already holds: the
release of the previous source, which comes first, leaves the buffer with one
reference fewer, and the call as a whole leaves its count as it was. -/
theorem setVertexSourceToBuffer_same_buffer (s : GrGpu) (g : GeometrySrcState)
    (hg : getGeomSrc s = .ok g) (hk : g.fVertexSrc = kBuffer_GeometrySrcType) :
    ∃ sm s1, releasePreviousVertexSource s = .ok sm ∧
      sm.refCnt g.fVertexBuffer = s.refCnt g.fVertexBuffer - 1 ∧
      setVertexSourceToBuffer g.fVertexBuffer s = .ok s1 ∧
      s1.refCnt g.fVertexBuffer = s.refCnt g.fVertexBuffer := by
  cases hst : s.fGeoSrcStateStack with
  | nil => simp [getGeomSrc, back, hst] at hg
  | cons g0 rest =>
    have hg0 : g0 = g := by simpa [getGeomSrc, back, hst] using hg
    subst hg0
    simp [setVertexSourceToBuffer, releasePreviousVertexSource, back, setBack, hst, hk,
      unref, ref, Function.update_apply]

/-- The same for the index source. -/
theorem setIndexSourceToBuffer_same_buffer (s : GrGpu) (g : GeometrySrcState)
    (hg : getGeomSrc s = .ok g) (hk : g.fIndexSrc = kBuffer_GeometrySrcType) :
    ∃ sm s1, releasePreviousIndexSource s = .ok sm ∧
      sm.refCnt g.fIndexBuffer = s.refCnt g.fIndexBuffer - 1 ∧
      setIndexSourceToBuffer g.fIndexBuffer s = .ok s1 ∧
      s1.refCnt g.fIndexBuffer = s.refCnt g.fIndexBuffer := by
  cases hst : s.fGeoSrcStateStack with
  | nil => simp [getGeomSrc, back, hst] at hg
  | cons g0 rest =>
    have hg0 : g0 = g := by simpa [getGeomSrc, back, hst] using hg
    subst hg0
    simp [setIndexSourceToBuffer, releasePreviousIndexSource, back, setBack, hst, hk,
      unref, ref, Function.update_apply]

/-- C23: the code lets the reference count reach zero.  After
`setVertexSourceToBuffer 1` on a freshly constructed object the top level holds
buffer 1 and that is the only reference (count 1).  Setting the vertex source to
buffer 1 again starts with `releasePreviousVertexSource`, after which the count of
buffer 1 is 0; the reference is taken again only afterwards, so that the count is 1
when the call returns.  `setIndexSourceToBuffer` does the same. -/
theorem setSourceToBuffer_same_buffer_refCnt_zero :
    (∃ s1 top sm s2, setVertexSourceToBuffer 1 init = .ok s1 ∧
      getGeomSrc s1 = .ok top ∧ top.fVertexSrc = kBuffer_GeometrySrcType ∧
      top.fVertexBuffer = 1 ∧ s1.refCnt 1 = 1 ∧
      releasePreviousVertexSource s1 = .ok sm ∧ sm.refCnt 1 = 0 ∧
      setVertexSourceToBuffer 1 s1 = .ok s2 ∧ s2.refCnt 1 = 1) ∧
    (∃ s1 top sm s2, setIndexSourceToBuffer 1 init = .ok s1 ∧
      getGeomSrc s1 = .ok top ∧ top.fIndexSrc = kBuffer_GeometrySrcType ∧
      top.fIndexBuffer = 1 ∧ s1.refCnt 1 = 1 ∧
      releasePreviousIndexSource s1 = .ok sm ∧ sm.refCnt 1 = 0 ∧
      setIndexSourceToBuffer 1 s1 = .ok s2 ∧ s2.refCnt 1 = 1) :=
  ⟨⟨_, _, _, _, rfl, rfl, rfl, rfl, by decide, rfl, by decide, rfl, by decide⟩,
   ⟨_, _, _, _, rfl, rfl, rfl, rfl, by decide, rfl, by decide, rfl, by decide⟩⟩

end GrGpu
